import Mathlib

/-!
# Glowing eyes animation (`Eyes.cpp`)

A shallow embedding of the module that draws and animates a pair of eyes:
the per-eye geometry, the squash transform used for blinking, the look offset,
the breathing glow, the blink state machine and the public control surface.

Conventions of the embedding

* `int` values are `Int`; the C operator `/` on `int` is `Int.tdiv`
  (truncation toward zero).  Where the operands of `+`, `-` and `*` on `int`
  are not bounded by the program (sizes, positions, the products of
  `set_eye_squash`), the result wraps to 32 bits in two's complement
  (`wrap32`), as the compiled code does; an expression built from these three
  operators alone is wrapped once, which gives the same value as wrapping
  after every operation.
* `uint32_t` values are `Nat` below `2^32`; `+` and `-` on them wrap
  (`add32`, `sub32`).
* `float` values are rationals; every arithmetic operation, conversion and
  literal is rounded to IEEE-754 binary32 with round-to-nearest-even
  (`F32.rnd`), each operation on its own (no fused multiply-add).
  The divisors `blinkDur * 2` and `breathePeriod` are positive in every state
  the program builds, and no intermediate value leaves the binary32 range, so
  the values computed inside the module are finite.  The `float` arguments of
  `Eyes_Look` come from the caller and may be NaN or an infinity: they, and
  the fields `lookX` and `lookY` that store them, are of type `CFloat`.
* `sinf` comes from the C library and is a parameter of the functions that
  call it.
* The graphics toolkit is an external collaborator.  Every call that changes
  a shape or a style is recorded, in order, in a list of `LvCall`; the values
  read back from the toolkit (`lv_obj_get_coords`) are inputs of the function
  that reads them.
* All `millis()` readings taken during one public call are the same reading
  `now`; `esp_random()` returns `r`.
-/

namespace Eyes

/-! ## Machine arithmetic -/

/-- The Arduino macro `constrain(amt, low, high)`:
`((amt)<(low)?(low):((amt)>(high)?(high):(amt)))`. -/
def constrain {α : Type} [LinearOrder α] (amt low high : α) : α :=
  if amt < low then low else if amt > high then high else amt

/-- The value of a 32-bit `int` after overflow: the integer of
`[-2^31, 2^31)` that is congruent to `x` modulo `2^32`. -/
def wrap32 (x : Int) : Int := (x + 2147483648) % 4294967296 - 2147483648

/-- Wrapping `uint32_t` addition. -/
def add32 (a b : Nat) : Nat := (a + b) % 4294967296

/-- Wrapping `uint32_t` subtraction. -/
def sub32 (a b : Nat) : Nat := (a + (4294967296 - b % 4294967296)) % 4294967296

/-! ## IEEE-754 binary32 over the rationals -/

namespace F32

/-- Index of the leading binary digit of `n` (`0` for `n < 2`); the first
argument bounds the number of halvings. -/
def lg : Nat → Nat → Nat
  | 0, _ => 0
  | fuel + 1, n => if n < 2 then 0 else lg fuel (n / 2) + 1

/-- Binary exponent of a non-zero rational: the `e` with `2^e ≤ |q| < 2^(e+1)`. -/
def ilog2 (q : ℚ) : ℤ :=
  let k : ℤ := (lg q.num.natAbs q.num.natAbs : ℤ) - (lg q.den q.den : ℤ)
  if (2 : ℚ) ^ k ≤ |q| then k else k - 1

/-- Round a rational to the nearest integer, ties to the even one. -/
def roundHE (x : ℚ) : ℤ :=
  let f := ⌊x⌋
  let d := x - f
  if d < 1 / 2 then f else if 1 / 2 < d then f + 1 else if f % 2 = 0 then f else f + 1

/-- Unit in the last place of the binary32 format at `q`: 24 significant bits,
minimum exponent `-126` (below it the format is subnormal). -/
def ulp (q : ℚ) : ℚ := (2 : ℚ) ^ (max (ilog2 q) (-126) - 23)

/-- Rounding of a rational to binary32, round-to-nearest-even. -/
def rnd (q : ℚ) : ℚ :=
  if q = 0 then 0 else (roundHE (q / ulp q) : ℚ) * ulp q

/-- Conversion `(float)n` of an integer. -/
def ofInt (n : Int) : ℚ := rnd n

/-- Float product. -/
def mul (a b : ℚ) : ℚ := rnd (a * b)

/-- Float quotient (divisor non-zero). -/
def div (a b : ℚ) : ℚ := rnd (a / b)

/-- Float sum. -/
def add (a b : ℚ) : ℚ := rnd (a + b)

/-- Float difference. -/
def sub (a b : ℚ) : ℚ := rnd (a - b)

/-- Conversion `(int)x` of a float: truncation toward zero. -/
def toInt (x : ℚ) : Int := Int.tdiv x.num x.den

end F32

/-- A C `float` value that may come from the caller: NaN, an infinity, or a
finite number. -/
inductive CFloat
  | nan
  | neg_inf
  | pos_inf
  | fin (q : ℚ)
  deriving DecidableEq, Repr

namespace CFloat

/-- The comparison `a < b` on floats: false as soon as one side is NaN. -/
def lt : CFloat → CFloat → Bool
  | fin a, fin b => decide (a < b)
  | nan, _ => false
  | _, nan => false
  | neg_inf, neg_inf => false
  | neg_inf, _ => true
  | _, neg_inf => false
  | pos_inf, _ => false
  | fin _, pos_inf => true

/-- The comparison `a <= b` on floats: false as soon as one side is NaN. -/
def le : CFloat → CFloat → Bool
  | fin a, fin b => decide (a ≤ b)
  | nan, _ => false
  | _, nan => false
  | neg_inf, _ => true
  | _, pos_inf => true
  | pos_inf, _ => false
  | fin _, neg_inf => false

/-- The Arduino macro `constrain(amt, low, high)` on floats:
`((amt)<(low)?(low):((amt)>(high)?(high):(amt)))`.  Both comparisons are false
for a NaN `amt`, which is returned as it is. -/
def constrain (amt low high : CFloat) : CFloat :=
  if lt amt low then low else if lt high amt then high else amt

/-- Float product. -/
def mul : CFloat → CFloat → CFloat
  | fin a, fin b => fin (F32.mul a b)
  | nan, _ => nan
  | _, nan => nan
  | pos_inf, pos_inf => pos_inf
  | pos_inf, neg_inf => neg_inf
  | neg_inf, pos_inf => neg_inf
  | neg_inf, neg_inf => pos_inf
  | pos_inf, fin b => if b = 0 then nan else if 0 < b then pos_inf else neg_inf
  | neg_inf, fin b => if b = 0 then nan else if 0 < b then neg_inf else pos_inf
  | fin a, pos_inf => if a = 0 then nan else if 0 < a then pos_inf else neg_inf
  | fin a, neg_inf => if a = 0 then nan else if 0 < a then neg_inf else pos_inf

/-- Conversion `(int)x`.  For NaN and the infinities C leaves the result
undefined; the embedding fixes it as `INT_MIN`. -/
def toInt : CFloat → Int
  | fin q => F32.toInt q
  | _ => -2147483648

end CFloat

/-! ## The toolkit calls issued by the module -/

/-- Identity of a drawable handle (`lv_obj_t*`). -/
inductive lv_obj
  | null
  | screen
  | other (id : Nat)
  | group
  | left_base
  | left_core
  | right_base
  | right_core
  deriving DecidableEq, Repr

/-- The two shared style objects of the module state. -/
inductive lv_style
  | style_base
  | style_core
  deriving DecidableEq, Repr

/-- Bounding box `lv_area_t`, both corners inclusive. -/
structure lv_area_t where
  x1 : Int
  y1 : Int
  x2 : Int
  y2 : Int
  deriving DecidableEq, Repr

/-- One recorded toolkit call that creates or changes a shape or a style. -/
inductive LvCall
  | lv_style_init (st : lv_style)
  | lv_style_set_bg_opa (st : lv_style) (v : Int)
  | lv_style_set_radius (st : lv_style) (v : Int)
  | lv_style_set_outline_width (st : lv_style) (v : Int)
  | lv_style_set_border_width (st : lv_style) (v : Int)
  | lv_style_set_bg_color (st : lv_style) (c : Nat)
  | lv_style_set_bg_grad_color (st : lv_style) (c : Nat)
  | lv_style_set_bg_grad_dir (st : lv_style) (v : Int)
  | lv_style_set_shadow_color (st : lv_style) (c : Nat)
  | lv_style_set_shadow_width (st : lv_style) (v : Int)
  | lv_style_set_shadow_spread (st : lv_style) (v : Int)
  | lv_style_set_shadow_opa (st : lv_style) (v : Int)
  | lv_obj_report_style_change (st : lv_style)
  | lv_obj_create (o parent : lv_obj)
  | lv_obj_remove_style_all (o : lv_obj)
  | lv_obj_add_style (o : lv_obj) (st : lv_style)
  | lv_obj_set_size (o : lv_obj) (w h : Int)
  | lv_obj_set_pos (o : lv_obj) (x y : Int)
  | lv_obj_center (o : lv_obj)
  | lv_obj_set_style_radius (o : lv_obj) (r : Int)
  | lv_obj_set_style_shadow_color (o : lv_obj) (c : Nat)
  | lv_obj_set_style_shadow_width (o : lv_obj) (v : Int)
  | lv_obj_set_style_shadow_opa (o : lv_obj) (v : Int)
  | lv_obj_set_style_translate_x (o : lv_obj) (v : Int)
  | lv_obj_set_style_translate_y (o : lv_obj) (v : Int)
  deriving DecidableEq, Repr

/-- Toolkit constant `LV_OPA_COVER`. -/
def LV_OPA_COVER : Int := 255

/-- Toolkit constant `LV_OPA_70`. -/
def LV_OPA_70 : Int := 178

/-- Toolkit constant `LV_OPA_40`. -/
def LV_OPA_40 : Int := 102

/-- Toolkit constant `LV_RADIUS_CIRCLE`. -/
def LV_RADIUS_CIRCLE : Int := 32767

/-- Toolkit constant `LV_GRAD_DIR_VER`. -/
def LV_GRAD_DIR_VER : Int := 1

/-- Modelled from the spec: the Shape collaborator ("set absolute size (w,h);
set absolute position (x,y)"; "get current on-screen bounding box"), which is
not part of the repository.  The bounding box of shape `o` after one call,
given its box `a` before: a size change keeps the top-left corner and moves
the bottom-right one to `x1 + w - 1`, `y1 + h - 1`; a position change moves
the box, keeping its size, to the requested position counted from the origin
`org` of the parent shape; other calls leave the box alone. -/
def lv_obj_apply (org : Int × Int) (o : lv_obj) (a : lv_area_t) : LvCall → lv_area_t
  | .lv_obj_set_size o2 w h =>
      if o2 = o then { a with x2 := a.x1 + w - 1, y2 := a.y1 + h - 1 } else a
  | .lv_obj_set_pos o2 x y =>
      if o2 = o then
        { x1 := org.1 + x, y1 := org.2 + y,
          x2 := org.1 + x + (a.x2 - a.x1), y2 := org.2 + y + (a.y2 - a.y1) }
      else a
  | _ => a

/-- Modelled from the spec: the bounding box of shape `o` after a sequence of
calls (see `lv_obj_apply`). -/
def lv_obj_coords_after (org : Int × Int) (o : lv_obj) (a : lv_area_t)
    (calls : List LvCall) : lv_area_t :=
  calls.foldl (lv_obj_apply org o) a

/-- The centre of a bounding box, computed the way `set_eye_squash` reads it:
`cx = (a.x1 + a.x2) / 2`, `cy = (a.y1 + a.y2) / 2`. -/
def area_centre (a : lv_area_t) : Int × Int :=
  (Int.tdiv (wrap32 (a.x1 + a.x2)) 2, Int.tdiv (wrap32 (a.y1 + a.y2)) 2)

/-- The sizes requested for shape `o` by a sequence of calls, in order. -/
def sizes_set (o : lv_obj) : List LvCall → List (Int × Int)
  | [] => []
  | .lv_obj_set_size o2 w h :: cs => if o2 = o then (w, h) :: sizes_set o cs else sizes_set o cs
  | _ :: cs => sizes_set o cs

/-- All the sizes requested by a sequence of calls, each with the shape it is
requested for, in order. -/
def sizes_of : List LvCall → List (lv_obj × Int × Int)
  | [] => []
  | .lv_obj_set_size o w h :: cs => (o, w, h) :: sizes_of cs
  | _ :: cs => sizes_of cs

/-- All the positions requested by a sequence of calls, each with the shape it
is requested for, in order. -/
def positions_of : List LvCall → List (lv_obj × Int × Int)
  | [] => []
  | .lv_obj_set_pos o x y :: cs => (o, x, y) :: positions_of cs
  | _ :: cs => positions_of cs

/-! ## Data model -/

/-- One eye (`struct EyeLayer`). -/
structure EyeLayer where
  base : lv_obj := .null
  core : lv_obj := .null
  base_w : Int := 0
  base_h : Int := 0
  core_w : Int := 0
  core_h : Int := 0
  cx : Int := 0
  cy : Int := 0
  baseW : Int := 0
  baseH : Int := 0
  coreW : Int := 0
  coreH : Int := 0
  deriving DecidableEq, Repr

/-- The properties of a style object (`lv_style_t`) that the module sets;
`none` is a property that was never set since `lv_style_init`. -/
structure lv_style_t where
  bg_opa : Option Int := none
  radius : Option Int := none
  outline_width : Option Int := none
  border_width : Option Int := none
  bg_color : Option Nat := none
  bg_grad_color : Option Nat := none
  bg_grad_dir : Option Int := none
  shadow_color : Option Nat := none
  shadow_width : Option Int := none
  shadow_spread : Option Int := none
  shadow_opa : Option Int := none
  deriving DecidableEq, Repr

/-- The module state (`struct EyesState`, the global `S`), with the member
initialisers of the source as defaults. -/
structure EyesState where
  group : lv_obj := .null
  left : EyeLayer := {}
  right : EyeLayer := {}
  style_base : lv_style_t := {}
  style_core : lv_style_t := {}
  size : Int := 64
  spacing : Int := 36
  nextBlinkMs : Nat := 0
  blinking : Bool := false
  blinkStart : Nat := 0
  blinkDur : Nat := 120
  breatheStart : Nat := 0
  breathePeriod : Nat := 2200
  glowBase : Int := 60
  glowAdd : Int := 0
  lookX : CFloat := .fin 0
  lookY : CFloat := .fin 0
  colGlow : Nat := 0xFFC21C
  colInner : Nat := 0xFFFDE7
  ready : Bool := false
  deriving DecidableEq, Repr

/-- The state of the module at program start. -/
def S0 : EyesState := {}

/-! ## Float literals of the source -/

/-- Literal `0.86f`. -/
def f0_86 : ℚ := F32.rnd (86 / 100)

/-- Literal `0.28f`. -/
def f0_28 : ℚ := F32.rnd (28 / 100)

/-- Literal `0.66f`. -/
def f0_66 : ℚ := F32.rnd (66 / 100)

/-- Literal `0.9f`. -/
def f0_9 : ℚ := F32.rnd (9 / 10)

/-- Literal `0.16f`. -/
def f0_16 : ℚ := F32.rnd (16 / 100)

/-- Literal `0.18f`. -/
def f0_18 : ℚ := F32.rnd (18 / 100)

/-- Literal `0.5f`. -/
def f0_5 : ℚ := F32.rnd (1 / 2)

/-- Literal `1.f`. -/
def f1 : ℚ := F32.rnd 1

/-- Literal `2.f`. -/
def f2 : ℚ := F32.rnd 2

/-- Literal `88.f`. -/
def f88 : ℚ := F32.rnd 88

/-- Literal `3.1415926f`. -/
def f3_1415926 : ℚ := F32.rnd (31415926 / 10000000)

/-! ## Helpers of the source -/

/-- Source `style_init_if_needed()`. -/
def style_init_if_needed (S : EyesState) : EyesState × List LvCall :=
  ({ S with
      style_base :=
        { bg_opa := some LV_OPA_COVER, radius := some LV_RADIUS_CIRCLE,
          outline_width := some 0, border_width := some 0,
          bg_color := some S.colGlow, bg_grad_color := some S.colInner,
          bg_grad_dir := some LV_GRAD_DIR_VER, shadow_color := some S.colGlow,
          shadow_width := some 28, shadow_spread := some 2,
          shadow_opa := some LV_OPA_70 },
      style_core :=
        { bg_opa := some LV_OPA_COVER, radius := some LV_RADIUS_CIRCLE,
          bg_color := some S.colInner, border_width := some 0,
          outline_width := some 0 } },
   [ .lv_style_init .style_base,
     .lv_style_set_bg_opa .style_base LV_OPA_COVER,
     .lv_style_set_radius .style_base LV_RADIUS_CIRCLE,
     .lv_style_set_outline_width .style_base 0,
     .lv_style_set_border_width .style_base 0,
     .lv_style_set_bg_color .style_base S.colGlow,
     .lv_style_set_bg_grad_color .style_base S.colInner,
     .lv_style_set_bg_grad_dir .style_base LV_GRAD_DIR_VER,
     .lv_style_set_shadow_color .style_base S.colGlow,
     .lv_style_set_shadow_width .style_base 28,
     .lv_style_set_shadow_spread .style_base 2,
     .lv_style_set_shadow_opa .style_base LV_OPA_70,
     .lv_style_init .style_core,
     .lv_style_set_bg_opa .style_core LV_OPA_COVER,
     .lv_style_set_radius .style_core LV_RADIUS_CIRCLE,
     .lv_style_set_bg_color .style_core S.colInner,
     .lv_style_set_border_width .style_core 0,
     .lv_style_set_outline_width .style_core 0 ])

/-- Source `make_eye(eye, parent, x, y, w)`; `b` and `c` are the handles that
the two `lv_obj_create` calls return. -/
def make_eye (eye : EyeLayer) (b c parent : lv_obj) (x y w : Int) :
    EyeLayer × List LvCall :=
  let h := F32.toInt (F32.mul (F32.ofInt w) f0_86)
  let r := F32.toInt (F32.mul (F32.ofInt w) f0_28)
  let cw := F32.toInt (F32.mul (F32.ofInt w) f0_66)
  let ch := F32.toInt (F32.mul (F32.ofInt h) f0_66)
  ({ eye with base := b, base_w := w, base_h := h, core := c, core_w := cw, core_h := ch },
   [ .lv_obj_create b parent,
     .lv_obj_remove_style_all b,
     .lv_obj_add_style b .style_base,
     .lv_obj_set_size b w h,
     .lv_obj_set_style_radius b r,
     .lv_obj_set_pos b (wrap32 (x - Int.tdiv w 2)) (wrap32 (y - Int.tdiv h 2)),
     .lv_obj_create c b,
     .lv_obj_remove_style_all c,
     .lv_obj_add_style c .style_core,
     .lv_obj_set_size c cw ch,
     .lv_obj_center c,
     .lv_obj_set_style_shadow_color c 0xFFFFFF,
     .lv_obj_set_style_shadow_width c 14,
     .lv_obj_set_style_shadow_opa c LV_OPA_40 ])

/-- Source `schedule_next_blink()`: `rnd = (uint16_t)(1500 + esp_random() % 2500)`,
`S.nextBlinkMs = millis() + rnd`. -/
def schedule_next_blink (S : EyesState) (now r : Nat) : EyesState :=
  let rnd := (1500 + r % 2500) % 65536
  { S with nextBlinkMs := add32 now rnd }

/-! ## Squash transform -/

/-- Source `set_eye_squash(eye, hPercent)`; `a` is the box returned by
`lv_obj_get_coords(eye.base, &a)`.  The eye record itself is only read. -/
def set_eye_squash (eye : EyeLayer) (a : lv_area_t) (hPercent : Int) : List LvCall :=
  let hPercent := constrain hPercent 8 100
  let new_h := Int.tdiv (wrap32 (eye.base_h * hPercent)) 100
  let new_ch := Int.tdiv (wrap32 (eye.core_h * hPercent)) 100
  let cx := Int.tdiv (wrap32 (a.x1 + a.x2)) 2
  let cy := Int.tdiv (wrap32 (a.y1 + a.y2)) 2
  [ .lv_obj_set_size eye.base eye.base_w new_h,
    .lv_obj_set_pos eye.base (wrap32 (cx - Int.tdiv eye.base_w 2))
      (wrap32 (cy - Int.tdiv new_h 2)),
    .lv_obj_set_size eye.core eye.core_w new_ch,
    .lv_obj_center eye.core ]

/-- A run of `set_eye_squash` calls on one eye; each entry is the box read
back at that call and the percent requested. -/
def squash_seq (eye : EyeLayer) : List (lv_area_t × Int) → List LvCall
  | [] => []
  | ap :: ps => set_eye_squash eye ap.1 ap.2 ++ squash_seq eye ps

/-! ## Look offset, breathing, blinking -/

/-- Source `apply_look_offset(eye, nx, ny)`. -/
def apply_look_offset (S : EyesState) (eye : EyeLayer) (nx ny : CFloat) : List LvCall :=
  let maxShift := F32.toInt (F32.mul (F32.ofInt S.size) f0_16)
  let dx := CFloat.toInt (CFloat.mul nx (.fin (F32.ofInt maxShift)))
  let dy := CFloat.toInt (CFloat.mul ny (.fin (F32.ofInt maxShift)))
  [ .lv_obj_set_style_translate_x eye.core dx,
    .lv_obj_set_style_translate_y eye.core dy ]

/-- Source `update_breath()`. -/
def update_breath (sinf : ℚ → ℚ) (S : EyesState) (now : Nat) : List LvCall :=
  let t := sub32 now S.breatheStart % S.breathePeriod
  let ph := F32.div (F32.ofInt t) (F32.ofInt S.breathePeriod)
  let s := F32.add f0_5 (F32.mul f0_5 (sinf (F32.mul (F32.mul ph f2) f3_1415926)))
  let base := constrain (S.glowBase + S.glowAdd) 0 100
  let width := F32.toInt
    (F32.add (F32.add (F32.ofInt 16) (F32.mul (F32.ofInt 12) s)) (F32.mul (F32.ofInt base) f0_18))
  let opa := F32.toInt (F32.add (F32.ofInt 120) (F32.mul (F32.ofInt 80) s))
  [ .lv_obj_set_style_shadow_width S.left.base width,
    .lv_obj_set_style_shadow_opa S.left.base opa,
    .lv_obj_set_style_shadow_width S.right.base width,
    .lv_obj_set_style_shadow_opa S.right.base opa ]

/-- Source `update_blink()`; `aL` and `aR` are the boxes that
`lv_obj_get_coords` returns for the left and the right outer shape. -/
def update_blink (S : EyesState) (now r : Nat) (aL aR : lv_area_t) :
    EyesState × List LvCall :=
  if !S.blinking then
    (if now ≥ S.nextBlinkMs then { S with blinking := true, blinkStart := now } else S, [])
  else
    let ph := F32.div (F32.ofInt (sub32 now S.blinkStart)) (F32.ofInt (S.blinkDur * 2))
    if ph ≥ f1 then
      let S1 := { S with blinking := false }
      (schedule_next_blink S1 now r,
        set_eye_squash S1.left aL 100 ++ set_eye_squash S1.right aR 100)
    else if ph < f0_5 then
      let h := 100 - F32.toInt (F32.mul (F32.div ph f0_5) f88)
      (S, set_eye_squash S.left aL h ++ set_eye_squash S.right aR h)
    else
      let p := F32.div (F32.sub ph f0_5) f0_5
      let h := 12 + F32.toInt (F32.mul p f88)
      (S, set_eye_squash S.left aL h ++ set_eye_squash S.right aR h)

/-! ## Public API -/

/-- Modelled from the spec: the Shape collaborator ("set absolute size (w,h)"),
which is not part of the repository: the width read back from a shape is the
one most recently set, and `0` for a shape whose size was never set. -/
def lv_obj_get_width (calls : List LvCall) (o : lv_obj) : Int :=
  (((sizes_set o calls).getLast?).map Prod.fst).getD 0

/-- Modelled from the spec: the height read back from a shape, as
`lv_obj_get_width`. -/
def lv_obj_get_height (calls : List LvCall) (o : lv_obj) : Int :=
  (((sizes_set o calls).getLast?).map Prod.snd).getD 0

/-- Source `Eyes_Create(parent, cx, cy, spacing, size)`. -/
def Eyes_Create (S : EyesState) (parent : lv_obj) (cx cy spacing size : Int)
    (now r : Nat) : EyesState × List LvCall :=
  let parent := if parent = .null then lv_obj.screen else parent
  let S := { S with size := size, spacing := spacing }
  let (S, t1) := style_init_if_needed S
  let S := { S with group := .group }
  let t2 : List LvCall :=
    [ .lv_obj_create .group parent,
      .lv_obj_remove_style_all .group,
      .lv_obj_set_size .group (wrap32 (size * 2 + spacing + 8))
        (wrap32 (F32.toInt (F32.mul (F32.ofInt size) f0_9) + 8)) ]
  let gw := lv_obj_get_width (t1 ++ t2) S.group
  let gh := lv_obj_get_height (t1 ++ t2) S.group
  let t3 : List LvCall :=
    [ .lv_obj_set_pos S.group (wrap32 (cx - Int.tdiv gw 2)) (wrap32 (cy - Int.tdiv gh 2)) ]
  let leftX := wrap32 (Int.tdiv gw 2 - Int.tdiv spacing 2 - Int.tdiv size 2)
  let rightX := wrap32 (Int.tdiv gw 2 + Int.tdiv spacing 2 + Int.tdiv size 2)
  let y := Int.tdiv gh 2
  let (l, t4) := make_eye S.left .left_base .left_core S.group leftX y size
  let S := { S with left := l }
  let (rt, t5) := make_eye S.right .right_base .right_core S.group rightX y size
  let S := { S with right := rt }
  let S := { S with lookX := .fin 0, lookY := .fin 0 }
  let t6 := apply_look_offset S S.left (.fin 0) (.fin 0)
    ++ apply_look_offset S S.right (.fin 0) (.fin 0)
  let S := { S with breatheStart := now }
  let S := schedule_next_blink S now r
  ({ S with ready := true }, t1 ++ t2 ++ t3 ++ t4 ++ t5 ++ t6)

/-- Source `Eyes_Update()`. -/
def Eyes_Update (sinf : ℚ → ℚ) (S : EyesState) (now r : Nat) (aL aR : lv_area_t) :
    EyesState × List LvCall :=
  if !S.ready then (S, [])
  else
    let t1 := update_breath sinf S now
    let (S1, t2) := update_blink S now r aL aR
    let t3 := apply_look_offset S1 S1.left S1.lookX S1.lookY
      ++ apply_look_offset S1 S1.right S1.lookX S1.lookY
    (S1, t1 ++ t2 ++ t3)

/-- Source `Eyes_Look(nx, ny)`. -/
def Eyes_Look (S : EyesState) (nx ny : CFloat) : EyesState × List LvCall :=
  if !S.ready then (S, [])
  else
    ({ S with
        lookX := CFloat.constrain nx (.fin (-1)) (.fin 1),
        lookY := CFloat.constrain ny (.fin (-1)) (.fin 1) }, [])

/-- Source `Eyes_BlinkNow()`. -/
def Eyes_BlinkNow (S : EyesState) (now : Nat) : EyesState × List LvCall :=
  if !S.ready then (S, [])
  else ({ S with blinking := true, blinkStart := now }, [])

/-- Source `Eyes_SetColors(inner, glow)`. -/
def Eyes_SetColors (S : EyesState) (inner glow : Nat) : EyesState × List LvCall :=
  let S := if !S.ready then { S with colInner := inner, colGlow := glow } else S
  ({ S with
      style_base :=
        { S.style_base with
            bg_color := some glow, bg_grad_color := some inner, shadow_color := some glow },
      style_core := { S.style_core with bg_color := some inner } },
   [ .lv_style_set_bg_color .style_base glow,
     .lv_style_set_bg_grad_color .style_base inner,
     .lv_style_set_shadow_color .style_base glow,
     .lv_obj_report_style_change .style_base,
     .lv_style_set_bg_color .style_core inner,
     .lv_obj_report_style_change .style_core ])

/-- Source `Eyes_SetGlow(percent)`. -/
def Eyes_SetGlow (S : EyesState) (percent : Int) : EyesState × List LvCall :=
  ({ S with glowAdd := constrain percent (-60) 40 }, [])

/-! ## Sequences of public calls -/

/-- One call of the public API, with the clock reading, the random value and
the boxes read back during the call. -/
inductive Op
  | create (parent : lv_obj) (cx cy spacing size : Int) (now r : Nat)
  | update (now r : Nat) (aL aR : lv_area_t)
  | look (nx ny : CFloat)
  | blinkNow (now : Nat)
  | setColors (inner glow : Nat)
  | setGlow (percent : Int)

/-- The effect of one public call on the module state, with the calls it issues. -/
def step (sinf : ℚ → ℚ) (S : EyesState) : Op → EyesState × List LvCall
  | .create parent cx cy spacing size now r => Eyes_Create S parent cx cy spacing size now r
  | .update now r aL aR => Eyes_Update sinf S now r aL aR
  | .look nx ny => Eyes_Look S nx ny
  | .blinkNow now => Eyes_BlinkNow S now
  | .setColors inner glow => Eyes_SetColors S inner glow
  | .setGlow percent => Eyes_SetGlow S percent

/-- The state after a sequence of public calls from a given state. -/
def run_from (sinf : ℚ → ℚ) (S : EyesState) (ops : List Op) : EyesState :=
  ops.foldl (fun T op => (step sinf T op).1) S

/-- The state after a sequence of public calls from program start. -/
def run (sinf : ℚ → ℚ) (ops : List Op) : EyesState := run_from sinf S0 ops

/-! ## Shorthands used to state the properties -/

/-- The float `x` lies in `[-1, 1]`: `-1.f <= x` and `x <= 1.f` both hold (both
are false for NaN). -/
def in_unit (x : CFloat) : Prop :=
  CFloat.le (.fin (-1)) x = true ∧ CFloat.le x (.fin 1) = true

/-- The call passes no NaN: the two arguments of an `Eyes_Look` are numbers or
infinities; every other call qualifies. -/
def Op.numeric : Op → Bool
  | .look nx ny => decide (nx ≠ .nan ∧ ny ≠ .nan)
  | _ => true

/-- The time `t` into the breathing cycle that `update_breath` computes:
`(millis() - S.breatheStart) % S.breathePeriod`. -/
def breath_t (S : EyesState) (now : Nat) : Nat := sub32 now S.breatheStart % S.breathePeriod

/-- The argument that `update_breath` passes to `sinf`: `ph * 2.f * 3.1415926f`
with `ph = (float)t / (float)S.breathePeriod`. -/
def breath_arg (S : EyesState) (now : Nat) : ℚ :=
  F32.mul (F32.mul (F32.div (F32.ofInt (breath_t S now)) (F32.ofInt S.breathePeriod)) f2)
    f3_1415926

/-- The oscillation value for a sine value `y`: `0.5f + 0.5f * y`. -/
def osc (y : ℚ) : ℚ := F32.add f0_5 (F32.mul f0_5 y)

/-- The oscillation `s` of `update_breath`: `0.5f + 0.5f * sinf(ph * 2.f * 3.1415926f)`. -/
def breath_s (sinf : ℚ → ℚ) (S : EyesState) (now : Nat) : ℚ :=
  F32.add f0_5 (F32.mul f0_5 (sinf (breath_arg S now)))

/-- The shadow width that `update_breath` writes for an oscillation value `s`:
`(int)(16 + (12 * s) + (base * 0.18f))` with `base = constrain(glowBase + glowAdd, 0, 100)`. -/
def breath_width (S : EyesState) (s : ℚ) : Int :=
  F32.toInt
    (F32.add (F32.add (F32.ofInt 16) (F32.mul (F32.ofInt 12) s))
      (F32.mul (F32.ofInt (constrain (S.glowBase + S.glowAdd) 0 100)) f0_18))

/-- The shadow opacity that `update_breath` writes for an oscillation value `s`:
`(int)(120 + 80 * s)`. -/
def breath_opa (s : ℚ) : Int :=
  F32.toInt (F32.add (F32.ofInt 120) (F32.mul (F32.ofInt 80) s))

/-- The blink phase for an elapsed time `e` and a closing time `D`:
`(float)e / (float)(D * 2)`. -/
def phase_at (D e : Nat) : ℚ := F32.div (F32.ofInt e) (F32.ofInt (D * 2))

/-- The percent of the claimed closed form: `100 - 88*e/D` in the closing half
(`e < D`) and `12 + 88*(e - D)/D` in the opening half, with integer division. -/
def blink_formula (D e : Nat) : Int :=
  if e < D then 100 - ((88 * e / D : Nat) : Int) else 12 + ((88 * (e - D) / D : Nat) : Int)

/-- The group width that `Eyes_Create` requests: `size*2 + spacing + 8`. -/
def group_w (spacing size : Int) : Int := wrap32 (size * 2 + spacing + 8)

/-- The group height that `Eyes_Create` requests: `(int)(size*0.9f) + 8`. -/
def group_h (size : Int) : Int := wrap32 (F32.toInt (F32.mul (F32.ofInt size) f0_9) + 8)

/-- Modelled from the spec: the Shape collaborator, which is not part of the
repository.  The screen coordinates of the origin of the shape the group is
created in: the screen, which a null `parent` stands for, has its origin at
`(0, 0)`; `org` is where the origin of any other parent lies. -/
def parent_origin (parent : lv_obj) (org : Int × Int) : Int × Int :=
  if parent = .null ∨ parent = .screen then (0, 0) else org

/-- The box of a shape that has no size and no position yet. -/
def box_new : lv_area_t := { x1 := 0, y1 := 0, x2 := -1, y2 := -1 }

/-- Modelled from the spec: the on-screen box of the group after the calls
`calls`, the group lying in a parent whose origin is `parent_origin parent org`
(see `lv_obj_apply`). -/
def group_box (parent : lv_obj) (org : Int × Int) (calls : List LvCall) : lv_area_t :=
  lv_obj_coords_after (parent_origin parent org) .group box_new calls

/-- Modelled from the spec: the on-screen box of the outer shape `o` of an eye
after the calls `calls`; its position counts from the top-left corner of the
group (see `lv_obj_apply`). -/
def eye_box (o parent : lv_obj) (org : Int × Int) (calls : List LvCall) : lv_area_t :=
  lv_obj_coords_after ((group_box parent org calls).x1, (group_box parent org calls).y1)
    o box_new calls

/-- The outer height that `make_eye` derives from the width: `(int)(w * 0.86f)`. -/
def eye_h (w : Int) : Int := F32.toInt (F32.mul (F32.ofInt w) f0_86)

/-- The phase `ph` that `update_blink` computes at clock reading `now`:
`(float)(now - S.blinkStart) / (float)(S.blinkDur * 2)`. -/
def blink_phase (S : EyesState) (now : Nat) : ℚ :=
  F32.div (F32.ofInt (sub32 now S.blinkStart)) (F32.ofInt (S.blinkDur * 2))

/-- The percent `h` that `update_blink` passes to `set_eye_squash` for a phase
`ph` below `1.f`: `100 - (int)(ph / 0.5f * 88.f)` when `ph < 0.5f`, else
`12 + (int)((ph - 0.5f) / 0.5f * 88.f)`. -/
def blink_height (ph : ℚ) : Int :=
  if ph < f0_5 then 100 - F32.toInt (F32.mul (F32.div ph f0_5) f88)
  else 12 + F32.toInt (F32.mul (F32.div (F32.sub ph f0_5) f0_5) f88)

/-- The calls of `set_eye_squash(S.left, h); set_eye_squash(S.right, h);`. -/
def squash_both (S : EyesState) (aL aR : lv_area_t) (h : Int) : List LvCall :=
  set_eye_squash S.left aL h ++ set_eye_squash S.right aR h

/-- The calls of `apply_look_offset(S.left, S.lookX, S.lookY);
apply_look_offset(S.right, S.lookX, S.lookY);`. -/
def look_both (S : EyesState) : List LvCall :=
  apply_look_offset S S.left S.lookX S.lookY ++ apply_look_offset S S.right S.lookX S.lookY

/-- The state after `Eyes_Create(parent, cx, cy, spacing, size)` followed by
`Eyes_Look(2.0, -3.0)`. -/
def S_looking (S : EyesState) (parent : lv_obj) (cx cy spacing size : Int) (now r : Nat) :
    EyesState :=
  (Eyes_Look (Eyes_Create S parent cx cy spacing size now r).1 (.fin 2) (.fin (-3))).1

/-! ## Concrete states used in the checks -/

/-- The module state after `Eyes_Create(nullptr, 86, 32)` (default spacing 36
and size 64) at clock reading 0 with `esp_random() = 0`: the group lies at the
screen origin. -/
def S_created : EyesState := (Eyes_Create S0 .null 86 32 36 64 0 0).1

/-- The module state after `Eyes_Create(nullptr, 86, 32, 36, 30000000)` at clock
reading 0 with `esp_random() = 0`. -/
def S_big : EyesState := (Eyes_Create S0 .null 86 32 36 30000000 0 0).1

/-- The left eye that `Eyes_Create` builds for the default size 64. -/
def eye64 : EyeLayer :=
  { base := .left_base, core := .left_core, base_w := 64, base_h := 55, core_w := 42, core_h := 36 }

/-- The box of the left outer shape after `Eyes_Create(nullptr, 86, 32)`:
position `(4, 5)` in the group at the screen origin, size `64 x 55`. -/
def box64 : lv_area_t := { x1 := 4, y1 := 5, x2 := 67, y2 := 59 }

/-- The box of the right outer shape after `Eyes_Create(nullptr, 86, 32)`. -/
def box64R : lv_area_t := { x1 := 104, y1 := 5, x2 := 167, y2 := 59 }

/-- A stand-in for `sinf` that returns a value close to the sine at the
arguments used in the checks (`1` at `3.1415926f / 2`, `-1` at
`1.5f * 3.1415926f`, `-3/4` at the argument computed for 1896 ms of a 2200 ms
period, `0` at `0` and at `3.1415926f`) and `0` elsewhere. -/
def sinf_sample (x : ℚ) : ℚ :=
  if x = 6588397 / 4194304 then 1
  else if x = 2470649 / 524288 then -1
  else if x = 11356001 / 2097152 then -3 / 4
  else 0

/-- Modelled from the spec: `sinf` is the C library sine, outside this
repository ("`s = 0.5 + 0.5 * sin(phase * 2π)`").  A model `sinf` of it is close
to the sine at `x` when its value there is within 1/16 of the real sine. -/
def sinf_close (sinf : ℚ → ℚ) (x : ℚ) : Prop :=
  |((sinf x : ℚ) : ℝ) - Real.sin ((x : ℚ) : ℝ)| ≤ 1 / 16

/-- A blink forced at clock reading 1000 on the created state. -/
def S_blinking : EyesState := (Eyes_BlinkNow S_created 1000).1

/-- A blink forced at clock reading 4294966000 (`2^32 - 1296`) on the created
state. -/
def S_late : EyesState := (Eyes_BlinkNow S_created 4294966000).1

/-- The blinking state `S_blinking` with the closing time `blinkDur` set to 11 ms. -/
def S_blink11 : EyesState := { S_blinking with blinkDur := 11 }

/-! ## Properties of the binary32 rounding -/

namespace F32

theorem lg_spec : ∀ (fuel n : Nat), 1 ≤ n → n ≤ fuel →
    2 ^ lg fuel n ≤ n ∧ n < 2 ^ (lg fuel n + 1) := by
  intro fuel
  induction fuel with
  | zero => intro n h1 h2; omega
  | succ f ih =>
    intro n h1 h2
    unfold lg
    by_cases h : n < 2
    · simp only [h, if_true]; omega
    · simp only [h, if_false]
      have h3 := ih (n / 2) (by omega) (by omega)
      constructor
      · have := h3.1
        rw [pow_succ]; omega
      · have := h3.2
        rw [pow_succ]; omega

theorem abs_eq_natAbs_div_den (q : ℚ) : |q| = (q.num.natAbs : ℚ) / (q.den : ℚ) := by
  conv_lhs => rw [← Rat.num_div_den q]
  rw [abs_div, Nat.abs_cast, Nat.cast_natAbs, Int.cast_abs]

theorem ilog2_spec (q : ℚ) (hq : q ≠ 0) :
    (2 : ℚ) ^ ilog2 q ≤ |q| ∧ |q| < (2 : ℚ) ^ (ilog2 q + 1) := by
  have ha1 : 1 ≤ q.num.natAbs := by
    have : q.num ≠ 0 := Rat.num_ne_zero.mpr hq
    omega
  have hb1 : 1 ≤ q.den := q.den_pos
  obtain ⟨hal, hau⟩ := lg_spec q.num.natAbs q.num.natAbs ha1 le_rfl
  obtain ⟨hbl, hbu⟩ := lg_spec q.den q.den hb1 le_rfl
  have hbpos : (0 : ℚ) < (q.den : ℚ) := by exact_mod_cast hb1
  have hal2 : (2 : ℚ) ^ (lg q.num.natAbs q.num.natAbs : ℤ) ≤ (q.num.natAbs : ℚ) := by
    rw [zpow_natCast]; exact_mod_cast hal
  have hau2 : (q.num.natAbs : ℚ) < (2 : ℚ) ^ ((lg q.num.natAbs q.num.natAbs : ℤ) + 1) := by
    have : ((lg q.num.natAbs q.num.natAbs : ℤ) + 1) = ((lg q.num.natAbs q.num.natAbs + 1 : ℕ) : ℤ) := by
      push_cast; ring
    rw [this, zpow_natCast]; exact_mod_cast hau
  have hbl2 : (2 : ℚ) ^ (lg q.den q.den : ℤ) ≤ (q.den : ℚ) := by
    rw [zpow_natCast]; exact_mod_cast hbl
  have hbu2 : (q.den : ℚ) < (2 : ℚ) ^ ((lg q.den q.den : ℤ) + 1) := by
    have : ((lg q.den q.den : ℤ) + 1) = ((lg q.den q.den + 1 : ℕ) : ℤ) := by
      push_cast; ring
    rw [this, zpow_natCast]; exact_mod_cast hbu
  have h2 : (2 : ℚ) ≠ 0 := by norm_num
  have habs := abs_eq_natAbs_div_den q
  unfold ilog2
  simp only
  split_ifs with h
  · refine ⟨h, ?_⟩
    rw [habs, div_lt_iff₀ hbpos]
    have e : (2 : ℚ) ^ ((lg q.num.natAbs q.num.natAbs : ℤ) - (lg q.den q.den : ℤ) + 1)
        = (2 : ℚ) ^ ((lg q.num.natAbs q.num.natAbs : ℤ) + 1) / (2 : ℚ) ^ (lg q.den q.den : ℤ) := by
      rw [← zpow_sub₀ h2]; congr 1; ring
    rw [e, div_mul_eq_mul_div, lt_div_iff₀ (zpow_pos (by norm_num) _)]
    have p1 : (0 : ℚ) < (2 : ℚ) ^ (lg q.den q.den : ℤ) := zpow_pos (by norm_num) _
    have p2 : (0 : ℚ) < (2 : ℚ) ^ ((lg q.num.natAbs q.num.natAbs : ℤ) + 1) := zpow_pos (by norm_num) _
    nlinarith
  · refine ⟨?_, ?_⟩
    · rw [habs, le_div_iff₀ hbpos]
      have e : (2 : ℚ) ^ ((lg q.num.natAbs q.num.natAbs : ℤ) - (lg q.den q.den : ℤ) - 1)
          = (2 : ℚ) ^ (lg q.num.natAbs q.num.natAbs : ℤ) / (2 : ℚ) ^ ((lg q.den q.den : ℤ) + 1) := by
        rw [← zpow_sub₀ h2]; congr 1; ring
      rw [e, div_mul_eq_mul_div, div_le_iff₀ (zpow_pos (by norm_num) _)]
      have p1 : (0 : ℚ) < (2 : ℚ) ^ (lg q.num.natAbs q.num.natAbs : ℤ) := zpow_pos (by norm_num) _
      have p2 : (0 : ℚ) < (2 : ℚ) ^ ((lg q.den q.den : ℤ) + 1) := zpow_pos (by norm_num) _
      nlinarith
    · have : (lg q.num.natAbs q.num.natAbs : ℤ) - (lg q.den q.den : ℤ) - 1 + 1
          = (lg q.num.natAbs q.num.natAbs : ℤ) - (lg q.den q.den : ℤ) := by ring
      rw [this]
      exact lt_of_not_le h

theorem roundHE_ge_floor (x : ℚ) : ⌊x⌋ ≤ roundHE x := by
  unfold roundHE
  simp only
  split_ifs <;> omega

theorem roundHE_le_floor_succ (x : ℚ) : roundHE x ≤ ⌊x⌋ + 1 := by
  unfold roundHE
  simp only
  split_ifs <;> omega

theorem roundHE_intCast (n : ℤ) : roundHE (n : ℚ) = n := by
  unfold roundHE
  simp

theorem roundHE_mono {x y : ℚ} (h : x ≤ y) : roundHE x ≤ roundHE y := by
  have hf : ⌊x⌋ ≤ ⌊y⌋ := Int.floor_mono h
  rcases hf.lt_or_eq with hlt | heq
  · calc roundHE x ≤ ⌊x⌋ + 1 := roundHE_le_floor_succ x
      _ ≤ ⌊y⌋ := hlt
      _ ≤ roundHE y := roundHE_ge_floor y
  · unfold roundHE
    simp only
    rw [heq]
    split_ifs <;> first | omega | (exfalso; linarith)

theorem roundHE_sub_le (x : ℚ) : |(roundHE x : ℚ) - x| ≤ 1 / 2 := by
  have h1 : (⌊x⌋ : ℚ) ≤ x := Int.floor_le x
  have h2 : x < (⌊x⌋ : ℚ) + 1 := Int.lt_floor_add_one x
  unfold roundHE
  simp only
  rw [abs_le]
  split_ifs <;> push_cast <;> constructor <;> linarith

theorem two_zpow_pos (k : ℤ) : (0 : ℚ) < (2 : ℚ) ^ k := zpow_pos (by norm_num) k

theorem ulp_pos (q : ℚ) : 0 < ulp q := two_zpow_pos _

theorem ilog2_le_of_abs_le {p q : ℚ} (hp : p ≠ 0) (hq : q ≠ 0) (h : |p| ≤ |q|) :
    ilog2 p ≤ ilog2 q := by
  have h1 := (ilog2_spec p hp).1
  have h2 := (ilog2_spec q hq).2
  have h3 : (2 : ℚ) ^ ilog2 p < (2 : ℚ) ^ (ilog2 q + 1) := lt_of_le_of_lt (le_trans h1 h) h2
  have h4 := (zpow_lt_zpow_iff_right₀ (by norm_num : (1 : ℚ) < 2)).mp h3
  omega

theorem ilog2_lt_of_abs_lt_zpow {q : ℚ} (hq : q ≠ 0) {k : ℤ} (h : |q| < (2 : ℚ) ^ k) :
    ilog2 q < k := by
  have h1 := (ilog2_spec q hq).1
  exact (zpow_lt_zpow_iff_right₀ (by norm_num : (1 : ℚ) < 2)).mp (lt_of_le_of_lt h1 h)

theorem le_ilog2_of_zpow_le_abs {q : ℚ} (hq : q ≠ 0) {k : ℤ} (h : (2 : ℚ) ^ k ≤ |q|) :
    k ≤ ilog2 q := by
  have h2 := (ilog2_spec q hq).2
  have h4 := (zpow_lt_zpow_iff_right₀ (by norm_num : (1 : ℚ) < 2)).mp (lt_of_le_of_lt h h2)
  omega

theorem rnd_zero : rnd 0 = 0 := by simp [rnd]

/-- A positive rational rounds to at most the top of its binade. -/
theorem rnd_le_top {q : ℚ} (hq : 0 < q) :
    rnd q ≤ (2 : ℚ) ^ (max (ilog2 q) (-126) + 1) := by
  have hne : q ≠ 0 := ne_of_gt hq
  have hu := ulp_pos q
  have h2 : (2 : ℚ) ≠ 0 := by norm_num
  have hq2 : q < (2 : ℚ) ^ (max (ilog2 q) (-126) + 1) := by
    have := (ilog2_spec q hne).2
    rw [abs_of_pos hq] at this
    exact lt_of_lt_of_le this (zpow_le_zpow_right₀ (by norm_num) (by omega))
  have e : (2 : ℚ) ^ (max (ilog2 q) (-126) + 1) = (((2 : ℤ) ^ 24 : ℤ) : ℚ) * ulp q := by
    unfold ulp
    have : max (ilog2 q) (-126) + 1 = 24 + (max (ilog2 q) (-126) - 23) := by ring
    rw [this, zpow_add₀ h2]
    norm_num
  have h3 : q / ulp q ≤ (((2 : ℤ) ^ 24 : ℤ) : ℚ) := by
    rw [div_le_iff₀ hu, ← e]; exact le_of_lt hq2
  have h4 : roundHE (q / ulp q) ≤ (2 : ℤ) ^ 24 := by
    have := roundHE_mono h3
    rwa [roundHE_intCast] at this
  rw [rnd, if_neg hne, e]
  apply mul_le_mul_of_nonneg_right _ (le_of_lt hu)
  exact_mod_cast h4

/-- A positive rational in the normal range rounds to at least the bottom of
its binade. -/
theorem rnd_ge_bot {q : ℚ} (hq : 0 < q) (hn : -126 ≤ ilog2 q) :
    (2 : ℚ) ^ ilog2 q ≤ rnd q := by
  have hne : q ≠ 0 := ne_of_gt hq
  have hu := ulp_pos q
  have h2 : (2 : ℚ) ≠ 0 := by norm_num
  have hmax : max (ilog2 q) (-126) = ilog2 q := max_eq_left hn
  have hq2 : (2 : ℚ) ^ ilog2 q ≤ q := by
    have := (ilog2_spec q hne).1
    rwa [abs_of_pos hq] at this
  have e : (2 : ℚ) ^ ilog2 q = (((2 : ℤ) ^ 23 : ℤ) : ℚ) * ulp q := by
    unfold ulp
    rw [hmax]
    have : ilog2 q = 23 + (ilog2 q - 23) := by ring
    conv_lhs => rw [this]
    rw [zpow_add₀ h2]
    norm_num
  have h3 : (((2 : ℤ) ^ 23 : ℤ) : ℚ) ≤ q / ulp q := by
    rw [le_div_iff₀ hu, ← e]; exact hq2
  have h4 : (2 : ℤ) ^ 23 ≤ roundHE (q / ulp q) := by
    have := roundHE_mono h3
    rwa [roundHE_intCast] at this
  rw [rnd, if_neg hne, e]
  apply mul_le_mul_of_nonneg_right _ (le_of_lt hu)
  exact_mod_cast h4

theorem rnd_nonneg {q : ℚ} (hq : 0 ≤ q) : 0 ≤ rnd q := by
  rcases hq.lt_or_eq with h | h
  · have hne : q ≠ 0 := ne_of_gt h
    rw [rnd, if_neg hne]
    apply mul_nonneg _ (le_of_lt (ulp_pos q))
    have h0 : (0 : ℚ) ≤ q / ulp q := le_of_lt (div_pos h (ulp_pos q))
    have := roundHE_mono h0
    have h00 : roundHE (0 : ℚ) = 0 := by
      have := roundHE_intCast 0
      simpa using this
    rw [h00] at this
    exact_mod_cast this
  · rw [← h, rnd_zero]

/-- Rounding is monotone on the non-negative rationals. -/
theorem rnd_mono {p q : ℚ} (hp : 0 ≤ p) (h : p ≤ q) : rnd p ≤ rnd q := by
  rcases hp.lt_or_eq with hp0 | hp0
  swap
  · rw [← hp0, rnd_zero]; exact rnd_nonneg (le_trans hp h)
  have hq0 : 0 < q := lt_of_lt_of_le hp0 h
  have hpn : p ≠ 0 := ne_of_gt hp0
  have hqn : q ≠ 0 := ne_of_gt hq0
  have hi : ilog2 p ≤ ilog2 q :=
    ilog2_le_of_abs_le hpn hqn (by rwa [abs_of_pos hp0, abs_of_pos hq0])
  by_cases hE : max (ilog2 p) (-126) = max (ilog2 q) (-126)
  · have hu : ulp p = ulp q := by unfold ulp; rw [hE]
    rw [rnd, if_neg hpn, rnd, if_neg hqn, hu]
    apply mul_le_mul_of_nonneg_right _ (le_of_lt (ulp_pos q))
    have : p / ulp q ≤ q / ulp q := div_le_div_of_nonneg_right h (le_of_lt (ulp_pos q))
    exact_mod_cast roundHE_mono this
  · have hlt : max (ilog2 p) (-126) + 1 ≤ ilog2 q := by omega
    calc rnd p ≤ (2 : ℚ) ^ (max (ilog2 p) (-126) + 1) := rnd_le_top hp0
      _ ≤ (2 : ℚ) ^ ilog2 q := zpow_le_zpow_right₀ (by norm_num) hlt
      _ ≤ rnd q := rnd_ge_bot hq0 (by omega)

/-- Integers of magnitude below `2^24` are binary32 values. -/
theorem rnd_intCast (n : ℤ) (hn : |n| < 2 ^ 24) : rnd (n : ℚ) = n := by
  by_cases h0 : n = 0
  · subst h0; simp [rnd]
  have hne : (n : ℚ) ≠ 0 := by exact_mod_cast h0
  have h2 : (2 : ℚ) ≠ 0 := by norm_num
  have habs1 : (1 : ℚ) ≤ |(n : ℚ)| := by
    have : 1 ≤ |n| := Int.one_le_abs h0
    exact_mod_cast this
  have habs2 : |(n : ℚ)| < (2 : ℚ) ^ (24 : ℤ) := by
    have : ((|n| : ℤ) : ℚ) < (((2 : ℤ) ^ 24 : ℤ) : ℚ) := by exact_mod_cast hn
    rw [Int.cast_abs] at this
    norm_num at this ⊢
    exact this
  have he1 : ilog2 (n : ℚ) < 24 := ilog2_lt_of_abs_lt_zpow hne habs2
  have he0 : 0 ≤ ilog2 (n : ℚ) := le_ilog2_of_zpow_le_abs hne (by simpa using habs1)
  obtain ⟨j, hj⟩ := Int.eq_ofNat_of_zero_le (by omega : 0 ≤ 23 - ilog2 (n : ℚ))
  have hu : ulp (n : ℚ) = ((2 : ℚ) ^ j)⁻¹ := by
    unfold ulp
    rw [max_eq_left (by omega)]
    have : ilog2 (n : ℚ) - 23 = -(j : ℤ) := by omega
    rw [this, zpow_neg, zpow_natCast]
  have hdiv : (n : ℚ) / ulp (n : ℚ) = ((n * 2 ^ j : ℤ) : ℚ) := by
    rw [hu, div_inv_eq_mul]; push_cast; ring
  rw [rnd, if_neg hne, hdiv, roundHE_intCast, hu]
  push_cast
  field_simp

theorem rnd_natCast (n : ℕ) (hn : n < 2 ^ 24) : rnd (n : ℚ) = n := by
  have := rnd_intCast (n : ℤ) (by rw [abs_of_nonneg (by positivity)]; exact_mod_cast hn)
  exact_mod_cast this

/-- A non-negative rational at least an integer below `2^24` rounds to at
least that integer. -/
theorem le_rnd_of_natCast_le {n : ℕ} (hn : n < 2 ^ 24) {q : ℚ} (h : (n : ℚ) ≤ q) :
    (n : ℚ) ≤ rnd q := by
  have := rnd_mono (by positivity : (0 : ℚ) ≤ (n : ℚ)) h
  rwa [rnd_natCast n hn] at this

theorem rnd_le_of_le_natCast {n : ℕ} (hn : n < 2 ^ 24) {q : ℚ} (h0 : 0 ≤ q) (h : q ≤ (n : ℚ)) :
    rnd q ≤ (n : ℚ) := by
  have := rnd_mono h0 h
  rwa [rnd_natCast n hn] at this

theorem toInt_intCast (n : ℤ) : toInt (n : ℚ) = n := by
  simp [toInt]

theorem toInt_of_nonneg {q : ℚ} (h : 0 ≤ q) : toInt q = ⌊q⌋ := by
  unfold toInt
  rw [Rat.floor_def, Int.tdiv_eq_ediv (Rat.num_nonneg.mpr h) (by positivity)]

theorem toInt_neg (q : ℚ) : toInt (-q) = -toInt q := by
  simp [toInt, Int.neg_tdiv]

/-- Shape of the rounding of a positive rational in the normal range whose
binade is at most 23: the mantissa is `q * 2^j` with `j = 23 - ilog2 q`. -/
theorem rnd_normal (q : ℚ) (hq : 0 < q) (hn : -126 ≤ ilog2 q) (j : ℕ)
    (hj : (j : ℤ) = 23 - ilog2 q) :
    rnd q = (roundHE (q * 2 ^ j) : ℚ) / 2 ^ j ∧
    (2 : ℚ) ^ 23 ≤ q * 2 ^ j ∧ q * 2 ^ j < (2 : ℚ) ^ 24 := by
  have hne : q ≠ 0 := ne_of_gt hq
  have h2 : (2 : ℚ) ≠ 0 := by norm_num
  have hpos : (0 : ℚ) < (2 : ℚ) ^ j := by positivity
  obtain ⟨hlo, hhi⟩ := ilog2_spec q hne
  rw [abs_of_pos hq] at hlo hhi
  have hu : ulp q = ((2 : ℚ) ^ j)⁻¹ := by
    unfold ulp
    rw [max_eq_left hn]
    have : ilog2 q - 23 = -(j : ℤ) := by omega
    rw [this, zpow_neg, zpow_natCast]
  have e1 : (2 : ℚ) ^ ilog2 q * (2 : ℚ) ^ j = (2 : ℚ) ^ 23 := by
    rw [← zpow_natCast, ← zpow_add₀ h2]
    have : ilog2 q + (j : ℤ) = ((23 : ℕ) : ℤ) := by omega
    rw [this, zpow_natCast]
  have e2 : (2 : ℚ) ^ (ilog2 q + 1) * (2 : ℚ) ^ j = (2 : ℚ) ^ 24 := by
    rw [← zpow_natCast, ← zpow_add₀ h2]
    have : ilog2 q + 1 + (j : ℤ) = ((24 : ℕ) : ℤ) := by omega
    rw [this, zpow_natCast]
  refine ⟨?_, ?_, ?_⟩
  · rw [rnd, if_neg hne, hu, div_inv_eq_mul, div_eq_mul_inv]
  · rw [← e1]; exact mul_le_mul_of_nonneg_right hlo (le_of_lt hpos)
  · rw [← e2]; exact mul_lt_mul_of_pos_right hhi hpos

theorem mul_one_intCast (m : ℤ) (hm : |m| < 2 ^ 24) : mul 1 (ofInt m) = m := by
  unfold mul ofInt
  rw [rnd_intCast m hm, one_mul, rnd_intCast m hm]

theorem mul_neg_one_intCast (m : ℤ) (hm : |m| < 2 ^ 24) : mul (-1) (ofInt m) = ((-m : ℤ) : ℚ) := by
  unfold mul ofInt
  rw [rnd_intCast m hm]
  have : (-1 : ℚ) * (m : ℚ) = ((-m : ℤ) : ℚ) := by push_cast; ring
  rw [this, rnd_intCast (-m) (by rwa [abs_neg])]

end F32

/-! ## Rounding of negative values -/

namespace F32

theorem roundHE_neg (x : ℚ) : roundHE (-x) = -roundHE x := by
  by_cases hx : ((⌊x⌋ : ℤ) : ℚ) = x
  · have h1 : -x = ((-⌊x⌋ : ℤ) : ℚ) := by push_cast; rw [hx]
    rw [h1, roundHE_intCast]
    conv_rhs => rw [← hx, roundHE_intCast]
  · have hlo : (⌊x⌋ : ℚ) < x := lt_of_le_of_ne (Int.floor_le x) hx
    have hhi : x < (⌊x⌋ : ℚ) + 1 := Int.lt_floor_add_one x
    have hfl : ⌊-x⌋ = -⌊x⌋ - 1 := by
      rw [Int.floor_eq_iff]
      push_cast
      constructor <;> linarith
    unfold roundHE
    simp only
    rw [hfl]
    push_cast
    split_ifs <;> first | omega | (exfalso; linarith)

theorem ilog2_neg (q : ℚ) : ilog2 (-q) = ilog2 q := by
  unfold ilog2
  simp only [Rat.num_neg_eq_neg_num, Rat.den_neg_eq_den, Int.natAbs_neg, abs_neg]

theorem ulp_neg (q : ℚ) : ulp (-q) = ulp q := by
  unfold ulp
  rw [ilog2_neg]

theorem rnd_neg (q : ℚ) : rnd (-q) = -rnd q := by
  by_cases h : q = 0
  · subst h; simp [rnd]
  · have h2 : -q ≠ 0 := neg_ne_zero.mpr h
    rw [rnd, if_neg h2, rnd, if_neg h, ulp_neg, neg_div, roundHE_neg]
    push_cast
    ring

/-- Rounding is monotone on all rationals. -/
theorem rnd_mono_all {p q : ℚ} (h : p ≤ q) : rnd p ≤ rnd q := by
  by_cases hp : 0 ≤ p
  · exact rnd_mono hp h
  · have hp2 : 0 ≤ -p := by linarith
    by_cases hq : 0 ≤ q
    · have h1 : 0 ≤ rnd (-p) := rnd_nonneg hp2
      rw [rnd_neg] at h1
      have h3 := rnd_nonneg hq
      linarith
    · have hq2 : 0 ≤ -q := by linarith
      have h1 := rnd_mono hq2 (by linarith : -q ≤ -p)
      rw [rnd_neg, rnd_neg] at h1
      linarith

theorem toInt_mono {p q : ℚ} (hp : 0 ≤ p) (h : p ≤ q) : toInt p ≤ toInt q := by
  rw [toInt_of_nonneg hp, toInt_of_nonneg (le_trans hp h)]
  exact Int.floor_mono h

end F32

/-! ## Squash transform -/

theorem constrain_eq_min_max {α : Type} [LinearOrder α] (x lo hi : α) (h : lo ≤ hi) :
    constrain x lo hi = min (max x lo) hi := by
  unfold constrain
  by_cases h1 : x < lo
  · rw [if_pos h1, max_eq_right (le_of_lt h1), min_eq_left h]
  · rw [if_neg h1, max_eq_left (not_lt.mp h1)]
    by_cases h2 : x > hi
    · rw [if_pos h2, min_eq_right (le_of_lt h2)]
    · rw [if_neg h2, min_eq_left (not_lt.mp h2)]

theorem squash_seq_append (eye : EyeLayer) (ps qs : List (lv_area_t × Int)) :
    squash_seq eye (ps ++ qs) = squash_seq eye ps ++ squash_seq eye qs := by
  induction ps with
  | nil => rfl
  | cons ap ps ih => simp [squash_seq, ih]

theorem sizes_of_append (xs ys : List LvCall) :
    sizes_of (xs ++ ys) = sizes_of xs ++ sizes_of ys := by
  induction xs with
  | nil => rfl
  | cons c cs ih => cases c <;> simp [sizes_of, ih]

theorem Eyes_Create_left_default : S_created.left = eye64 := by decide!

theorem Eyes_Create_left_box :
    lv_obj_coords_after (0, 0) .left_base { x1 := 0, y1 := 0, x2 := -1, y2 := -1 }
      (Eyes_Create S0 .null 86 32 36 64 0 0).2 = box64 := by
  decide!

/-- C2 (code defect): on the left eye that `Eyes_Create` builds for the default
size 64, whose outer box is `(4,5)-(67,59)` with centre `(35, 32)`, one
`set_eye_squash` at 100 percent moves the outer shape to the box whose centre
is `(34, 32)`: the centre is not preserved, it drifts one pixel to the left. -/
theorem set_eye_squash_centre_drifts :
    area_centre box64 = (35, 32) ∧
    set_eye_squash eye64 box64 100 =
      [ .lv_obj_set_size .left_base 64 55, .lv_obj_set_pos .left_base 3 5,
        .lv_obj_set_size .left_core 42 36, .lv_obj_center .left_core ] ∧
    lv_obj_coords_after (0, 0) eye64.base box64 (set_eye_squash eye64 box64 100) =
      { x1 := 3, y1 := 5, x2 := 66, y2 := 59 } ∧
    area_centre (lv_obj_coords_after (0, 0) eye64.base box64 (set_eye_squash eye64 box64 100)) =
      (34, 32) := by
  decide

theorem wrap32_of_range {x : Int} (h1 : -2147483648 ≤ x) (h2 : x ≤ 2147483647) :
    wrap32 x = x := by
  unfold wrap32
  omega

theorem wrap32_range (x : Int) : -2147483648 ≤ wrap32 x ∧ wrap32 x ≤ 2147483647 := by
  unfold wrap32
  omega

/-- The product of a stored height within `±21474836` and a clamped percent
fits a 32-bit `int`. -/
theorem wrap32_mul_percent (h p : Int) (h1 : -21474836 ≤ h) (h2 : h ≤ 21474836) :
    wrap32 (h * constrain p 8 100) = h * constrain p 8 100 := by
  have hc : 8 ≤ constrain p 8 100 ∧ constrain p 8 100 ≤ 100 := by
    unfold constrain
    split_ifs <;> omega
  have hc0 : (0 : Int) ≤ constrain p 8 100 := by omega
  have u1 : h * constrain p 8 100 ≤ 21474836 * constrain p 8 100 :=
    mul_le_mul_of_nonneg_right h2 hc0
  have u2 : -21474836 * constrain p 8 100 ≤ h * constrain p 8 100 :=
    mul_le_mul_of_nonneg_right h1 hc0
  apply wrap32_of_range <;> omega

/-- C3 (as found): a squash at 100 percent does not always restore the stored
size.  The left eye that `Eyes_Create` builds for size 30000000 stores
`base_h = 25800000`; the `int` product `base_h * 100` overflows 32 bits and
wraps to -1714967296, so `set_eye_squash(eye, 100)` requests the outer size
`(30000000, -17149672)`, not `(30000000, 25800000)`. -/
theorem squash_100_does_not_restore :
    S_big.left.base = .left_base ∧ S_big.left.core = .left_core ∧
    S_big.left.base_w = 30000000 ∧ S_big.left.base_h = 25800000 ∧
    S_big.left.core_w = 19800000 ∧ S_big.left.core_h = 17028000 ∧
    wrap32 (25800000 * 100) = -1714967296 ∧
    sizes_of (set_eye_squash S_big.left box64 100) =
      [ (.left_base, 30000000, -17149672), (.left_core, 19800000, 17028000) ] ∧
    sizes_of (set_eye_squash S_big.left box64 100) ≠
      [ (S_big.left.base, S_big.left.base_w, S_big.left.base_h),
        (S_big.left.core, S_big.left.core_w, S_big.left.core_h) ] := by
  decide!

/-- C3 (amended): the sizes that `set_eye_squash` requests come from the
creation-time dimensions and the percent alone.  After any run of earlier
squashes, a squash at percent `p` requests the same sizes as that squash alone:
`(base_w, (base_h * clamp(p,8,100)) / 100)` for the outer shape and
`(core_w, (core_h * clamp(p,8,100)) / 100)` for the inner one, the products
being 32-bit `int` products.  When `base_h` and `core_h` lie within
`±21474836` the products do not overflow, and a squash at 100 requests exactly
`(base_w, base_h)` and `(core_w, core_h)`. -/
theorem set_eye_squash_sizes_from_base (eye : EyeLayer) (ps : List (lv_area_t × Int))
    (a : lv_area_t) (p : Int) :
    sizes_of (set_eye_squash eye a p) =
      [ (eye.base, eye.base_w, Int.tdiv (wrap32 (eye.base_h * constrain p 8 100)) 100),
        (eye.core, eye.core_w, Int.tdiv (wrap32 (eye.core_h * constrain p 8 100)) 100) ] ∧
    sizes_of (squash_seq eye (ps ++ [(a, p)])) =
      sizes_of (squash_seq eye ps) ++ sizes_of (set_eye_squash eye a p) ∧
    (-21474836 ≤ eye.base_h → eye.base_h ≤ 21474836 →
      -21474836 ≤ eye.core_h → eye.core_h ≤ 21474836 →
      sizes_of (set_eye_squash eye a p) =
        [ (eye.base, eye.base_w, Int.tdiv (eye.base_h * constrain p 8 100) 100),
          (eye.core, eye.core_w, Int.tdiv (eye.core_h * constrain p 8 100) 100) ] ∧
      sizes_of (squash_seq eye (ps ++ [(a, 100)])) =
        sizes_of (squash_seq eye ps) ++
          [ (eye.base, eye.base_w, eye.base_h), (eye.core, eye.core_w, eye.core_h) ]) := by
  have h100 : constrain (100 : Int) 8 100 = 100 := by decide
  refine ⟨rfl, ?_, ?_⟩
  · rw [squash_seq_append, sizes_of_append]
    simp [squash_seq]
  · intro b1 b2 c1 c2
    have wb := wrap32_mul_percent eye.base_h p b1 b2
    have wc := wrap32_mul_percent eye.core_h p c1 c2
    have wb100 := wrap32_mul_percent eye.base_h 100 b1 b2
    have wc100 := wrap32_mul_percent eye.core_h 100 c1 c2
    rw [h100] at wb100 wc100
    constructor
    · simp only [set_eye_squash, sizes_of, wb, wc]
    · rw [squash_seq_append, sizes_of_append]
      simp only [squash_seq, List.append_nil, set_eye_squash, sizes_of, h100, wb100, wc100]
      rw [Int.mul_tdiv_cancel _ (by decide), Int.mul_tdiv_cancel _ (by decide)]

/-- Check of `set_eye_squash_sizes_from_base` on the default eye: a squash at 50
percent, then one at 100 percent. -/
theorem set_eye_squash_sizes_from_base_witness :
    (-21474836 ≤ eye64.base_h ∧ eye64.base_h ≤ 21474836 ∧
      -21474836 ≤ eye64.core_h ∧ eye64.core_h ≤ 21474836) ∧
    sizes_of (squash_seq eye64 ([(box64, 50)] ++ [(box64, 100)])) =
      sizes_of (squash_seq eye64 [(box64, 50)]) ++
        [ (eye64.base, eye64.base_w, eye64.base_h), (eye64.core, eye64.core_w, eye64.core_h) ] :=
  ⟨by decide,
    ((set_eye_squash_sizes_from_base eye64 [(box64, 50)] box64 100).2.2
      (by decide) (by decide) (by decide) (by decide)).2⟩

/-- C4: a percent outside `[8, 100]` gives exactly the calls of the clamped
percent: below 8 those of 8, above 100 those of 100. -/
theorem set_eye_squash_clamps (eye : EyeLayer) (a : lv_area_t) (p : Int)
    (h : p < 8 ∨ 100 < p) :
    set_eye_squash eye a p = set_eye_squash eye a (if p < 8 then 8 else 100) := by
  have key : constrain p 8 100 = constrain (if p < 8 then (8 : Int) else 100) 8 100 := by
    unfold constrain
    split_ifs <;> omega
  unfold set_eye_squash
  simp only [key]

/-- Check of `set_eye_squash_clamps` at the percents 0 and 150 of the claim. -/
theorem set_eye_squash_clamps_witness :
    ((0 : Int) < 8 ∨ (100 : Int) < 0) ∧
    set_eye_squash eye64 box64 0 = set_eye_squash eye64 box64 8 ∧
    set_eye_squash eye64 box64 150 = set_eye_squash eye64 box64 100 :=
  ⟨by decide, set_eye_squash_clamps eye64 box64 0 (by decide),
    set_eye_squash_clamps eye64 box64 150 (by decide)⟩

/-! ## Public control surface -/

theorem S_created_ready : S_created.ready = true := rfl

/-- C6 (as found): before `Eyes_Create` the two setters are not no-ops.  On the
start state, `Eyes_SetGlow(10)` changes `glowAdd`, and `Eyes_SetColors(1, 2)`
changes the palette and the two styles and issues six style calls. -/
theorem setters_before_create_not_noop :
    S0.ready = false ∧
    Eyes_SetGlow S0 10 ≠ (S0, []) ∧ (Eyes_SetGlow S0 10).1.glowAdd = 10 ∧ S0.glowAdd = 0 ∧
    Eyes_SetColors S0 1 2 ≠ (S0, []) ∧ (Eyes_SetColors S0 1 2).1.colInner = 1 ∧
    (Eyes_SetColors S0 1 2).1.style_base.bg_color = some 2 ∧
    (Eyes_SetColors S0 1 2).2.length = 6 := by
  refine ⟨rfl, ?_, rfl, rfl, ?_, rfl, rfl, rfl⟩
  · intro h
    have h2 := congrArg (fun x => x.1.glowAdd) h
    revert h2
    decide
  · intro h
    have h2 := congrArg (fun x => x.2.length) h
    revert h2
    decide

/-- C6 (amended): while `ready` is false, `Eyes_Update`, `Eyes_Look` and
`Eyes_BlinkNow` leave the whole state unchanged and issue no call, for every
argument; `Eyes_SetGlow` issues no call and changes only `glowAdd` (to the
clamped trim); `Eyes_SetColors` stores the palette, writes the colours into the
two styles and issues its six style calls, changing nothing else. -/
theorem not_ready_operations (sinf : ℚ → ℚ) (S : EyesState) (h : S.ready = false) :
    (∀ now r aL aR, Eyes_Update sinf S now r aL aR = (S, [])) ∧
    (∀ nx ny, Eyes_Look S nx ny = (S, [])) ∧
    (∀ now, Eyes_BlinkNow S now = (S, [])) ∧
    (∀ p, Eyes_SetGlow S p = ({ S with glowAdd := constrain p (-60) 40 }, [])) ∧
    (∀ inner glow, Eyes_SetColors S inner glow =
      ({ S with
          colInner := inner, colGlow := glow,
          style_base :=
            { S.style_base with
                bg_color := some glow, bg_grad_color := some inner, shadow_color := some glow },
          style_core := { S.style_core with bg_color := some inner } },
       [ .lv_style_set_bg_color .style_base glow,
         .lv_style_set_bg_grad_color .style_base inner,
         .lv_style_set_shadow_color .style_base glow,
         .lv_obj_report_style_change .style_base,
         .lv_style_set_bg_color .style_core inner,
         .lv_obj_report_style_change .style_core ])) := by
  refine ⟨?_, ?_, ?_, ?_, ?_⟩
  · intro now r aL aR; simp [Eyes_Update, h]
  · intro nx ny; simp [Eyes_Look, h]
  · intro now; simp [Eyes_BlinkNow, h]
  · intro p; rfl
  · intro inner glow; simp [Eyes_SetColors, h]

/-- Check of `not_ready_operations` on the start state. -/
theorem not_ready_operations_witness :
    S0.ready = false ∧ Eyes_Update (fun _ => 0) S0 5 7 box64 box64 = (S0, []) ∧
    Eyes_Look S0 (.fin 2) (.fin (-3)) = (S0, []) ∧ Eyes_BlinkNow S0 5 = (S0, []) :=
  ⟨rfl, (not_ready_operations (fun _ => 0) S0 rfl).1 5 7 box64 box64,
    (not_ready_operations (fun _ => 0) S0 rfl).2.1 (.fin 2) (.fin (-3)),
    (not_ready_operations (fun _ => 0) S0 rfl).2.2.1 5⟩

theorem sub32_self (n : Nat) : sub32 n n = 0 := by
  unfold sub32
  omega

/-- C7: on a ready state, idle or already blinking, `Eyes_BlinkNow` at clock
reading `now` sets `blinking` to true and `blinkStart` to `now`, so that the
blink phase at that reading is 0; it changes no other field (`nextBlinkMs` in
particular) and issues no call. -/
theorem Eyes_BlinkNow_ready (S : EyesState) (now : Nat) (h : S.ready = true) :
    Eyes_BlinkNow S now = ({ S with blinking := true, blinkStart := now }, []) ∧
    (Eyes_BlinkNow S now).1.blinking = true ∧
    (Eyes_BlinkNow S now).1.blinkStart = now ∧
    (Eyes_BlinkNow S now).1.nextBlinkMs = S.nextBlinkMs ∧
    blink_phase (Eyes_BlinkNow S now).1 now = 0 := by
  simp [Eyes_BlinkNow, h, blink_phase, sub32_self, F32.ofInt, F32.div, F32.rnd_zero]

/-- Check of `Eyes_BlinkNow_ready` on the created (idle) state and again on the
state it yields (already blinking). -/
theorem Eyes_BlinkNow_ready_witness :
    S_created.ready = true ∧ S_created.blinking = false ∧
    (Eyes_BlinkNow S_created 700).1.blinking = true ∧
    (Eyes_BlinkNow S_created 700).1.blinkStart = 700 ∧
    (Eyes_BlinkNow (Eyes_BlinkNow S_created 700).1 750).1.blinkStart = 750 ∧
    (Eyes_BlinkNow (Eyes_BlinkNow S_created 700).1 750).1.nextBlinkMs = S_created.nextBlinkMs ∧
    blink_phase (Eyes_BlinkNow (Eyes_BlinkNow S_created 700).1 750).1 750 = 0 :=
  ⟨rfl, rfl, (Eyes_BlinkNow_ready S_created 700 rfl).2.1,
    (Eyes_BlinkNow_ready S_created 700 rfl).2.2.1,
    (Eyes_BlinkNow_ready (Eyes_BlinkNow S_created 700).1 750 rfl).2.2.1,
    ((Eyes_BlinkNow_ready (Eyes_BlinkNow S_created 700).1 750 rfl).2.2.2.1).trans
      (Eyes_BlinkNow_ready S_created 700 rfl).2.2.2.1,
    (Eyes_BlinkNow_ready (Eyes_BlinkNow S_created 700).1 750 rfl).2.2.2.2⟩

/-- On finite values the float `constrain` is the `constrain` of the rationals. -/
theorem constrain_fin (q lo hi : ℚ) :
    CFloat.constrain (.fin q) (.fin lo) (.fin hi) = .fin (constrain q lo hi) := by
  unfold CFloat.constrain constrain
  simp only [CFloat.lt, decide_eq_true_eq, gt_iff_lt]
  split_ifs <;> rfl

/-- C9: on a ready state `Eyes_Look(nx, ny)` stores `min(max(nx, -1), 1)` and
`min(max(ny, -1), 1)` in `lookX` and `lookY`, changes no other field and issues
no call. -/
theorem Eyes_Look_ready (S : EyesState) (nx ny : ℚ) (h : S.ready = true) :
    Eyes_Look S (.fin nx) (.fin ny) =
      ({ S with
          lookX := .fin (min (max nx (-1)) 1), lookY := .fin (min (max ny (-1)) 1) }, []) := by
  simp [Eyes_Look, h, constrain_fin, constrain_eq_min_max]

/-- Check of `Eyes_Look_ready` at `Eyes_Look(2.0, -3.0)`: the stored target is `(1, -1)`. -/
theorem Eyes_Look_ready_witness :
    S_created.ready = true ∧
    Eyes_Look S_created (.fin 2) (.fin (-3)) =
      ({ S_created with lookX := .fin 1, lookY := .fin (-1) }, []) :=
  ⟨rfl, by
    have h := Eyes_Look_ready S_created 2 (-3) rfl
    have e1 : min (max (2 : ℚ) (-1)) 1 = 1 := by norm_num
    have e2 : min (max (-3 : ℚ) (-1)) 1 = -1 := by norm_num
    rw [e1, e2] at h
    exact h⟩

/-! ## Blink state machine -/

theorem f1_eq : f1 = 1 := by decide!

theorem f0_5_eq : f0_5 = 1 / 2 := by decide!

theorem f88_eq : f88 = 88 := by decide!

theorem sub32_add32 (b e : Nat) (he : e < 4294967296) : sub32 (add32 b e) b = e := by
  unfold sub32 add32
  omega

/-- The blink phase reaches `1.f` as soon as the elapsed time reaches
`blinkDur * 2`. -/
theorem blink_phase_ge_one (e D : Nat) (hD0 : 0 < D) (hD : D < 2 ^ 24) (h : D ≤ e) :
    f1 ≤ F32.div (F32.ofInt (e : ℤ)) (F32.ofInt (D : ℤ)) := by
  have hDq : (0 : ℚ) < (D : ℚ) := by exact_mod_cast hD0
  have h1 : F32.ofInt (D : ℤ) = (D : ℚ) := by
    unfold F32.ofInt
    rw [Int.cast_natCast]
    exact F32.rnd_natCast D hD
  have h2 : (D : ℚ) ≤ F32.ofInt (e : ℤ) := by
    unfold F32.ofInt
    rw [Int.cast_natCast]
    exact F32.le_rnd_of_natCast_le hD (by exact_mod_cast h)
  rw [f1_eq, h1]
  unfold F32.div
  have h3 : ((1 : ℕ) : ℚ) ≤ F32.ofInt (e : ℤ) / (D : ℚ) := by
    rw [Nat.cast_one, le_div_iff₀ hDq, one_mul]; exact h2
  have := F32.le_rnd_of_natCast_le (by norm_num : 1 < 2 ^ 24) h3
  simpa using this

theorem Eyes_Update_blinking (sinf : ℚ → ℚ) (S : EyesState) (now r : Nat) (aL aR : lv_area_t)
    (hr : S.ready = true) (hb : S.blinking = true) :
    Eyes_Update sinf S now r aL aR =
      if blink_phase S now ≥ f1 then
        (schedule_next_blink { S with blinking := false } now r,
          update_breath sinf S now ++ squash_both S aL aR 100 ++ look_both S)
      else
        (S, update_breath sinf S now ++ squash_both S aL aR (blink_height (blink_phase S now))
          ++ look_both S) := by
  simp only [Eyes_Update, update_blink, hr, hb, squash_both, look_both, blink_phase, blink_height]
  split_ifs <;> simp_all [schedule_next_blink, apply_look_offset]

theorem blink_phase_add32 (S : EyesState) (e : Nat) (he : e < 4294967296) :
    blink_phase S (add32 S.blinkStart e) =
      F32.div (F32.ofInt (e : ℤ)) (F32.ofInt ((S.blinkDur * 2 : ℕ) : ℤ)) := by
  unfold blink_phase
  rw [sub32_add32 _ _ he]
  push_cast
  rfl

theorem blink_values_120 :
    blink_height (F32.div (F32.ofInt ((0 : ℕ) : ℤ)) (F32.ofInt ((120 * 2 : ℕ) : ℤ))) = 100 ∧
    blink_height (F32.div (F32.ofInt ((60 : ℕ) : ℤ)) (F32.ofInt ((120 * 2 : ℕ) : ℤ))) = 56 ∧
    blink_height (F32.div (F32.ofInt ((120 : ℕ) : ℤ)) (F32.ofInt ((120 * 2 : ℕ) : ℤ))) = 12 ∧
    blink_height (F32.div (F32.ofInt ((180 : ℕ) : ℤ)) (F32.ofInt ((120 * 2 : ℕ) : ℤ))) = 56 ∧
    ¬ (F32.div (F32.ofInt ((0 : ℕ) : ℤ)) (F32.ofInt ((120 * 2 : ℕ) : ℤ)) ≥ f1) ∧
    ¬ (F32.div (F32.ofInt ((60 : ℕ) : ℤ)) (F32.ofInt ((120 * 2 : ℕ) : ℤ)) ≥ f1) ∧
    ¬ (F32.div (F32.ofInt ((120 : ℕ) : ℤ)) (F32.ofInt ((120 * 2 : ℕ) : ℤ)) ≥ f1) ∧
    ¬ (F32.div (F32.ofInt ((180 : ℕ) : ℤ)) (F32.ofInt ((120 * 2 : ℕ) : ℤ)) ≥ f1) := by
  decide!

/-- C1: with `blinkDur = 120`, on a ready blinking state, one `Eyes_Update` at
clock reading `blinkStart + e` squashes both eyes to 100 percent for `e = 0`, to
56 for `e = 60`, to 12 for `e = 120` and to 56 for `e = 180`, leaving the state
(so `blinking = true`) unchanged; for every `e ≥ 240` it squashes both eyes to
exactly 100 and sets `blinking` to false. -/
theorem blink_cycle_120 (sinf : ℚ → ℚ) (S : EyesState) (r : Nat) (aL aR : lv_area_t) (e : Nat)
    (hr : S.ready = true) (hb : S.blinking = true) (hd : S.blinkDur = 120)
    (he : e < 4294967296) :
    (e = 0 → Eyes_Update sinf S (add32 S.blinkStart e) r aL aR =
      (S, update_breath sinf S (add32 S.blinkStart e) ++ squash_both S aL aR 100
        ++ look_both S)) ∧
    (e = 60 → Eyes_Update sinf S (add32 S.blinkStart e) r aL aR =
      (S, update_breath sinf S (add32 S.blinkStart e) ++ squash_both S aL aR 56
        ++ look_both S)) ∧
    (e = 120 → Eyes_Update sinf S (add32 S.blinkStart e) r aL aR =
      (S, update_breath sinf S (add32 S.blinkStart e) ++ squash_both S aL aR 12
        ++ look_both S)) ∧
    (e = 180 → Eyes_Update sinf S (add32 S.blinkStart e) r aL aR =
      (S, update_breath sinf S (add32 S.blinkStart e) ++ squash_both S aL aR 56
        ++ look_both S)) ∧
    (240 ≤ e →
      (Eyes_Update sinf S (add32 S.blinkStart e) r aL aR).2 =
        update_breath sinf S (add32 S.blinkStart e) ++ squash_both S aL aR 100
          ++ look_both S ∧
      (Eyes_Update sinf S (add32 S.blinkStart e) r aL aR).1.blinking = false) := by
  have hU := Eyes_Update_blinking sinf S (add32 S.blinkStart e) r aL aR hr hb
  have hp := blink_phase_add32 S e he
  rw [hd] at hp
  rw [hp] at hU
  obtain ⟨v0, v60, v120, v180, n0, n60, n120, n180⟩ := blink_values_120
  refine ⟨?_, ?_, ?_, ?_, ?_⟩
  · intro h0; subst h0
    rw [hU, if_neg n0, v0]
  · intro h0; subst h0
    rw [hU, if_neg n60, v60]
  · intro h0; subst h0
    rw [hU, if_neg n120, v120]
  · intro h0; subst h0
    rw [hU, if_neg n180, v180]
  · intro h240
    have hge := blink_phase_ge_one e (120 * 2) (by norm_num) (by norm_num) (by omega)
    rw [hU, if_pos hge]
    exact ⟨rfl, rfl⟩

/-- Check of `blink_cycle_120` at `e = 60` and `e = 240` on a blink forced at reading 1000. -/
theorem blink_cycle_120_witness :
    S_blinking.ready = true ∧ S_blinking.blinking = true ∧ S_blinking.blinkDur = 120 ∧
    Eyes_Update (fun _ => 0) S_blinking (add32 S_blinking.blinkStart 60) 7 box64 box64R
      = (S_blinking, update_breath (fun _ => 0) S_blinking (add32 S_blinking.blinkStart 60)
        ++ squash_both S_blinking box64 box64R 56 ++ look_both S_blinking) ∧
    (Eyes_Update (fun _ => 0) S_blinking (add32 S_blinking.blinkStart 240) 7 box64 box64R).1.blinking
      = false :=
  ⟨rfl, rfl, rfl,
    (blink_cycle_120 (fun _ => 0) S_blinking 7 box64 box64R 60 rfl rfl rfl (by decide)).2.1 rfl,
    ((blink_cycle_120 (fun _ => 0) S_blinking 7 box64 box64R 240 rfl rfl rfl
      (by decide)).2.2.2.2 (by decide)).2⟩

/-- C8: on a ready blinking state whose elapsed time `now - blinkStart` is at
least `2 * blinkDur`, `Eyes_Update` sets `blinking` to false, squashes both eyes
to 100 percent and sets `nextBlinkMs` to `now + d` modulo `2^32` with
`d = 1500 + r mod 2500`, for every value `r` of the random source; `d` lies in
`[1500, 4000)`.  (`blinkDur` is a non-zero `uint16_t`.) -/
theorem blink_completion (sinf : ℚ → ℚ) (S : EyesState) (now r : Nat) (aL aR : lv_area_t)
    (hr : S.ready = true) (hb : S.blinking = true)
    (hd0 : 0 < S.blinkDur) (hd : S.blinkDur < 65536)
    (he : 2 * S.blinkDur ≤ sub32 now S.blinkStart) :
    Eyes_Update sinf S now r aL aR =
      ({ S with blinking := false, nextBlinkMs := (now + (1500 + r % 2500)) % 4294967296 },
        update_breath sinf S now ++ squash_both S aL aR 100 ++ look_both S) ∧
    1500 ≤ 1500 + r % 2500 ∧ 1500 + r % 2500 < 4000 := by
  have hge : blink_phase S now ≥ f1 := by
    unfold blink_phase
    have := blink_phase_ge_one (sub32 now S.blinkStart) (S.blinkDur * 2) (by omega)
      (by norm_num; omega) (by omega)
    push_cast at this ⊢
    exact this
  have hmod : (1500 + r % 2500) % 65536 = 1500 + r % 2500 := by omega
  refine ⟨?_, by omega, by omega⟩
  rw [Eyes_Update_blinking sinf S now r aL aR hr hb, if_pos hge]
  simp [schedule_next_blink, add32, hmod]

/-- Check of `blink_completion` 240 ms after a blink forced at reading 1000. -/
theorem blink_completion_witness :
    S_blinking.ready = true ∧ S_blinking.blinking = true ∧
    2 * S_blinking.blinkDur ≤ sub32 1240 S_blinking.blinkStart ∧
    Eyes_Update (fun _ => 0) S_blinking 1240 7 box64 box64R =
      ({ S_blinking with blinking := false, nextBlinkMs := (1240 + (1500 + 7 % 2500)) % 4294967296 },
        update_breath (fun _ => 0) S_blinking 1240 ++ squash_both S_blinking box64 box64R 100
          ++ look_both S_blinking) :=
  ⟨rfl, rfl, by decide,
    (blink_completion (fun _ => 0) S_blinking 1240 7 box64 box64R rfl rfl (by decide) (by decide)
      (by decide)).1⟩

/-! ## Look offset -/

theorem f0_16_eq : f0_16 = 5368709 / 33554432 := by decide!

/-- For a size up to one million, `(int)(size * 0.16f)` is the integer part of
`16 * size / 100`. -/
theorem look_shift (n : ℕ) (hn : n ≤ 1000000) :
    F32.toInt (F32.mul (F32.ofInt (n : ℤ)) f0_16) = ((16 * n / 100 : ℕ) : ℤ) := by
  have hofInt : F32.ofInt (n : ℤ) = (n : ℚ) := by
    unfold F32.ofInt
    rw [Int.cast_natCast]
    exact F32.rnd_natCast n (by norm_num; omega)
  rw [hofInt, f0_16_eq]
  unfold F32.mul
  rcases Nat.eq_zero_or_pos n with h0 | hpos
  · subst h0; simp [F32.rnd, F32.toInt]
  set k : ℕ := 16 * n / 100 with hk
  have hk1 : 25 * k ≤ 4 * n := by omega
  have hk2 : 4 * n + 1 ≤ 25 * (k + 1) := by omega
  have hk1q : (25 : ℚ) * k ≤ 4 * n := by exact_mod_cast hk1
  have hk2q : (4 : ℚ) * n + 1 ≤ 25 * (k + 1) := by exact_mod_cast hk2
  have hn1 : (1 : ℚ) ≤ (n : ℚ) := by exact_mod_cast hpos
  have hnq : (n : ℚ) ≤ 1000000 := by exact_mod_cast hn
  set x : ℚ := (n : ℚ) * (5368709 / 33554432) with hx
  have hx0 : 0 < x := by positivity
  have hxne : x ≠ 0 := ne_of_gt hx0
  have hxlo : (2 : ℚ) ^ (-3 : ℤ) ≤ |x| := by
    rw [abs_of_pos hx0, hx]; norm_num; linarith
  have hxhi : |x| < (2 : ℚ) ^ (18 : ℤ) := by
    rw [abs_of_pos hx0, hx]; norm_num; linarith
  have hE1 : -3 ≤ F32.ilog2 x := F32.le_ilog2_of_zpow_le_abs hxne hxlo
  have hE2 : F32.ilog2 x < 18 := F32.ilog2_lt_of_abs_lt_zpow hxne hxhi
  obtain ⟨j, hj⟩ := Int.eq_ofNat_of_zero_le (by omega : 0 ≤ 23 - F32.ilog2 x)
  obtain ⟨hr, hlo, hhi⟩ := F32.rnd_normal x hx0 (by omega) j hj.symm
  have hj6 : 6 ≤ j := by omega
  have hU : (64 : ℚ) ≤ (2 : ℚ) ^ j := by
    have : (2 : ℚ) ^ 6 ≤ (2 : ℚ) ^ j := pow_le_pow_right₀ (by norm_num) hj6
    norm_num at this; exact this
  have hUpos : (0 : ℚ) < (2 : ℚ) ^ j := by positivity
  have hR := F32.roundHE_sub_le (x * 2 ^ j)
  rw [abs_le] at hR
  obtain ⟨hR1, hR2⟩ := hR
  -- the products, linear in `a = n * 2^j`
  have hxa : x * 2 ^ j = (5368709 / 33554432 : ℚ) * ((n : ℚ) * 2 ^ j) := by rw [hx]; ring
  have ha1 : (25 : ℚ) * ((k : ℚ) * 2 ^ j) ≤ 4 * ((n : ℚ) * 2 ^ j) := by nlinarith
  have ha2 : (4 : ℚ) * ((n : ℚ) * 2 ^ j) + 2 ^ j ≤ 25 * (((k : ℚ) + 1) * 2 ^ j) := by nlinarith
  have ha0 : (0 : ℚ) ≤ (n : ℚ) * 2 ^ j := by positivity
  norm_num at hlo hhi
  have hlow : ((k * 2 ^ j : ℤ) : ℚ) - 1 < (F32.roundHE (x * 2 ^ j) : ℚ) := by
    push_cast; linarith
  have hupp : (F32.roundHE (x * 2 ^ j) : ℚ) < ((k : ℚ) + 1) * 2 ^ j := by
    linarith
  have hlowZ : (k : ℤ) * 2 ^ j ≤ F32.roundHE (x * 2 ^ j) := by
    have : ((k : ℤ) * 2 ^ j - 1 : ℤ) < F32.roundHE (x * 2 ^ j) := by exact_mod_cast hlow
    omega
  have hlowQ : (k : ℚ) * 2 ^ j ≤ (F32.roundHE (x * 2 ^ j) : ℚ) := by exact_mod_cast hlowZ
  have hge : (k : ℚ) ≤ F32.rnd x := by
    rw [hr, le_div_iff₀ hUpos]; exact hlowQ
  have hlt : F32.rnd x < (k : ℚ) + 1 := by
    rw [hr, div_lt_iff₀ hUpos]; exact hupp
  rw [F32.toInt_of_nonneg (le_trans (by positivity) hge)]
  rw [Int.floor_eq_iff]
  exact ⟨by exact_mod_cast hge, by exact_mod_cast hlt⟩


theorem update_blink_frame (S : EyesState) (now r : Nat) (aL aR : lv_area_t) :
    ∃ b bs nb, (update_blink S now r aL aR).1 =
      { S with blinking := b, blinkStart := bs, nextBlinkMs := nb } := by
  simp only [update_blink]
  split_ifs
  · exact ⟨true, now, S.nextBlinkMs, rfl⟩
  · exact ⟨S.blinking, S.blinkStart, S.nextBlinkMs, rfl⟩
  · exact ⟨false, S.blinkStart, add32 now ((1500 + r % 2500) % 65536), rfl⟩
  · exact ⟨S.blinking, S.blinkStart, S.nextBlinkMs, rfl⟩
  · exact ⟨S.blinking, S.blinkStart, S.nextBlinkMs, rfl⟩

theorem look_both_frame (S : EyesState) (b : Bool) (bs nb : Nat) :
    look_both { S with blinking := b, blinkStart := bs, nextBlinkMs := nb } = look_both S := rfl

theorem update_breath_frame (sinf : ℚ → ℚ) (S : EyesState) (b : Bool) (bs nb now : Nat) :
    update_breath sinf { S with blinking := b, blinkStart := bs, nextBlinkMs := nb } now =
      update_breath sinf S now := rfl

/-- One tick on a ready state: breathing, then the blink step, then the look
offset; the blink step changes none of the fields the other two read. -/
theorem Eyes_Update_ready (sinf : ℚ → ℚ) (S : EyesState) (now r : Nat) (aL aR : lv_area_t)
    (hr : S.ready = true) :
    Eyes_Update sinf S now r aL aR =
      ((update_blink S now r aL aR).1,
        update_breath sinf S now ++ (update_blink S now r aL aR).2 ++ look_both S) := by
  obtain ⟨b, bs, nb, hS⟩ := update_blink_frame S now r aL aR
  have hl := look_both_frame S b bs nb
  rw [← hS] at hl
  simp only [Eyes_Update, hr]
  rw [← hl]
  rfl

theorem look_both_unit (S : EyesState) (n : ℕ) (hn : n ≤ 1000000) (hs : S.size = (n : ℤ))
    (hx : S.lookX = .fin 1) (hy : S.lookY = .fin (-1)) :
    look_both S =
      [ .lv_obj_set_style_translate_x S.left.core ((16 * n / 100 : ℕ) : ℤ),
        .lv_obj_set_style_translate_y S.left.core (-((16 * n / 100 : ℕ) : ℤ)),
        .lv_obj_set_style_translate_x S.right.core ((16 * n / 100 : ℕ) : ℤ),
        .lv_obj_set_style_translate_y S.right.core (-((16 * n / 100 : ℕ) : ℤ)) ] := by
  have hm : |((16 * n / 100 : ℕ) : ℤ)| < 2 ^ 24 := by
    rw [abs_of_nonneg (by positivity)]
    have : 16 * n / 100 < 2 ^ 24 := by norm_num; omega
    exact_mod_cast this
  simp only [look_both, apply_look_offset, hs, hx, hy, look_shift n hn, CFloat.mul, CFloat.toInt,
    F32.mul_one_intCast _ hm, F32.mul_neg_one_intCast _ hm, F32.toInt_intCast]
  rfl

/-- C10 (as found): the translation is not `0.16 * size` rounded to an integer
for every size.  For size 134217732 the code converts the size to the float
`134217728`, and both eyes get `(21474836, -21474836)` although
`0.16 * 134217732 = 21474837.12`, more than one pixel away; for size 11 both
eyes get `(1, -1)` although `0.16 * 11 = 1.76` (the conversion truncates, it does
not round to the nearest integer). -/
theorem look_offset_not_rounded :
    look_both (S_looking S0 .null 86 32 36 134217732 0 0) =
      [ .lv_obj_set_style_translate_x .left_core 21474836,
        .lv_obj_set_style_translate_y .left_core (-21474836),
        .lv_obj_set_style_translate_x .right_core 21474836,
        .lv_obj_set_style_translate_y .right_core (-21474836) ] ∧
    (16 / 100 : ℚ) * 134217732 - 21474836 > 1 ∧
    look_both (S_looking S0 .null 86 32 36 11 0 0) =
      [ .lv_obj_set_style_translate_x .left_core 1,
        .lv_obj_set_style_translate_y .left_core (-1),
        .lv_obj_set_style_translate_x .right_core 1,
        .lv_obj_set_style_translate_y .right_core (-1) ] ∧
    (16 / 100 : ℚ) * 11 - 1 > 1 / 2 ∧
    ∀ (sinf : ℚ → ℚ) (now r : Nat) (aL aR : lv_area_t),
      (Eyes_Update sinf (S_looking S0 .null 86 32 36 134217732 0 0) now r aL aR).2 =
        update_breath sinf (S_looking S0 .null 86 32 36 134217732 0 0) now ++
          (update_blink (S_looking S0 .null 86 32 36 134217732 0 0) now r aL aR).2 ++
          look_both (S_looking S0 .null 86 32 36 134217732 0 0) := by
  refine ⟨by decide!, by norm_num, by decide!, by norm_num, ?_⟩
  intro sinf now r aL aR
  rw [Eyes_Update_ready sinf _ now r aL aR rfl]

/-- C10 (amended): for every size from 0 to 1000000 given to `Eyes_Create`,
after `Eyes_Look(2.0, -3.0)` the next `Eyes_Update` ends with the translation
calls `(dx, dy)` on both inner shapes, where `dx` is `0.16 * size` truncated
toward zero, that is `16 * size / 100` in integer division, and `dy = -dx`. -/
theorem look_offset_after_look (sinf : ℚ → ℚ) (S : EyesState) (parent : lv_obj)
    (cx cy spacing size : Int) (now r now2 r2 : Nat) (aL aR : lv_area_t)
    (h0 : 0 ≤ size) (h1 : size ≤ 1000000) :
    (Eyes_Update sinf (S_looking S parent cx cy spacing size now r) now2 r2 aL aR).2 =
      update_breath sinf (S_looking S parent cx cy spacing size now r) now2 ++
        (update_blink (S_looking S parent cx cy spacing size now r) now2 r2 aL aR).2 ++
        [ .lv_obj_set_style_translate_x .left_core (Int.tdiv (16 * size) 100),
          .lv_obj_set_style_translate_y .left_core (-Int.tdiv (16 * size) 100),
          .lv_obj_set_style_translate_x .right_core (Int.tdiv (16 * size) 100),
          .lv_obj_set_style_translate_y .right_core (-Int.tdiv (16 * size) 100) ] := by
  obtain ⟨n, rfl⟩ := Int.eq_ofNat_of_zero_le h0
  have hn : n ≤ 1000000 := by omega
  have hready : (S_looking S parent cx cy spacing (n : ℤ) now r).ready = true := rfl
  have hsize : (S_looking S parent cx cy spacing (n : ℤ) now r).size = (n : ℤ) := rfl
  have hc1 : constrain (2 : ℚ) (-1) 1 = 1 := by
    rw [constrain_eq_min_max _ _ _ (by norm_num)]; norm_num
  have hc2 : constrain (-3 : ℚ) (-1) 1 = -1 := by
    rw [constrain_eq_min_max _ _ _ (by norm_num)]; norm_num
  have hX : (S_looking S parent cx cy spacing (n : ℤ) now r).lookX = .fin 1 := by
    rw [← hc1]; exact constrain_fin 2 (-1) 1
  have hY : (S_looking S parent cx cy spacing (n : ℤ) now r).lookY = .fin (-1) := by
    rw [← hc2]; exact constrain_fin (-3) (-1) 1
  have hL : (S_looking S parent cx cy spacing (n : ℤ) now r).left.core = .left_core := rfl
  have hR : (S_looking S parent cx cy spacing (n : ℤ) now r).right.core = .right_core := rfl
  have htd : Int.tdiv (16 * (n : ℤ)) 100 = ((16 * n / 100 : ℕ) : ℤ) := by
    rw [Int.tdiv_eq_ediv (by positivity) (by norm_num)]
    push_cast
    rfl
  rw [Eyes_Update_ready sinf _ now2 r2 aL aR hready,
    look_both_unit _ n hn hsize hX hY, hL, hR, htd]

/-- Check of `look_offset_after_look` at the default size 64: both eyes get `(10, -10)`. -/
theorem look_offset_after_look_witness :
    (0 : Int) ≤ 64 ∧ (64 : Int) ≤ 1000000 ∧
    (Eyes_Update (fun _ => 0) (S_looking S0 .null 86 32 36 64 0 0) 40 7 box64 box64R).2 =
      update_breath (fun _ => 0) (S_looking S0 .null 86 32 36 64 0 0) 40 ++
        (update_blink (S_looking S0 .null 86 32 36 64 0 0) 40 7 box64 box64R).2 ++
        [ .lv_obj_set_style_translate_x .left_core 10,
          .lv_obj_set_style_translate_y .left_core (-10),
          .lv_obj_set_style_translate_x .right_core 10,
          .lv_obj_set_style_translate_y .right_core (-10) ] :=
  ⟨by decide, by decide,
    look_offset_after_look (fun _ => 0) S0 .null 86 32 36 64 0 0 40 7 box64 box64R
      (by decide) (by decide)⟩

/-! ## Repeated ticks at one clock reading -/

theorem update_breath_length (sinf : ℚ → ℚ) (S : EyesState) (now : Nat) :
    (update_breath sinf S now).length = 4 := rfl

theorem update_blink_created :
    update_blink S_created 1500 7 box64 box64R =
      ({ S_created with blinking := true, blinkStart := 1500 }, []) := by
  decide!

theorem update_blink_started :
    update_blink { S_created with blinking := true, blinkStart := 1500 } 1500 7 box64 box64R =
      ({ S_created with blinking := true, blinkStart := 1500 },
        [ .lv_obj_set_size .left_base 64 55, .lv_obj_set_pos .left_base 3 5,
          .lv_obj_set_size .left_core 42 36, .lv_obj_center .left_core,
          .lv_obj_set_size .right_base 64 55, .lv_obj_set_pos .right_base 103 5,
          .lv_obj_set_size .right_core 42 36, .lv_obj_center .right_core ]) := by
  decide!

/-- C5 (as found): two ticks at one clock reading do not issue the same calls.
On the state that `Eyes_Create` builds (idle, next blink due at 1500), the first
`Eyes_Update` at reading 1500 only starts the blink and issues the four glow
calls and the four look calls; the second one at the same reading issues, in
between, the eight calls of a squash to 100 percent. -/
theorem update_twice_not_identical :
    S_created.ready = true ∧ S_created.blinking = false ∧ S_created.nextBlinkMs = 1500 ∧
    ∀ sinf : ℚ → ℚ,
      (Eyes_Update sinf S_created 1500 7 box64 box64R).2 =
        update_breath sinf S_created 1500 ++ look_both S_created ∧
      (Eyes_Update sinf (Eyes_Update sinf S_created 1500 7 box64 box64R).1
          1500 7 box64 box64R).2 =
        update_breath sinf S_created 1500 ++
          [ .lv_obj_set_size .left_base 64 55, .lv_obj_set_pos .left_base 3 5,
            .lv_obj_set_size .left_core 42 36, .lv_obj_center .left_core,
            .lv_obj_set_size .right_base 64 55, .lv_obj_set_pos .right_base 103 5,
            .lv_obj_set_size .right_core 42 36, .lv_obj_center .right_core ] ++
          look_both S_created ∧
      (Eyes_Update sinf (Eyes_Update sinf S_created 1500 7 box64 box64R).1
          1500 7 box64 box64R).2 ≠
        (Eyes_Update sinf S_created 1500 7 box64 box64R).2 := by
  refine ⟨rfl, rfl, by decide!, ?_⟩
  intro sinf
  have h1 : Eyes_Update sinf S_created 1500 7 box64 box64R =
      ({ S_created with blinking := true, blinkStart := 1500 },
        update_breath sinf S_created 1500 ++ look_both S_created) := by
    rw [Eyes_Update_ready sinf S_created 1500 7 box64 box64R rfl, update_blink_created]
    simp
  have h2 : Eyes_Update sinf { S_created with blinking := true, blinkStart := 1500 }
      1500 7 box64 box64R =
      ({ S_created with blinking := true, blinkStart := 1500 },
        update_breath sinf S_created 1500 ++
          [ .lv_obj_set_size .left_base 64 55, .lv_obj_set_pos .left_base 3 5,
            .lv_obj_set_size .left_core 42 36, .lv_obj_center .left_core,
            .lv_obj_set_size .right_base 64 55, .lv_obj_set_pos .right_base 103 5,
            .lv_obj_set_size .right_core 42 36, .lv_obj_center .right_core ] ++
          look_both S_created) := by
    rw [Eyes_Update_ready sinf _ 1500 7 box64 box64R rfl, update_blink_started]
    rfl
  rw [h1, h2]
  refine ⟨rfl, rfl, ?_⟩
  intro h
  have hlen := congrArg List.length h
  simp only [List.length_append, update_breath_length] at hlen
  simp at hlen

theorem update_blink_unchanged (S : EyesState) (now r : Nat) (aL aR : lv_area_t)
    (h : (update_blink S now r aL aR).1.blinking = S.blinking) :
    (update_blink S now r aL aR).1 = S := by
  simp only [update_blink] at h ⊢
  split_ifs at h ⊢ <;> simp_all [schedule_next_blink]

theorem sizes_of_set_eye_squash (eye : EyeLayer) (a b : lv_area_t) (p : Int) :
    sizes_of (set_eye_squash eye a p) = sizes_of (set_eye_squash eye b p) := rfl

theorem update_blink_sizes (S : EyesState) (now r r2 : Nat) (aL aR aL2 aR2 : lv_area_t) :
    sizes_of (update_blink S now r2 aL2 aR2).2 = sizes_of (update_blink S now r aL aR).2 := by
  simp only [update_blink]
  split_ifs <;> rfl

theorem update_blink_same_boxes (S : EyesState) (now r r2 : Nat) (aL aR : lv_area_t) :
    (update_blink S now r2 aL aR).2 = (update_blink S now r aL aR).2 := by
  simp only [update_blink]
  split_ifs <;> rfl

theorem blink_phase_at_start (S : EyesState) (now : Nat) :
    blink_phase { S with blinking := true, blinkStart := now } now = 0 := by
  unfold blink_phase
  simp only [sub32_self]
  simp [F32.div, F32.ofInt, F32.rnd_zero]

theorem blink_height_zero : blink_height 0 = 100 ∧ ¬ ((0 : ℚ) ≥ f1) := by decide!

theorem update_blink_idle_calls (S : EyesState) (now r : Nat) (aL aR : lv_area_t)
    (hb : S.blinking = false) : (update_blink S now r aL aR).2 = [] := by
  simp [update_blink, hb]

theorem update_blink_start (S : EyesState) (now r : Nat) (aL aR : lv_area_t)
    (hb : S.blinking = false) (h : S.nextBlinkMs ≤ now) :
    update_blink S now r aL aR = ({ S with blinking := true, blinkStart := now }, []) := by
  simp [update_blink, hb, h]

theorem update_blink_at_start (S : EyesState) (now r : Nat) (aL aR : lv_area_t) :
    update_blink { S with blinking := true, blinkStart := now } now r aL aR =
      ({ S with blinking := true, blinkStart := now }, squash_both S aL aR 100) := by
  have hp := blink_phase_at_start S now
  unfold blink_phase at hp
  simp only [update_blink, Bool.not_true, Bool.false_eq_true, if_false, hp,
    if_neg blink_height_zero.2]
  have h100 := blink_height_zero.1
  unfold blink_height at h100
  split_ifs at h100 ⊢ with h5
  · rw [h100]; rfl
  · rw [h100]; rfl

theorem update_blink_complete (S : EyesState) (now r : Nat) (aL aR : lv_area_t)
    (hb : S.blinking = true) (h : blink_phase S now ≥ f1) :
    update_blink S now r aL aR =
      (schedule_next_blink { S with blinking := false } now r, squash_both S aL aR 100) := by
  unfold blink_phase at h
  simp only [update_blink, hb, Bool.not_true, Bool.false_eq_true, if_false, if_pos h]
  rfl

/-- C5 (amended): on a ready state, two `Eyes_Update` calls at the same clock
reading issue the same glow calls and the same look calls, with the calls of
the blink step in between.  When the first call neither starts nor completes a
blink (it leaves `blinking` as it was), it leaves the whole state unchanged, the
second call requests the same sizes as the first, and it issues exactly the
same calls whenever the toolkit reports the same two boxes.  With `blinkDur`
non-zero, a call that starts a blink (idle state, `now >= nextBlinkMs`) issues
no squash and the next call at the same reading issues the squash to 100
percent; a call that completes a blink (blinking state, phase at least `1.f`)
issues the squash to 100 percent and the next call issues no squash. -/
theorem update_twice (sinf : ℚ → ℚ) (S : EyesState) (now r r2 : Nat)
    (aL aR aL2 aR2 : lv_area_t) (hr : S.ready = true) :
    (Eyes_Update sinf S now r aL aR).2 =
      update_breath sinf S now ++ (update_blink S now r aL aR).2 ++ look_both S ∧
    (Eyes_Update sinf (Eyes_Update sinf S now r aL aR).1 now r2 aL2 aR2).2 =
      update_breath sinf S now ++
        (update_blink (update_blink S now r aL aR).1 now r2 aL2 aR2).2 ++ look_both S ∧
    ((Eyes_Update sinf S now r aL aR).1.blinking = S.blinking →
      (Eyes_Update sinf S now r aL aR).1 = S ∧
      sizes_of (Eyes_Update sinf (Eyes_Update sinf S now r aL aR).1 now r2 aL2 aR2).2 =
        sizes_of (Eyes_Update sinf S now r aL aR).2 ∧
      (aL2 = aL → aR2 = aR →
        (Eyes_Update sinf (Eyes_Update sinf S now r aL aR).1 now r2 aL2 aR2).2 =
          (Eyes_Update sinf S now r aL aR).2)) ∧
    (S.blinking = false → S.nextBlinkMs ≤ now → 0 < S.blinkDur →
      (Eyes_Update sinf S now r aL aR).1 = { S with blinking := true, blinkStart := now } ∧
      (Eyes_Update sinf S now r aL aR).2 = update_breath sinf S now ++ look_both S ∧
      (Eyes_Update sinf (Eyes_Update sinf S now r aL aR).1 now r2 aL2 aR2).2 =
        update_breath sinf S now ++ squash_both S aL2 aR2 100 ++ look_both S) ∧
    (S.blinking = true → blink_phase S now ≥ f1 → 0 < S.blinkDur →
      (Eyes_Update sinf S now r aL aR).1.blinking = false ∧
      (Eyes_Update sinf S now r aL aR).2 =
        update_breath sinf S now ++ squash_both S aL aR 100 ++ look_both S ∧
      (Eyes_Update sinf (Eyes_Update sinf S now r aL aR).1 now r2 aL2 aR2).2 =
        update_breath sinf S now ++ look_both S) := by
  have h1 := Eyes_Update_ready sinf S now r aL aR hr
  obtain ⟨b, bs, nb, hS⟩ := update_blink_frame S now r aL aR
  have hr2 : (update_blink S now r aL aR).1.ready = true := by rw [hS]; exact hr
  have h2 := Eyes_Update_ready sinf (update_blink S now r aL aR).1 now r2 aL2 aR2 hr2
  have hbr : update_breath sinf (update_blink S now r aL aR).1 now = update_breath sinf S now := by
    rw [hS]; rfl
  have hlk : look_both (update_blink S now r aL aR).1 = look_both S := by
    rw [hS]; rfl
  rw [hbr, hlk] at h2
  have e1 : (Eyes_Update sinf S now r aL aR).1 = (update_blink S now r aL aR).1 := by rw [h1]
  have e2 : (Eyes_Update sinf S now r aL aR).2 =
      update_breath sinf S now ++ (update_blink S now r aL aR).2 ++ look_both S := by rw [h1]
  have e3 : (Eyes_Update sinf (Eyes_Update sinf S now r aL aR).1 now r2 aL2 aR2).2 =
      update_breath sinf S now ++
        (update_blink (update_blink S now r aL aR).1 now r2 aL2 aR2).2 ++ look_both S := by
    rw [e1, h2]
  refine ⟨e2, e3, ?_, ?_, ?_⟩
  · intro hb
    rw [e1] at hb
    have hsame := update_blink_unchanged S now r aL aR hb
    refine ⟨by rw [e1]; exact hsame, ?_, ?_⟩
    · rw [e3, e2]
      simp only [sizes_of_append]
      rw [hsame, update_blink_sizes S now r r2 aL aR aL2 aR2]
    · intro hL hR
      subst hL hR
      rw [e3, e2, hsame, update_blink_same_boxes S now r r2 aL2 aR2]
  · intro hb hdue _
    have hst := update_blink_start S now r aL aR hb hdue
    refine ⟨by rw [e1, hst], ?_, ?_⟩
    · rw [e2, hst]; simp
    · rw [e3, hst, update_blink_at_start S now r2 aL2 aR2]
  · intro hb hph _
    have hc := update_blink_complete S now r aL aR hb hph
    refine ⟨by rw [e1, hc]; rfl, by rw [e2, hc], ?_⟩
    rw [e3, hc, update_blink_idle_calls _ now r2 aL2 aR2 rfl]
    simp

/-- Check of `update_twice` in the middle of a blink (60 ms after its start),
at the start of the blink due at reading 1500, and at its completion. -/
theorem update_twice_witness :
    S_blinking.ready = true ∧
    (Eyes_Update (fun _ => 0) S_blinking 1060 7 box64 box64R).1 = S_blinking ∧
    sizes_of (Eyes_Update (fun _ => 0) (Eyes_Update (fun _ => 0) S_blinking 1060 7 box64
        box64R).1 1060 9 box64 box64R).2 =
      sizes_of (Eyes_Update (fun _ => 0) S_blinking 1060 7 box64 box64R).2 ∧
    (S_created.ready = true ∧ S_created.blinking = false ∧ S_created.nextBlinkMs ≤ 1500 ∧
      0 < S_created.blinkDur) ∧
    (Eyes_Update (fun _ => 0) S_created 1500 7 box64 box64R).2 =
      update_breath (fun _ => 0) S_created 1500 ++ look_both S_created ∧
    (Eyes_Update (fun _ => 0) (Eyes_Update (fun _ => 0) S_created 1500 7 box64 box64R).1
        1500 9 box64 box64R).2 =
      update_breath (fun _ => 0) S_created 1500 ++ squash_both S_created box64 box64R 100 ++
        look_both S_created ∧
    (S_blinking.blinking = true ∧ blink_phase S_blinking 1240 ≥ f1 ∧ 0 < S_blinking.blinkDur) ∧
    (Eyes_Update (fun _ => 0) (Eyes_Update (fun _ => 0) S_blinking 1240 7 box64 box64R).1
        1240 9 box64 box64R).2 =
      update_breath (fun _ => 0) S_blinking 1240 ++ look_both S_blinking :=
  ⟨rfl,
    ((update_twice (fun _ => 0) S_blinking 1060 7 9 box64 box64R box64 box64R rfl).2.2.1
      (by decide!)).1,
    ((update_twice (fun _ => 0) S_blinking 1060 7 9 box64 box64R box64 box64R rfl).2.2.1
      (by decide!)).2.1,
    ⟨rfl, rfl, by decide, by decide⟩,
    ((update_twice (fun _ => 0) S_created 1500 7 9 box64 box64R box64 box64R rfl).2.2.2.1
      rfl (by decide) (by decide)).2.1,
    ((update_twice (fun _ => 0) S_created 1500 7 9 box64 box64R box64 box64R rfl).2.2.2.1
      rfl (by decide) (by decide)).2.2,
    ⟨rfl, by decide!, by decide⟩,
    ((update_twice (fun _ => 0) S_blinking 1240 7 9 box64 box64R box64 box64R rfl).2.2.2.2
      rfl (by decide!) (by decide)).2.2⟩

/-! ## Glow trim, palette and the ranges of the stored settings -/

/-- C11: `Eyes_SetGlow(percent)` stores `min(max(percent, -60), 40)` in `glowAdd`,
changes no other field and issues no call, in every state and for every
percent (those of an `int8_t` among them); `Eyes_SetGlow(100)` leaves 40 and
`Eyes_SetGlow(-100)` leaves -60. -/
theorem Eyes_SetGlow_clamps (S : EyesState) (percent : Int) :
    Eyes_SetGlow S percent = ({ S with glowAdd := min (max percent (-60)) 40 }, []) ∧
    -60 ≤ (Eyes_SetGlow S percent).1.glowAdd ∧ (Eyes_SetGlow S percent).1.glowAdd ≤ 40 ∧
    (Eyes_SetGlow S 100).1.glowAdd = 40 ∧ (Eyes_SetGlow S (-100)).1.glowAdd = -60 := by
  have h : constrain percent (-60) 40 = min (max percent (-60)) 40 :=
    constrain_eq_min_max _ _ _ (by decide)
  refine ⟨?_, ?_, ?_, rfl, rfl⟩
  · simp only [Eyes_SetGlow, h]
  · simp only [Eyes_SetGlow, h]; omega
  · simp only [Eyes_SetGlow, h]; omega

/-- C12 (as found): on a ready state the stored palette is not replaced.  After
`Eyes_SetColors(1, 2)` on the created state, `colInner` and `colGlow` still hold
the start colours `0xFFFDE7` and `0xFFC21C`, while the two styles carry the new
colours. -/
theorem Eyes_SetColors_ready_keeps_palette :
    S_created.ready = true ∧
    (Eyes_SetColors S_created 1 2).1.colInner = 0xFFFDE7 ∧
    (Eyes_SetColors S_created 1 2).1.colGlow = 0xFFC21C ∧
    (Eyes_SetColors S_created 1 2).1.colInner ≠ 1 ∧
    (Eyes_SetColors S_created 1 2).1.colGlow ≠ 2 ∧
    (Eyes_SetColors S_created 1 2).1.style_base.bg_color = some 2 ∧
    (Eyes_SetColors S_created 1 2).1.style_core.bg_color = some 1 := by
  refine ⟨rfl, rfl, rfl, ?_, ?_, rfl, rfl⟩ <;> decide

/-- C12 (amended): in every state, within the call, `Eyes_SetColors(inner, glow)`
gives the outer style the background colour `glow`, the gradient colour `inner`
and the shadow colour `glow`, gives the inner style the background colour
`inner`, and issues the six style calls; the stored palette becomes
`(inner, glow)` when `ready` is false and keeps its values when `ready` is
true. -/
theorem Eyes_SetColors_effect (S : EyesState) (inner glow : Nat) :
    (Eyes_SetColors S inner glow).1.style_base.bg_color = some glow ∧
    (Eyes_SetColors S inner glow).1.style_base.bg_grad_color = some inner ∧
    (Eyes_SetColors S inner glow).1.style_base.shadow_color = some glow ∧
    (Eyes_SetColors S inner glow).1.style_core.bg_color = some inner ∧
    (Eyes_SetColors S inner glow).2 =
      [ .lv_style_set_bg_color .style_base glow,
        .lv_style_set_bg_grad_color .style_base inner,
        .lv_style_set_shadow_color .style_base glow,
        .lv_obj_report_style_change .style_base,
        .lv_style_set_bg_color .style_core inner,
        .lv_obj_report_style_change .style_core ] ∧
    (S.ready = false →
      (Eyes_SetColors S inner glow).1.colInner = inner ∧
      (Eyes_SetColors S inner glow).1.colGlow = glow) ∧
    (S.ready = true →
      (Eyes_SetColors S inner glow).1.colInner = S.colInner ∧
      (Eyes_SetColors S inner glow).1.colGlow = S.colGlow) := by
  refine ⟨rfl, rfl, rfl, rfl, rfl, ?_, ?_⟩
  · intro h; simp [Eyes_SetColors, h]
  · intro h; simp [Eyes_SetColors, h]

/-- Check of `Eyes_SetColors_effect` before and after `Eyes_Create`. -/
theorem Eyes_SetColors_effect_witness :
    S0.ready = false ∧ (Eyes_SetColors S0 1 2).1.colInner = 1 ∧
    S_created.ready = true ∧ (Eyes_SetColors S_created 1 2).1.colInner = S_created.colInner :=
  ⟨rfl, ((Eyes_SetColors_effect S0 1 2).2.2.2.2.2.1 rfl).1,
    rfl, ((Eyes_SetColors_effect S_created 1 2).2.2.2.2.2.2 rfl).1⟩

theorem Eyes_SetGlow_range (S : EyesState) (percent : Int) :
    -60 ≤ (Eyes_SetGlow S percent).1.glowAdd ∧ (Eyes_SetGlow S percent).1.glowAdd ≤ 40 := by
  have h : constrain percent (-60) 40 = min (max percent (-60)) 40 :=
    constrain_eq_min_max _ _ _ (by decide)
  simp only [Eyes_SetGlow, h]
  omega

/-- The float `constrain` to `[-1, 1]` of anything but NaN lies in `[-1, 1]`. -/
theorem constrain_in_unit (x : CFloat) (h : x ≠ .nan) :
    in_unit (CFloat.constrain x (.fin (-1)) (.fin 1)) := by
  cases x with
  | nan => exact absurd rfl h
  | neg_inf => simp [CFloat.constrain, CFloat.lt, in_unit, CFloat.le]
  | pos_inf => simp [CFloat.constrain, CFloat.lt, in_unit, CFloat.le]
  | fin q =>
    rw [constrain_fin, constrain_eq_min_max _ _ _ (by norm_num)]
    simp [in_unit, CFloat.le]

/-- One public call keeps the glow settings in their ranges. -/
theorem glow_step (sinf : ℚ → ℚ) (S : EyesState) (op : Op)
    (h : S.glowBase = 60 ∧ (-60 ≤ S.glowAdd ∧ S.glowAdd ≤ 40)) :
    (step sinf S op).1.glowBase = 60 ∧
    (-60 ≤ (step sinf S op).1.glowAdd ∧ (step sinf S op).1.glowAdd ≤ 40) := by
  obtain ⟨hb, ha⟩ := h
  cases op with
  | create parent cx cy spacing size now r => exact ⟨hb, ha⟩
  | update now r aL aR =>
    by_cases hr : S.ready = true
    · obtain ⟨b, bs, nb, hS⟩ := update_blink_frame S now r aL aR
      have e : (step sinf S (.update now r aL aR)).1 = (update_blink S now r aL aR).1 := by
        show (Eyes_Update sinf S now r aL aR).1 = _
        rw [Eyes_Update_ready sinf S now r aL aR hr]
      rw [e, hS]
      exact ⟨hb, ha⟩
    · have e : (step sinf S (.update now r aL aR)).1 = S := by
        show (Eyes_Update sinf S now r aL aR).1 = _
        simp [Eyes_Update, hr]
      rw [e]
      exact ⟨hb, ha⟩
  | look nx ny =>
    by_cases hr : S.ready = true
    · refine ⟨?_, ?_⟩ <;> simpa [step, Eyes_Look, hr]
    · refine ⟨?_, ?_⟩ <;> simpa [step, Eyes_Look, hr]
  | blinkNow now =>
    by_cases hr : S.ready = true
    · refine ⟨?_, ?_⟩ <;> simpa [step, Eyes_BlinkNow, hr]
    · refine ⟨?_, ?_⟩ <;> simpa [step, Eyes_BlinkNow, hr]
  | setColors inner glow =>
    by_cases hr : S.ready = true
    · refine ⟨?_, ?_⟩ <;> simpa [step, Eyes_SetColors, hr]
    · refine ⟨?_, ?_⟩ <;> simpa [step, Eyes_SetColors, hr]
  | setGlow percent =>
    exact ⟨hb, Eyes_SetGlow_range S percent⟩

/-- One public call that passes no NaN keeps the look target in `[-1, 1]`. -/
theorem look_step (sinf : ℚ → ℚ) (S : EyesState) (op : Op) (hn : op.numeric = true)
    (h : in_unit S.lookX ∧ in_unit S.lookY) :
    in_unit (step sinf S op).1.lookX ∧ in_unit (step sinf S op).1.lookY := by
  obtain ⟨hx, hy⟩ := h
  cases op with
  | create parent cx cy spacing size now r =>
    have z : in_unit (.fin 0) := by simp [in_unit, CFloat.le]
    exact ⟨z, z⟩
  | update now r aL aR =>
    by_cases hr : S.ready = true
    · obtain ⟨b, bs, nb, hS⟩ := update_blink_frame S now r aL aR
      have e : (step sinf S (.update now r aL aR)).1 = (update_blink S now r aL aR).1 := by
        show (Eyes_Update sinf S now r aL aR).1 = _
        rw [Eyes_Update_ready sinf S now r aL aR hr]
      rw [e, hS]
      exact ⟨hx, hy⟩
    · have e : (step sinf S (.update now r aL aR)).1 = S := by
        show (Eyes_Update sinf S now r aL aR).1 = _
        simp [Eyes_Update, hr]
      rw [e]
      exact ⟨hx, hy⟩
  | look nx ny =>
    have hnn : nx ≠ .nan ∧ ny ≠ .nan := by simpa [Op.numeric] using hn
    by_cases hr : S.ready = true
    · have e : (step sinf S (.look nx ny)).1 =
          { S with
              lookX := CFloat.constrain nx (.fin (-1)) (.fin 1),
              lookY := CFloat.constrain ny (.fin (-1)) (.fin 1) } := by
        show (Eyes_Look S nx ny).1 = _
        simp [Eyes_Look, hr]
      rw [e]
      exact ⟨constrain_in_unit nx hnn.1, constrain_in_unit ny hnn.2⟩
    · have e : (step sinf S (.look nx ny)).1 = S := by
        show (Eyes_Look S nx ny).1 = _
        simp [Eyes_Look, hr]
      rw [e]
      exact ⟨hx, hy⟩
  | blinkNow now =>
    by_cases hr : S.ready = true
    · have e : (step sinf S (.blinkNow now)).1 = { S with blinking := true, blinkStart := now } := by
        show (Eyes_BlinkNow S now).1 = _
        simp [Eyes_BlinkNow, hr]
      rw [e]
      exact ⟨hx, hy⟩
    · have e : (step sinf S (.blinkNow now)).1 = S := by
        show (Eyes_BlinkNow S now).1 = _
        simp [Eyes_BlinkNow, hr]
      rw [e]
      exact ⟨hx, hy⟩
  | setColors inner glow =>
    by_cases hr : S.ready = true
    · refine ⟨?_, ?_⟩ <;> simpa [step, Eyes_SetColors, hr]
    · refine ⟨?_, ?_⟩ <;> simpa [step, Eyes_SetColors, hr]
  | setGlow percent => exact ⟨hx, hy⟩

theorem glow_run_from (sinf : ℚ → ℚ) (ops : List Op) : ∀ (S : EyesState),
    (S.glowBase = 60 ∧ (-60 ≤ S.glowAdd ∧ S.glowAdd ≤ 40)) →
    ((run_from sinf S ops).glowBase = 60 ∧
      (-60 ≤ (run_from sinf S ops).glowAdd ∧ (run_from sinf S ops).glowAdd ≤ 40)) := by
  induction ops with
  | nil => intro S h; exact h
  | cons op ops ih =>
    intro S h
    exact ih (step sinf S op).1 (glow_step sinf S op h)

theorem look_run_from (sinf : ℚ → ℚ) (ops : List Op) : ∀ (S : EyesState),
    (∀ op ∈ ops, op.numeric = true) → (in_unit S.lookX ∧ in_unit S.lookY) →
    (in_unit (run_from sinf S ops).lookX ∧ in_unit (run_from sinf S ops).lookY) := by
  induction ops with
  | nil => intro S _ h; exact h
  | cons op ops ih =>
    intro S hn h
    exact ih (step sinf S op).1 (fun o ho => hn o (List.mem_cons_of_mem _ ho))
      (look_step sinf S op (hn op (List.mem_cons_self _ _)) h)

/-- C17 (as found): a NaN passed to `Eyes_Look` is stored.  After
`Eyes_Create(nullptr, 86, 32)` and `Eyes_Look(NaN, 0.5)`, `lookX` is NaN (both
comparisons of `constrain` are false for it), which is not in `[-1, 1]`, while
`lookY` is 0.5. -/
theorem look_nan_is_stored :
    (run sinf_sample [.create .null 86 32 36 64 0 0, .look .nan (.fin (1 / 2))]).lookX = .nan ∧
    (run sinf_sample [.create .null 86 32 36 64 0 0, .look .nan (.fin (1 / 2))]).lookY
      = .fin (1 / 2) ∧
    CFloat.constrain .nan (.fin (-1)) (.fin 1) = .nan ∧
    CFloat.le (.fin (-1)) .nan = false ∧ CFloat.le .nan (.fin 1) = false ∧
    ¬ in_unit (run sinf_sample
      [.create .null 86 32 36 64 0 0, .look .nan (.fin (1 / 2))]).lookX := by
  have e : run sinf_sample [.create .null 86 32 36 64 0 0, .look .nan (.fin (1 / 2))] =
      (Eyes_Look S_created .nan (.fin (1 / 2))).1 := rfl
  have hx : (Eyes_Look S_created .nan (.fin (1 / 2))).1.lookX = .nan := by
    simp [Eyes_Look, S_created_ready, CFloat.constrain, CFloat.lt]
  have hy : (Eyes_Look S_created .nan (.fin (1 / 2))).1.lookY = .fin (1 / 2) := by
    have hc : constrain (1 / 2 : ℚ) (-1) 1 = 1 / 2 := by
      rw [constrain_eq_min_max _ _ _ (by norm_num)]; norm_num
    simp only [Eyes_Look, S_created_ready, constrain_fin, hc]
    rfl
  refine ⟨by rw [e, hx], by rw [e, hy], by simp [CFloat.constrain, CFloat.lt], rfl, rfl, ?_⟩
  rw [e, hx]
  simp [in_unit, CFloat.le]

/-- C17 (amended): in every state reached from program start by any sequence of
`Eyes_Create`, `Eyes_Update`, `Eyes_Look`, `Eyes_BlinkNow`, `Eyes_SetColors` and
`Eyes_SetGlow` calls, with any arguments and clock readings, `glowBase` lies in
`[0, 100]`, `glowAdd` lies in `[-60, 40]`, and the intensity
`constrain(glowBase + glowAdd, 0, 100)` used by `update_breath` lies in
`[0, 100]`; when no `Eyes_Look` of the sequence is passed a NaN (infinities are
allowed), `lookX` and `lookY` lie in `[-1, 1]`. -/
theorem settings_in_range (sinf : ℚ → ℚ) (ops : List Op) :
    (0 ≤ (run sinf ops).glowBase ∧ (run sinf ops).glowBase ≤ 100) ∧
    (-60 ≤ (run sinf ops).glowAdd ∧ (run sinf ops).glowAdd ≤ 40) ∧
    (0 ≤ constrain ((run sinf ops).glowBase + (run sinf ops).glowAdd) 0 100 ∧
      constrain ((run sinf ops).glowBase + (run sinf ops).glowAdd) 0 100 ≤ 100) ∧
    ((∀ op ∈ ops, op.numeric = true) →
      in_unit (run sinf ops).lookX ∧ in_unit (run sinf ops).lookY) := by
  have h0 : S0.glowBase = 60 ∧ (-60 ≤ S0.glowAdd ∧ S0.glowAdd ≤ 40) := by
    refine ⟨rfl, ?_, ?_⟩ <;> (show _ ≤ _; norm_num [S0])
  obtain ⟨hb, ha⟩ := glow_run_from sinf ops S0 h0
  have hc : constrain ((run sinf ops).glowBase + (run sinf ops).glowAdd) 0 100 =
      min (max ((run sinf ops).glowBase + (run sinf ops).glowAdd) 0) 100 :=
    constrain_eq_min_max _ _ _ (by decide)
  refine ⟨?_, ha, ?_, ?_⟩
  · unfold run; rw [hb]; decide
  · rw [hc]; omega
  · intro hn
    have z : in_unit (.fin 0) := by simp [in_unit, CFloat.le]
    exact look_run_from sinf ops S0 hn ⟨z, z⟩

/-- Check of `settings_in_range` on a run that looks at `(2, -3)` and then at
`(+inf, -inf)`. -/
theorem settings_in_range_witness :
    (∀ op ∈ [Op.create .null 86 32 36 64 0 0, Op.look (.fin 2) (.fin (-3)),
        Op.setGlow 100, Op.look .pos_inf .neg_inf], op.numeric = true) ∧
    in_unit (run sinf_sample [Op.create .null 86 32 36 64 0 0, Op.look (.fin 2) (.fin (-3)),
      Op.setGlow 100, Op.look .pos_inf .neg_inf]).lookX ∧
    in_unit (run sinf_sample [Op.create .null 86 32 36 64 0 0, Op.look (.fin 2) (.fin (-3)),
      Op.setGlow 100, Op.look .pos_inf .neg_inf]).lookY :=
  ⟨by simp [Op.numeric],
    ((settings_in_range sinf_sample [Op.create .null 86 32 36 64 0 0,
      Op.look (.fin 2) (.fin (-3)), Op.setGlow 100, Op.look .pos_inf .neg_inf]).2.2.2
      (by simp [Op.numeric])).1,
    ((settings_in_range sinf_sample [Op.create .null 86 32 36 64 0 0,
      Op.look (.fin 2) (.fin (-3)), Op.setGlow 100, Op.look .pos_inf .neg_inf]).2.2.2
      (by simp [Op.numeric])).2⟩

/-! ## Construction -/

namespace F32

/-- Rounding a positive rational of the normal range raises it by at most the
relative amount `2^-24`. -/
theorem rnd_le_mul {q : ℚ} (hq : 0 < q) (hn : -126 ≤ ilog2 q) :
    rnd q ≤ q * (1 + 1 / 2 ^ 24) := by
  have hne : q ≠ 0 := ne_of_gt hq
  have hu := ulp_pos q
  have h2 : (2 : ℚ) ≠ 0 := by norm_num
  have hlo := (ilog2_spec q hne).1
  rw [abs_of_pos hq] at hlo
  have hule : ulp q * (2 : ℚ) ^ (23 : ℤ) ≤ q := by
    unfold ulp
    rw [max_eq_left hn]
    have : (2 : ℚ) ^ (ilog2 q - 23) * (2 : ℚ) ^ (23 : ℤ) = (2 : ℚ) ^ ilog2 q := by
      rw [← zpow_add₀ h2]
      congr 1
      ring
    rw [this]; exact hlo
  have hR := (abs_le.mp (roundHE_sub_le (q / ulp q))).2
  have hmul : (roundHE (q / ulp q) : ℚ) * ulp q ≤ (q / ulp q + 1 / 2) * ulp q :=
    mul_le_mul_of_nonneg_right (by linarith) (le_of_lt hu)
  have hexp : (q / ulp q + 1 / 2) * ulp q = q + ulp q / 2 := by
    field_simp
    ring
  rw [rnd, if_neg hne]
  rw [hexp] at hmul
  norm_num at hule ⊢
  linarith

end F32

/-- For a non-negative integer `n` and a float factor `c` in `[1/2, 9/10]`,
`(int)(n * c)` lies between 0 and `n`. -/
theorem toInt_mul_le (n : ℕ) (c : ℚ) (hc0 : 1 / 2 ≤ c) (hc1 : c ≤ 9 / 10) :
    0 ≤ F32.toInt (F32.mul (F32.ofInt (n : ℤ)) c) ∧
    F32.toInt (F32.mul (F32.ofInt (n : ℤ)) c) ≤ (n : ℤ) := by
  unfold F32.mul F32.ofInt
  rw [Int.cast_natCast]
  rcases Nat.eq_zero_or_pos n with h0 | hpos
  · subst h0; simp [F32.rnd, F32.toInt]
  have hn1 : (1 : ℚ) ≤ (n : ℚ) := by exact_mod_cast hpos
  have hn0 : (0 : ℚ) < (n : ℚ) := by linarith
  have hW1 : (1 : ℚ) ≤ F32.rnd (n : ℚ) := by
    have := F32.le_rnd_of_natCast_le (n := 1) (by norm_num) (q := (n : ℚ)) (by simpa using hn1)
    simpa using this
  have hiln : -126 ≤ F32.ilog2 (n : ℚ) := by
    have : (0 : ℤ) ≤ F32.ilog2 (n : ℚ) :=
      F32.le_ilog2_of_zpow_le_abs (ne_of_gt hn0) (by rw [abs_of_pos hn0]; simpa using hn1)
    omega
  have hW2 := F32.rnd_le_mul hn0 hiln
  have hq0 : (0 : ℚ) < F32.rnd (n : ℚ) * c := by nlinarith
  have hqhalf : (2 : ℚ) ^ (-1 : ℤ) ≤ |F32.rnd (n : ℚ) * c| := by
    rw [abs_of_pos hq0]; norm_num; nlinarith
  have hilq : -126 ≤ F32.ilog2 (F32.rnd (n : ℚ) * c) := by
    have := F32.le_ilog2_of_zpow_le_abs (ne_of_gt hq0) hqhalf
    omega
  have hR := F32.rnd_le_mul hq0 hilq
  have hR0 : 0 ≤ F32.rnd (F32.rnd (n : ℚ) * c) := F32.rnd_nonneg (le_of_lt hq0)
  have hle : F32.rnd (F32.rnd (n : ℚ) * c) ≤ (n : ℚ) := by
    have h1 : F32.rnd (n : ℚ) * c ≤ (n : ℚ) * (1 + 1 / 2 ^ 24) * (9 / 10) := by
      apply mul_le_mul hW2 hc1 (by linarith) (by positivity)
    have h2 : F32.rnd (n : ℚ) * c * (1 + 1 / 2 ^ 24) ≤
        (n : ℚ) * (1 + 1 / 2 ^ 24) * (9 / 10) * (1 + 1 / 2 ^ 24) :=
      mul_le_mul_of_nonneg_right h1 (by positivity)
    have h3 : (n : ℚ) * (1 + 1 / 2 ^ 24) * (9 / 10) * (1 + 1 / 2 ^ 24) ≤ (n : ℚ) := by
      have : (1 + 1 / 2 ^ 24 : ℚ) * (9 / 10) * (1 + 1 / 2 ^ 24) ≤ 1 := by norm_num
      nlinarith
    linarith
  rw [F32.toInt_of_nonneg hR0]
  refine ⟨Int.floor_nonneg.mpr hR0, ?_⟩
  have : ((⌊F32.rnd (F32.rnd (n : ℚ) * c)⌋ : ℤ) : ℚ) ≤ (n : ℚ) :=
    le_trans (Int.floor_le _) hle
  exact_mod_cast this

theorem f0_66_bounds : 1 / 2 ≤ f0_66 ∧ f0_66 ≤ 9 / 10 := by decide!

theorem f0_86_bounds : 1 / 2 ≤ f0_86 ∧ f0_86 ≤ 9 / 10 := by decide!

theorem f0_9_bounds : 1 / 2 ≤ f0_9 ∧ f0_9 ≤ 9 / 10 := by decide!

/-- The on-screen box of the group after `Eyes_Create`. -/
theorem Eyes_Create_group_box (S : EyesState) (parent : lv_obj) (cx cy spacing size : Int)
    (now r : Nat) (org : Int × Int) :
    group_box parent org (Eyes_Create S parent cx cy spacing size now r).2 =
      { x1 := (parent_origin parent org).1 + wrap32 (cx - Int.tdiv (group_w spacing size) 2),
        y1 := (parent_origin parent org).2 + wrap32 (cy - Int.tdiv (group_h size) 2),
        x2 := (parent_origin parent org).1 + wrap32 (cx - Int.tdiv (group_w spacing size) 2)
          + (group_w spacing size - 1),
        y2 := (parent_origin parent org).2 + wrap32 (cy - Int.tdiv (group_h size) 2)
          + (group_h size - 1) } := by
  simp [group_box, Eyes_Create, style_init_if_needed, make_eye, apply_look_offset,
    lv_obj_coords_after, lv_obj_apply, lv_obj_get_width, lv_obj_get_height, sizes_set, box_new,
    group_w, group_h]

/-- The box of the left outer shape after `Eyes_Create`, the group lying at `g`. -/
theorem Eyes_Create_left_box_at (S : EyesState) (parent : lv_obj) (cx cy spacing size : Int)
    (now r : Nat) (g : Int × Int) :
    lv_obj_coords_after g .left_base box_new (Eyes_Create S parent cx cy spacing size now r).2 =
      { x1 := g.1 + wrap32 (wrap32 (Int.tdiv (group_w spacing size) 2 - Int.tdiv spacing 2
            - Int.tdiv size 2) - Int.tdiv size 2),
        y1 := g.2 + wrap32 (Int.tdiv (group_h size) 2 - Int.tdiv (eye_h size) 2),
        x2 := g.1 + wrap32 (wrap32 (Int.tdiv (group_w spacing size) 2 - Int.tdiv spacing 2
            - Int.tdiv size 2) - Int.tdiv size 2) + (size - 1),
        y2 := g.2 + wrap32 (Int.tdiv (group_h size) 2 - Int.tdiv (eye_h size) 2)
          + (eye_h size - 1) } := by
  simp [Eyes_Create, style_init_if_needed, make_eye, apply_look_offset,
    lv_obj_coords_after, lv_obj_apply, lv_obj_get_width, lv_obj_get_height, sizes_set, box_new,
    group_w, group_h, eye_h]

/-- The box of the right outer shape after `Eyes_Create`, the group lying at `g`. -/
theorem Eyes_Create_right_box_at (S : EyesState) (parent : lv_obj) (cx cy spacing size : Int)
    (now r : Nat) (g : Int × Int) :
    lv_obj_coords_after g .right_base box_new (Eyes_Create S parent cx cy spacing size now r).2 =
      { x1 := g.1 + wrap32 (wrap32 (Int.tdiv (group_w spacing size) 2 + Int.tdiv spacing 2
            + Int.tdiv size 2) - Int.tdiv size 2),
        y1 := g.2 + wrap32 (Int.tdiv (group_h size) 2 - Int.tdiv (eye_h size) 2),
        x2 := g.1 + wrap32 (wrap32 (Int.tdiv (group_w spacing size) 2 + Int.tdiv spacing 2
            + Int.tdiv size 2) - Int.tdiv size 2) + (size - 1),
        y2 := g.2 + wrap32 (Int.tdiv (group_h size) 2 - Int.tdiv (eye_h size) 2)
          + (eye_h size - 1) } := by
  simp [Eyes_Create, style_init_if_needed, make_eye, apply_look_offset,
    lv_obj_coords_after, lv_obj_apply, lv_obj_get_width, lv_obj_get_height, sizes_set, box_new,
    group_w, group_h, eye_h]

/-- For a size `n >= 0`: `0 <= (int)(n * 0.9f) <= n` and `0 <= (int)(n * 0.86f) <= n`. -/
theorem create_heights (size : Int) (h0 : 0 ≤ size) :
    (0 ≤ F32.toInt (F32.mul (F32.ofInt size) f0_9) ∧
      F32.toInt (F32.mul (F32.ofInt size) f0_9) ≤ size) ∧
    (0 ≤ eye_h size ∧ eye_h size ≤ size) := by
  obtain ⟨n, rfl⟩ := Int.eq_ofNat_of_zero_le h0
  exact ⟨toInt_mul_le n f0_9 f0_9_bounds.1 f0_9_bounds.2,
    toInt_mul_le n f0_86 f0_86_bounds.1 f0_86_bounds.2⟩

/-- C15 (as found): the centres are not always where the claim puts them.  With
`cx = -2147483648` (null parent, default spacing and size) the `int` difference
`cx - width/2` overflows and the group is placed at x = 2147483562, so the left
eye has its horizontal centre at 2147483598, not at `cx - (18 + 32)`.  With a
parent whose origin is at `(100, 50)` on the screen and `cx = 86`, `cy = 32`,
the left eye has its centre at `(136, 82)` on the screen, not at `(36, 32)`. -/
theorem Eyes_Create_centre_off :
    (group_box .null (0, 0) (Eyes_Create S0 .null (-2147483648) 32 36 64 0 0).2).x1
      = 2147483562 ∧
    (eye_box .left_base .null (0, 0) (Eyes_Create S0 .null (-2147483648) 32 36 64 0 0).2).x1
      + Int.tdiv 64 2 = 2147483598 ∧
    (-2147483648 : Int) - (Int.tdiv 36 2 + Int.tdiv 64 2) = -2147483698 ∧
    (eye_box .left_base (.other 1) (100, 50) (Eyes_Create S0 (.other 1) 86 32 36 64 0 0).2).x1
      + Int.tdiv 64 2 = 136 ∧
    (86 : Int) - (Int.tdiv 36 2 + Int.tdiv 64 2) = 36 ∧
    (eye_box .left_base (.other 1) (100, 50) (Eyes_Create S0 (.other 1) 86 32 36 64 0 0).2).y1
      + Int.tdiv (eye_h 64) 2 = 82 := by
  decide!

/-- C15 (amended): `Eyes_Create` places the two outer shapes symmetrically about
the point `(cx, cy)` of its parent.  For `spacing >= 0` and `size >= 0`, when
the group width `size*2 + spacing + 8` and the group position
`(cx - width/2, cy - height/2)` do not overflow a 32-bit `int`, the on-screen
boxes of the two outer shapes have the size `size x (int)(size*0.86f)`, the
horizontal centre (position + width/2) of the left eye is
`ox + cx - (spacing/2 + size/2)`, that of the right eye is
`ox + cx + (spacing/2 + size/2)`, and the vertical centre of both is `oy + cy`,
with integer halving, where `(ox, oy)` is the screen position of the origin of
the parent: `(0, 0)` when the parent is the screen or null. -/
theorem Eyes_Create_symmetric (S : EyesState) (parent : lv_obj) (cx cy spacing size : Int)
    (now r : Nat) (org : Int × Int)
    (hs : 0 ≤ spacing) (hz : 0 ≤ size) (hw : size * 2 + spacing + 8 ≤ 2147483647)
    (hx : -2147483648 ≤ cx - Int.tdiv (size * 2 + spacing + 8) 2) (hx2 : cx ≤ 2147483647)
    (hy : -2147483648 ≤ cy - Int.tdiv (F32.toInt (F32.mul (F32.ofInt size) f0_9) + 8) 2)
    (hy2 : cy ≤ 2147483647) :
    ((eye_box .left_base parent org (Eyes_Create S parent cx cy spacing size now r).2).x2
        - (eye_box .left_base parent org (Eyes_Create S parent cx cy spacing size now r).2).x1
        + 1 = size ∧
      (eye_box .left_base parent org (Eyes_Create S parent cx cy spacing size now r).2).y2
        - (eye_box .left_base parent org (Eyes_Create S parent cx cy spacing size now r).2).y1
        + 1 = eye_h size) ∧
    ((eye_box .right_base parent org (Eyes_Create S parent cx cy spacing size now r).2).x2
        - (eye_box .right_base parent org (Eyes_Create S parent cx cy spacing size now r).2).x1
        + 1 = size ∧
      (eye_box .right_base parent org (Eyes_Create S parent cx cy spacing size now r).2).y2
        - (eye_box .right_base parent org (Eyes_Create S parent cx cy spacing size now r).2).y1
        + 1 = eye_h size) ∧
    (eye_box .left_base parent org (Eyes_Create S parent cx cy spacing size now r).2).x1
      + Int.tdiv size 2 =
        (parent_origin parent org).1 + cx - (Int.tdiv spacing 2 + Int.tdiv size 2) ∧
    (eye_box .right_base parent org (Eyes_Create S parent cx cy spacing size now r).2).x1
      + Int.tdiv size 2 =
        (parent_origin parent org).1 + cx + (Int.tdiv spacing 2 + Int.tdiv size 2) ∧
    (eye_box .left_base parent org (Eyes_Create S parent cx cy spacing size now r).2).y1
      + Int.tdiv (eye_h size) 2 = (parent_origin parent org).2 + cy ∧
    (eye_box .right_base parent org (Eyes_Create S parent cx cy spacing size now r).2).y1
      + Int.tdiv (eye_h size) 2 = (parent_origin parent org).2 + cy ∧
    (parent = .null ∨ parent = .screen → parent_origin parent org = (0, 0)) := by
  obtain ⟨⟨hT0, hT1⟩, ⟨hH0, hH1⟩⟩ := create_heights size hz
  have hgw : group_w spacing size = size * 2 + spacing + 8 := by
    unfold group_w; exact wrap32_of_range (by omega) (by omega)
  have hgh : group_h size = F32.toInt (F32.mul (F32.ofInt size) f0_9) + 8 := by
    unfold group_h; exact wrap32_of_range (by omega) (by omega)
  have d1 : Int.tdiv (size * 2 + spacing + 8) 2 = (size * 2 + spacing + 8) / 2 :=
    Int.tdiv_eq_ediv (by omega) (by decide)
  have d2 : Int.tdiv spacing 2 = spacing / 2 := Int.tdiv_eq_ediv hs (by decide)
  have d3 : Int.tdiv size 2 = size / 2 := Int.tdiv_eq_ediv hz (by decide)
  have d4 : Int.tdiv (F32.toInt (F32.mul (F32.ofInt size) f0_9) + 8) 2 =
      (F32.toInt (F32.mul (F32.ofInt size) f0_9) + 8) / 2 :=
    Int.tdiv_eq_ediv (by omega) (by decide)
  have d5 : Int.tdiv (eye_h size) 2 = eye_h size / 2 := Int.tdiv_eq_ediv hH0 (by decide)
  rw [d1] at hx
  rw [d4] at hy
  have gb := Eyes_Create_group_box S parent cx cy spacing size now r org
  have lb := Eyes_Create_left_box_at S parent cx cy spacing size now r
  have rb := Eyes_Create_right_box_at S parent cx cy spacing size now r
  simp only [eye_box, gb, lb, rb, hgw, hgh, d1, d2, d3, d4, d5]
  generalize F32.toInt (F32.mul (F32.ofInt size) f0_9) = T at *
  generalize eye_h size = H at *
  generalize (parent_origin parent org).1 = ox
  generalize (parent_origin parent org).2 = oy
  have w1 : wrap32 (cx - (size * 2 + spacing + 8) / 2) = cx - (size * 2 + spacing + 8) / 2 :=
    wrap32_of_range (by omega) (by omega)
  have w2 : wrap32 ((size * 2 + spacing + 8) / 2 - spacing / 2 - size / 2) =
      (size * 2 + spacing + 8) / 2 - spacing / 2 - size / 2 :=
    wrap32_of_range (by omega) (by omega)
  have w3 : wrap32 ((size * 2 + spacing + 8) / 2 - spacing / 2 - size / 2 - size / 2) =
      (size * 2 + spacing + 8) / 2 - spacing / 2 - size / 2 - size / 2 :=
    wrap32_of_range (by omega) (by omega)
  have w4 : wrap32 ((size * 2 + spacing + 8) / 2 + spacing / 2 + size / 2) =
      (size * 2 + spacing + 8) / 2 + spacing / 2 + size / 2 :=
    wrap32_of_range (by omega) (by omega)
  have w5 : wrap32 ((size * 2 + spacing + 8) / 2 + spacing / 2 + size / 2 - size / 2) =
      (size * 2 + spacing + 8) / 2 + spacing / 2 + size / 2 - size / 2 :=
    wrap32_of_range (by omega) (by omega)
  have w6 : wrap32 (cy - (T + 8) / 2) = cy - (T + 8) / 2 :=
    wrap32_of_range (by omega) (by omega)
  have w7 : wrap32 ((T + 8) / 2 - H / 2) = (T + 8) / 2 - H / 2 :=
    wrap32_of_range (by omega) (by omega)
  simp only [w1, w2, w3, w4, w5, w6, w7]
  refine ⟨⟨?_, ?_⟩, ⟨?_, ?_⟩, ?_, ?_, ?_, ?_, ?_⟩
  · omega
  · omega
  · omega
  · omega
  · omega
  · omega
  · omega
  · omega
  · intro hp
    unfold parent_origin
    rw [if_pos hp]

/-- Check of `Eyes_Create_symmetric` at `Eyes_Create(nullptr, 86, 32)`: the
centres are `(36, 32)` and `(136, 32)` on the screen. -/
theorem Eyes_Create_symmetric_witness :
    ((0 : Int) ≤ 36 ∧ (0 : Int) ≤ 64 ∧ (64 : Int) * 2 + 36 + 8 ≤ 2147483647 ∧
      (-2147483648 : Int) ≤ 86 - Int.tdiv (64 * 2 + 36 + 8) 2 ∧ (86 : Int) ≤ 2147483647 ∧
      (-2147483648 : Int) ≤ 32 - Int.tdiv (F32.toInt (F32.mul (F32.ofInt 64) f0_9) + 8) 2 ∧
      (32 : Int) ≤ 2147483647) ∧
    (eye_box .left_base .null (0, 0) (Eyes_Create S0 .null 86 32 36 64 0 0).2).x1
      + Int.tdiv 64 2 = (parent_origin .null (0, 0)).1 + 86 - (Int.tdiv 36 2 + Int.tdiv 64 2) ∧
    (parent_origin .null (0, 0)).1 + 86 - (Int.tdiv 36 2 + Int.tdiv 64 2) = 36 :=
  ⟨by decide!,
    (Eyes_Create_symmetric S0 .null 86 32 36 64 0 0 (0, 0) (by decide) (by decide) (by decide)
      (by decide) (by decide) (by decide!) (by decide)).2.2.1,
    by decide⟩

theorem Eyes_Create_eyes (S : EyesState) (parent : lv_obj) (cx cy spacing size : Int)
    (now r : Nat) :
    (Eyes_Create S parent cx cy spacing size now r).1.left =
      { S.left with
          base := .left_base, core := .left_core, base_w := size, base_h := eye_h size,
          core_w := F32.toInt (F32.mul (F32.ofInt size) f0_66),
          core_h := F32.toInt (F32.mul (F32.ofInt (eye_h size)) f0_66) } ∧
    (Eyes_Create S parent cx cy spacing size now r).1.right =
      { S.right with
          base := .right_base, core := .right_core, base_w := size, base_h := eye_h size,
          core_w := F32.toInt (F32.mul (F32.ofInt size) f0_66),
          core_h := F32.toInt (F32.mul (F32.ofInt (eye_h size)) f0_66) } :=
  ⟨rfl, rfl⟩

theorem tdiv_mul_le_of_le {a b p : Int} (ha : 0 ≤ a) (hab : a ≤ b) (hp : 0 ≤ p) :
    Int.tdiv (a * p) 100 ≤ Int.tdiv (b * p) 100 := by
  rw [Int.tdiv_eq_ediv (mul_nonneg ha hp) (by decide),
    Int.tdiv_eq_ediv (mul_nonneg (le_trans ha hab) hp) (by decide)]
  exact Int.ediv_le_ediv (by decide) (mul_le_mul_of_nonneg_right hab hp)

theorem constrain_8_100 (p : Int) : 8 ≤ constrain p 8 100 ∧ constrain p 8 100 ≤ 100 := by
  rw [constrain_eq_min_max _ _ _ (by decide)]
  omega

theorem eye_dims_ordered (size : Int) (h0 : 0 ≤ size) :
    0 ≤ eye_h size ∧
    0 ≤ F32.toInt (F32.mul (F32.ofInt size) f0_66) ∧
    F32.toInt (F32.mul (F32.ofInt size) f0_66) ≤ size ∧
    0 ≤ F32.toInt (F32.mul (F32.ofInt (eye_h size)) f0_66) ∧
    F32.toInt (F32.mul (F32.ofInt (eye_h size)) f0_66) ≤ eye_h size := by
  obtain ⟨n, rfl⟩ := Int.eq_ofNat_of_zero_le h0
  have hh := toInt_mul_le n f0_86 f0_86_bounds.1 f0_86_bounds.2
  have hw := toInt_mul_le n f0_66 f0_66_bounds.1 f0_66_bounds.2
  have hh0 : 0 ≤ eye_h (n : ℤ) := hh.1
  obtain ⟨m, hm⟩ := Int.eq_ofNat_of_zero_le hh0
  have hc := toInt_mul_le m f0_66 f0_66_bounds.1 f0_66_bounds.2
  rw [hm]
  exact ⟨by positivity, hw.1, hw.2, hc.1, hc.2⟩

/-- The outer height `(int)(w * 0.86f)` does not fall when the width grows. -/
theorem eye_h_mono {a b : Int} (h0 : 0 ≤ a) (h : a ≤ b) : eye_h a ≤ eye_h b := by
  unfold eye_h F32.mul F32.ofInt
  have hq : ((a : ℤ) : ℚ) ≤ ((b : ℤ) : ℚ) := by exact_mod_cast h
  have hq0 : (0 : ℚ) ≤ ((a : ℤ) : ℚ) := by exact_mod_cast h0
  have h86 : (0 : ℚ) ≤ f0_86 := le_trans (by norm_num) f0_86_bounds.1
  have hr : F32.rnd ((a : ℤ) : ℚ) ≤ F32.rnd ((b : ℤ) : ℚ) := F32.rnd_mono_all hq
  have hr0 : 0 ≤ F32.rnd ((a : ℤ) : ℚ) := F32.rnd_nonneg hq0
  exact F32.toInt_mono (F32.rnd_nonneg (mul_nonneg hr0 h86))
    (F32.rnd_mono_all (mul_le_mul_of_nonneg_right hr h86))

theorem eye_h_threshold : eye_h 24970741 = 21474836 ∧ eye_h 24970742 = 21474838 := by
  decide!

/-- C16 (as found): for a large size the inner shape of a squashed eye is taller
than the outer one.  `Eyes_Create` with size 30000000 stores `base_h = 25800000`
and `core_h = 17028000`; in `set_eye_squash` at 100 percent the `int` product
`base_h * 100` overflows 32 bits, and the sizes requested are
`30000000 x -17149672` for the outer shape and `19800000 x 17028000` for the
inner one. -/
theorem core_exceeds_base_after_squash :
    (0 : Int) ≤ 30000000 ∧
    (S_big.left.core_w ≤ S_big.left.base_w ∧ S_big.left.core_h ≤ S_big.left.base_h) ∧
    set_eye_squash S_big.left box64 100 =
      [ .lv_obj_set_size .left_base 30000000 (-17149672),
        .lv_obj_set_pos .left_base (-14999965) 8574868,
        .lv_obj_set_size .left_core 19800000 17028000,
        .lv_obj_center .left_core ] ∧
    ¬ ((17028000 : Int) ≤ -17149672) := by
  decide!

/-- C16 (amended): for every size `>= 0` given to `Eyes_Create`, each eye stores
`base_w = size`, `base_h = (int)(size * 0.86f)`, `core_w = (int)(size * 0.66f)` and
`core_h = (int)(base_h * 0.66f)` with `0 <= core_w <= base_w` and
`0 <= core_h <= base_h`; and for every size up to 24970741 (the largest for
which `base_h * 100` fits a 32-bit `int`), every `set_eye_squash` on it, for any
box and any percent, requests an inner size no larger than the outer size it
requests, in width and in height. -/
theorem core_within_base (S : EyesState) (parent : lv_obj) (cx cy spacing size : Int)
    (now r : Nat) (h0 : 0 ≤ size) (eye : EyeLayer)
    (he : eye = (Eyes_Create S parent cx cy spacing size now r).1.left ∨
      eye = (Eyes_Create S parent cx cy spacing size now r).1.right) :
    eye.base_w = size ∧ eye.base_h = eye_h size ∧
    eye.core_w = F32.toInt (F32.mul (F32.ofInt size) f0_66) ∧
    eye.core_h = F32.toInt (F32.mul (F32.ofInt eye.base_h) f0_66) ∧
    (0 ≤ eye.core_w ∧ eye.core_w ≤ eye.base_w) ∧
    (0 ≤ eye.core_h ∧ eye.core_h ≤ eye.base_h) ∧
    (size ≤ 24970741 →
      ∀ (a : lv_area_t) (p : Int), ∃ W H CW CH : Int,
        sizes_of (set_eye_squash eye a p) = [ (eye.base, W, H), (eye.core, CW, CH) ] ∧
        CW ≤ W ∧ CH ≤ H) := by
  obtain ⟨hh0, hw0, hw1, hc0, hc1⟩ := eye_dims_ordered size h0
  obtain ⟨hl, hr⟩ := Eyes_Create_eyes S parent cx cy spacing size now r
  have key : eye.base_w = size ∧ eye.base_h = eye_h size ∧
      eye.core_w = F32.toInt (F32.mul (F32.ofInt size) f0_66) ∧
      eye.core_h = F32.toInt (F32.mul (F32.ofInt (eye_h size)) f0_66) := by
    rcases he with he | he
    · rw [he, hl]; exact ⟨rfl, rfl, rfl, rfl⟩
    · rw [he, hr]; exact ⟨rfl, rfl, rfl, rfl⟩
  obtain ⟨k1, k2, k3, k4⟩ := key
  refine ⟨k1, k2, k3, by rw [k4, k2], ⟨by rw [k3]; exact hw0, by rw [k3, k1]; exact hw1⟩,
    ⟨by rw [k4]; exact hc0, by rw [k4, k2]; exact hc1⟩, ?_⟩
  intro hmax a p
  have hH : eye_h size ≤ 21474836 := by
    rw [← eye_h_threshold.1]; exact eye_h_mono h0 hmax
  have b0 : 0 ≤ eye.base_h := by rw [k2]; exact hh0
  have b1 : eye.base_h ≤ 21474836 := by rw [k2]; exact hH
  have c0 : 0 ≤ eye.core_h := by rw [k4]; exact hc0
  have c1 : eye.core_h ≤ eye.base_h := by rw [k4, k2]; exact hc1
  have wb := wrap32_mul_percent eye.base_h p (by omega) b1
  have wc := wrap32_mul_percent eye.core_h p (by omega) (by omega)
  refine ⟨eye.base_w, Int.tdiv (eye.base_h * constrain p 8 100) 100, eye.core_w,
    Int.tdiv (eye.core_h * constrain p 8 100) 100, ?_, by rw [k3, k1]; exact hw1, ?_⟩
  · simp only [set_eye_squash, sizes_of, wb, wc]
  · exact tdiv_mul_le_of_le c0 c1 (by have := (constrain_8_100 p).1; omega)

/-- Check of `core_within_base` at the default size 64: the stored sizes are
`64 x 55` and `42 x 36`, and a squash to 50 percent requests `64 x 27` and
`42 x 18`. -/
theorem core_within_base_witness :
    (0 : Int) ≤ 64 ∧ (64 : Int) ≤ 24970741 ∧
    S_created.left.base_w = 64 ∧ S_created.left.base_h = 55 ∧
    S_created.left.core_w = 42 ∧ S_created.left.core_h = 36 ∧
    (0 ≤ S_created.left.core_w ∧ S_created.left.core_w ≤ S_created.left.base_w) ∧
    (0 ≤ S_created.left.core_h ∧ S_created.left.core_h ≤ S_created.left.base_h) ∧
    (∃ W H CW CH : Int,
      sizes_of (set_eye_squash S_created.left box64 50) =
        [ (S_created.left.base, W, H), (S_created.left.core, CW, CH) ] ∧ CW ≤ W ∧ CH ≤ H) ∧
    sizes_of (set_eye_squash S_created.left box64 50) =
      [ (.left_base, 64, 27), (.left_core, 42, 18) ] :=
  ⟨by decide, by decide, by decide!, by decide!, by decide!, by decide!,
    (core_within_base S0 .null 86 32 36 64 0 0 (by decide) S_created.left (Or.inl rfl)).2.2.2.2.1,
    (core_within_base S0 .null 86 32 36 64 0 0 (by decide) S_created.left
      (Or.inl rfl)).2.2.2.2.2.1,
    (core_within_base S0 .null 86 32 36 64 0 0 (by decide) S_created.left
      (Or.inl rfl)).2.2.2.2.2.2 (by decide) box64 50,
    by decide!⟩

/-! ## Breathing glow -/

theorem update_breath_eq (sinf : ℚ → ℚ) (S : EyesState) (now : Nat) :
    update_breath sinf S now =
      [ .lv_obj_set_style_shadow_width S.left.base (breath_width S (breath_s sinf S now)),
        .lv_obj_set_style_shadow_opa S.left.base (breath_opa (breath_s sinf S now)),
        .lv_obj_set_style_shadow_width S.right.base (breath_width S (breath_s sinf S now)),
        .lv_obj_set_style_shadow_opa S.right.base (breath_opa (breath_s sinf S now)) ] := rfl

theorem breath_s_eq_osc (sinf : ℚ → ℚ) (S : EyesState) (now : Nat) :
    breath_s sinf S now = osc (sinf (breath_arg S now)) := rfl

theorem osc_mono {y z : ℚ} (h : y ≤ z) : osc y ≤ osc z := by
  unfold osc F32.add F32.mul
  have h5 : (0 : ℚ) ≤ f0_5 := by rw [f0_5_eq]; norm_num
  apply F32.rnd_mono_all
  have := F32.rnd_mono_all (mul_le_mul_of_nonneg_left h h5)
  linarith

theorem osc_values :
    osc 0 = 1 / 2 ∧ osc 1 = 1 ∧ osc (-1) = 0 ∧ osc (-1 / 16) = 15 / 32 ∧
    osc (1 / 16) = 17 / 32 ∧ osc (1 / 8) = 9 / 16 ∧ osc (29 / 32) = 61 / 64 ∧
    osc (-29 / 32) = 3 / 64 ∧ osc (-7 / 8) = 1 / 16 ∧ osc (-5 / 8) = 3 / 16 := by
  decide!

theorem breath_opa_mono {s t : ℚ} (hs : 0 ≤ s) (h : s ≤ t) : breath_opa s ≤ breath_opa t := by
  unfold breath_opa F32.add F32.mul
  have h80 : F32.ofInt 80 = 80 := by decide!
  have h120 : F32.ofInt 120 = 120 := by decide!
  rw [h80, h120]
  have h1 : (0 : ℚ) ≤ F32.rnd (80 * s) := F32.rnd_nonneg (by positivity)
  have h2 : F32.rnd (80 * s) ≤ F32.rnd (80 * t) := F32.rnd_mono_all (by linarith)
  apply F32.toInt_mono (F32.rnd_nonneg (by linarith))
  exact F32.rnd_mono_all (by linarith)

theorem breath_opa_values : breath_opa (15 / 32) = 157 ∧ breath_opa (3 / 16) = 135 := by
  decide!

theorem sub32_add32_of_lt (now bs P : Nat) (h : sub32 now bs + P < 4294967296) :
    sub32 (add32 now P) bs = sub32 now bs + P := by
  unfold sub32 add32 at *
  omega

theorem breath_t_add_period (S : EyesState) (now : Nat)
    (h : sub32 now S.breatheStart + S.breathePeriod < 4294967296) :
    breath_t S (add32 now S.breathePeriod) = breath_t S now := by
  unfold breath_t
  rw [sub32_add32_of_lt now S.breatheStart S.breathePeriod h, Nat.add_mod_right]

/-! ### The sine at the arguments of the breathing cycle -/

theorem sine_at_pi : 0 ≤ Real.sin ((6588397 / 2097152 : ℚ) : ℝ) ∧
    Real.sin ((6588397 / 2097152 : ℚ) : ℝ) ≤ 1 / 16 := by
  have h1 := Real.pi_gt_d20
  have h2 := Real.pi_lt_d6
  have e : ((6588397 / 2097152 : ℚ) : ℝ) = 6588397 / 2097152 := by push_cast; rfl
  rw [e, ← Real.sin_pi_sub]
  have hpos : 0 < Real.pi - 6588397 / 2097152 := by norm_num at h1 ⊢; linarith
  constructor
  · exact le_of_lt (Real.sin_pos_of_pos_of_lt_pi hpos (by linarith [Real.pi_pos]))
  · have := Real.sin_lt hpos
    norm_num at h2
    linarith

theorem sine_at_half_pi : 31 / 32 ≤ Real.sin ((6588397 / 4194304 : ℚ) : ℝ) := by
  have h1 := Real.pi_gt_d6
  have h2 := Real.pi_lt_d6
  have e : ((6588397 / 4194304 : ℚ) : ℝ) = Real.pi / 2 - (Real.pi / 2 - 6588397 / 4194304) := by
    push_cast; ring
  rw [e, Real.sin_pi_div_two_sub]
  have hc := Real.one_sub_sq_div_two_le_cos (x := Real.pi / 2 - 6588397 / 4194304)
  norm_num at h1 h2
  have hsq : (Real.pi / 2 - 6588397 / 4194304) ^ 2 ≤ (1 / 1000) ^ 2 := by
    apply sq_le_sq'
    · linarith
    · linarith
  norm_num at hsq
  linarith

theorem sine_at_three_half_pi : Real.sin ((2470649 / 524288 : ℚ) : ℝ) ≤ -(31 / 32) := by
  have h1 := Real.pi_gt_d6
  have h2 := Real.pi_lt_d6
  have e : ((2470649 / 524288 : ℚ) : ℝ) =
      ((2470649 / 524288 - 3 * Real.pi / 2) + Real.pi / 2) + Real.pi := by
    push_cast; ring
  rw [e, Real.sin_add_pi, Real.sin_add_pi_div_two]
  have hc := Real.one_sub_sq_div_two_le_cos (x := (2470649 / 524288 - 3 * Real.pi / 2))
  norm_num at h1 h2
  have hsq : (2470649 / 524288 - 3 * Real.pi / 2) ^ 2 ≤ (1 / 1000) ^ 2 := by
    apply sq_le_sq'
    · linarith
    · linarith
  norm_num at hsq
  linarith

theorem sine_at_wrap_arg : -(13 / 16) ≤ Real.sin ((11356001 / 2097152 : ℚ) : ℝ) ∧
    Real.sin ((11356001 / 2097152 : ℚ) : ℝ) ≤ -(11 / 16) := by
  have h1 := Real.pi_gt_d6
  have h2 := Real.pi_lt_d6
  have e : ((11356001 / 2097152 : ℚ) : ℝ) = 11356001 / 2097152 := by push_cast; rfl
  have hs := Real.sin_two_pi_sub (11356001 / 2097152)
  norm_num at h1 h2
  have hy0 : 0 ≤ 2 * Real.pi - 11356001 / 2097152 := by linarith
  have hy2 : 217 / 250 ≤ 2 * Real.pi - 11356001 / 2097152 := by linarith
  have hy3 : 2 * Real.pi - 11356001 / 2097152 ≤ 869 / 1000 := by linarith
  have hb := Real.sin_bound (x := 2 * Real.pi - 11356001 / 2097152)
    (by rw [abs_of_nonneg hy0]; linarith)
  rw [abs_of_nonneg hy0, abs_le] at hb
  have hc3 : (2 * Real.pi - 11356001 / 2097152) ^ 3 ≤ (869 / 1000) ^ 3 :=
    pow_le_pow_left₀ hy0 hy3 3
  have hc3l : (217 / 250 : ℝ) ^ 3 ≤ (2 * Real.pi - 11356001 / 2097152) ^ 3 :=
    pow_le_pow_left₀ (by norm_num) hy2 3
  have hc4 : (2 * Real.pi - 11356001 / 2097152) ^ 4 ≤ (869 / 1000) ^ 4 :=
    pow_le_pow_left₀ hy0 hy3 4
  norm_num at hc3 hc3l hc4
  rw [e]
  constructor <;> linarith

theorem sinf_close_bounds {sinf : ℚ → ℚ} {x : ℚ} (lo hi : ℚ) (h : sinf_close sinf x)
    (hlo : (lo : ℝ) ≤ Real.sin ((x : ℚ) : ℝ)) (hhi : Real.sin ((x : ℚ) : ℝ) ≤ (hi : ℝ)) :
    lo - 1 / 16 ≤ sinf x ∧ sinf x ≤ hi + 1 / 16 := by
  unfold sinf_close at h
  rw [abs_le] at h
  constructor
  · have : ((lo - 1 / 16 : ℚ) : ℝ) ≤ ((sinf x : ℚ) : ℝ) := by push_cast; linarith
    exact_mod_cast this
  · have : ((sinf x : ℚ) : ℝ) ≤ ((hi + 1 / 16 : ℚ) : ℝ) := by push_cast; linarith
    exact_mod_cast this

theorem sinf_close_of_bounds {sinf : ℚ → ℚ} {x : ℚ} (lo hi : ℚ)
    (hlo : (lo : ℝ) ≤ Real.sin ((x : ℚ) : ℝ)) (hhi : Real.sin ((x : ℚ) : ℝ) ≤ (hi : ℝ))
    (h1 : hi - 1 / 16 ≤ sinf x) (h2 : sinf x ≤ lo + 1 / 16) : sinf_close sinf x := by
  unfold sinf_close
  rw [abs_le]
  have h1r : ((hi - 1 / 16 : ℚ) : ℝ) ≤ ((sinf x : ℚ) : ℝ) := by exact_mod_cast h1
  have h2r : ((sinf x : ℚ) : ℝ) ≤ ((lo + 1 / 16 : ℚ) : ℝ) := by exact_mod_cast h2
  push_cast at h1r h2r
  constructor <;> linarith

theorem sinf_close_zero {sinf : ℚ → ℚ} (h : sinf_close sinf 0) :
    -1 / 16 ≤ sinf 0 ∧ sinf 0 ≤ 1 / 16 := by
  have := sinf_close_bounds 0 0 h (by simp) (by simp)
  constructor <;> linarith [this.1, this.2]

theorem sinf_close_pi {sinf : ℚ → ℚ} (h : sinf_close sinf (6588397 / 2097152)) :
    -1 / 16 ≤ sinf (6588397 / 2097152) ∧ sinf (6588397 / 2097152) ≤ 1 / 8 := by
  have := sinf_close_bounds 0 (1 / 16) h
    (by have hx := sine_at_pi.1; push_cast at hx ⊢; linarith) (by have hx := sine_at_pi.2; push_cast at hx ⊢; linarith)
  constructor <;> linarith [this.1, this.2]

theorem sinf_close_half_pi {sinf : ℚ → ℚ} (h : sinf_close sinf (6588397 / 4194304)) :
    29 / 32 ≤ sinf (6588397 / 4194304) := by
  have := sinf_close_bounds (31 / 32) 1 h
    (by have hx := sine_at_half_pi; push_cast at hx ⊢; linarith) (by push_cast; exact Real.sin_le_one _)
  linarith [this.1]

theorem sinf_close_three_half_pi {sinf : ℚ → ℚ} (h : sinf_close sinf (2470649 / 524288)) :
    sinf (2470649 / 524288) ≤ -29 / 32 := by
  have := sinf_close_bounds (-1) (-(31 / 32)) h
    (by push_cast; exact Real.neg_one_le_sin _) (by have hx := sine_at_three_half_pi; push_cast at hx ⊢; linarith)
  linarith [this.2]

theorem sinf_close_wrap_arg {sinf : ℚ → ℚ} (h : sinf_close sinf (11356001 / 2097152)) :
    -7 / 8 ≤ sinf (11356001 / 2097152) ∧ sinf (11356001 / 2097152) ≤ -5 / 8 := by
  have := sinf_close_bounds (-(13 / 16)) (-(11 / 16)) h
    (by have hx := sine_at_wrap_arg.1; push_cast at hx ⊢; linarith) (by have hx := sine_at_wrap_arg.2; push_cast at hx ⊢; linarith)
  constructor <;> linarith [this.1, this.2]

/-- The sample `sinf_sample` is close to the sine at the five arguments used
below. -/
theorem sinf_sample_close :
    sinf_close sinf_sample 0 ∧ sinf_close sinf_sample (6588397 / 2097152) ∧
    sinf_close sinf_sample (6588397 / 4194304) ∧ sinf_close sinf_sample (2470649 / 524288) ∧
    sinf_close sinf_sample (11356001 / 2097152) := by
  refine ⟨?_, ?_, ?_, ?_, ?_⟩
  · exact sinf_close_of_bounds 0 0 (by simp) (by simp) (by decide!) (by decide!)
  · exact sinf_close_of_bounds 0 (1 / 16) (by have hx := sine_at_pi.1; push_cast at hx ⊢; linarith)
      (by have hx := sine_at_pi.2; push_cast at hx ⊢; linarith) (by decide!) (by decide!)
  · exact sinf_close_of_bounds (31 / 32) 1 (by have hx := sine_at_half_pi; push_cast at hx ⊢; linarith)
      (by push_cast; exact Real.sin_le_one _) (by decide!) (by decide!)
  · exact sinf_close_of_bounds (-1) (-(31 / 32))
      (by push_cast; exact Real.neg_one_le_sin _)
      (by have hx := sine_at_three_half_pi; push_cast at hx ⊢; linarith) (by decide!) (by decide!)
  · exact sinf_close_of_bounds (-(13 / 16)) (-(11 / 16))
      (by have hx := sine_at_wrap_arg.1; push_cast at hx ⊢; linarith) (by have hx := sine_at_wrap_arg.2; push_cast at hx ⊢; linarith)
      (by decide!) (by decide!)

/-! ### Periodicity and extremes of the breathing glow -/

theorem breath_arg_of_t (S : EyesState) (now t : Nat) (hP : S.breathePeriod = 2200)
    (ht : breath_t S now = t) :
    breath_arg S now =
      F32.mul (F32.mul (F32.div (F32.ofInt (t : Nat)) (F32.ofInt (2200 : Nat))) f2) f3_1415926 := by
  unfold breath_arg
  rw [ht, hP]

theorem breath_t_after (S : EyesState) (t : Nat) (hP : S.breathePeriod = 2200) (ht : t < 2200) :
    breath_t S (add32 S.breatheStart t) = t := by
  unfold breath_t
  rw [sub32_add32 S.breatheStart t (by omega), hP]
  exact Nat.mod_eq_of_lt ht

theorem breath_arg_values (S : EyesState) (hP : S.breathePeriod = 2200) :
    breath_arg S (add32 S.breatheStart 0) = 0 ∧
    breath_arg S (add32 S.breatheStart 550) = 6588397 / 4194304 ∧
    breath_arg S (add32 S.breatheStart 1100) = 6588397 / 2097152 ∧
    breath_arg S (add32 S.breatheStart 1650) = 2470649 / 524288 := by
  refine ⟨?_, ?_, ?_, ?_⟩
  · rw [breath_arg_of_t S _ 0 hP (breath_t_after S 0 hP (by decide))]; decide!
  · rw [breath_arg_of_t S _ 550 hP (breath_t_after S 550 hP (by decide))]; decide!
  · rw [breath_arg_of_t S _ 1100 hP (breath_t_after S 1100 hP (by decide))]; decide!
  · rw [breath_arg_of_t S _ 1650 hP (breath_t_after S 1650 hP (by decide))]; decide!

/-- C13 (as found): the glow does not repeat after one period when the elapsed
time wraps.  With `breatheStart = 0` and the period 2200, the reading 4294965096
is 1896 ms into the cycle, and one period later the clock reads 0, which is 0 ms
into the cycle (`2^32` is not a multiple of 2200).  For every `sinf` within 1/16
of the sine at the two arguments computed (0 and about 5.415, where the sine is
about -0.76), the opacity written is at least 157 at the later reading and at
most 135 at the earlier one. -/
theorem breath_not_periodic_at_wrap :
    S_created.breatheStart = 0 ∧ S_created.breathePeriod = 2200 ∧
    add32 4294965096 S_created.breathePeriod = 0 ∧
    breath_t S_created 4294965096 = 1896 ∧ breath_t S_created 0 = 0 ∧
    breath_arg S_created 4294965096 = 11356001 / 2097152 ∧ breath_arg S_created 0 = 0 ∧
    ∀ sinf : ℚ → ℚ, sinf_close sinf 0 → sinf_close sinf (11356001 / 2097152) →
      157 ≤ breath_opa (breath_s sinf S_created (add32 4294965096 S_created.breathePeriod)) ∧
      breath_opa (breath_s sinf S_created 4294965096) ≤ 135 ∧
      update_breath sinf S_created (add32 4294965096 S_created.breathePeriod) ≠
        update_breath sinf S_created 4294965096 := by
  have hA : breath_arg S_created 4294965096 = 11356001 / 2097152 := by decide!
  have h0 : breath_arg S_created 0 = 0 := by decide!
  have hadd : add32 4294965096 S_created.breathePeriod = 0 := by decide
  refine ⟨rfl, rfl, hadd, by decide, by decide, hA, h0, ?_⟩
  intro sinf hc0 hcA
  have b0 := sinf_close_zero hc0
  have bA := sinf_close_wrap_arg hcA
  have e1 : 15 / 32 ≤ breath_s sinf S_created (add32 4294965096 S_created.breathePeriod) := by
    rw [hadd, breath_s_eq_osc, h0, ← osc_values.2.2.2.1]; exact osc_mono b0.1
  have e2 : breath_s sinf S_created 4294965096 ≤ 3 / 16 := by
    rw [breath_s_eq_osc, hA, ← osc_values.2.2.2.2.2.2.2.2.2]; exact osc_mono bA.2
  have e3 : 0 ≤ breath_s sinf S_created 4294965096 := by
    have : osc (-7 / 8) ≤ breath_s sinf S_created 4294965096 := by
      rw [breath_s_eq_osc, hA]; exact osc_mono bA.1
    rw [osc_values.2.2.2.2.2.2.2.2.1] at this
    linarith
  have o1 : 157 ≤ breath_opa
      (breath_s sinf S_created (add32 4294965096 S_created.breathePeriod)) := by
    rw [← breath_opa_values.1]; exact breath_opa_mono (by norm_num) e1
  have o2 : breath_opa (breath_s sinf S_created 4294965096) ≤ 135 := by
    rw [← breath_opa_values.2]; exact breath_opa_mono e3 e2
  refine ⟨o1, o2, ?_⟩
  intro h
  rw [update_breath_eq, update_breath_eq] at h
  have h2 := congrArg (fun l => l.get? 1) h
  simp only [List.get?] at h2
  injection h2 with h3
  injection h3 with _ h4
  omega

/-- C13 (amended): the shadow width and opacity that `update_breath` writes one
period later equal those it writes at reading `now`, for every breathing
reference and glow setting, whenever the elapsed time `now - breatheStart`
(modulo `2^32`) plus the period stays below `2^32`. -/
theorem breath_periodic (sinf : ℚ → ℚ) (S : EyesState) (now : Nat)
    (h : sub32 now S.breatheStart + S.breathePeriod < 4294967296) :
    update_breath sinf S (add32 now S.breathePeriod) = update_breath sinf S now := by
  have ht := breath_t_add_period S now h
  have harg : breath_arg S (add32 now S.breathePeriod) = breath_arg S now := by
    unfold breath_arg; rw [ht]
  have hs : breath_s sinf S (add32 now S.breathePeriod) = breath_s sinf S now := by
    rw [breath_s_eq_osc, breath_s_eq_osc, harg]
  rw [update_breath_eq, update_breath_eq, hs]

/-- Check of `breath_periodic` at reading 5000 on the created state. -/
theorem breath_periodic_witness :
    sub32 5000 S_created.breatheStart + S_created.breathePeriod < 4294967296 ∧
    update_breath sinf_sample S_created (add32 5000 S_created.breathePeriod) =
      update_breath sinf_sample S_created 5000 :=
  ⟨by decide, breath_periodic sinf_sample S_created 5000 (by decide)⟩

/-- C14 (as found): on the created state (`breatheStart = 0`, period 2200) the
oscillation is not at its least at `t = 0` nor at its greatest at half a
period.  For every `sinf` within 1/16 of the sine at the four arguments
computed, `s` at `t = 0` is at least 15/32 while `s` at `t = 1650` is at most
3/64, and `s` at `t = 1100` is at most 9/16 while `s` at `t = 550` is at least
61/64; with `sinf 0 = 0` the value at `t = 0` is exactly 1/2. -/
theorem breath_s_extremes_misplaced :
    S_created.breatheStart = 0 ∧ S_created.breathePeriod = 2200 ∧
    breath_t S_created 0 = 0 ∧ breath_t S_created 1100 = 1100 ∧
    breath_t S_created 550 = 550 ∧ breath_t S_created 1650 = 1650 ∧
    ∀ sinf : ℚ → ℚ, sinf_close sinf 0 → sinf_close sinf (6588397 / 2097152) →
      sinf_close sinf (6588397 / 4194304) → sinf_close sinf (2470649 / 524288) →
      (15 / 32 ≤ breath_s sinf S_created 0 ∧ breath_s sinf S_created 1650 ≤ 3 / 64) ∧
      (breath_s sinf S_created 1100 ≤ 9 / 16 ∧ 61 / 64 ≤ breath_s sinf S_created 550) ∧
      (sinf 0 = 0 → breath_s sinf S_created 0 = 1 / 2) := by
  have a0 : breath_arg S_created 0 = 0 := by decide!
  have a1 : breath_arg S_created 550 = 6588397 / 4194304 := by decide!
  have a2 : breath_arg S_created 1100 = 6588397 / 2097152 := by decide!
  have a3 : breath_arg S_created 1650 = 2470649 / 524288 := by decide!
  refine ⟨rfl, rfl, by decide, by decide, by decide, by decide, ?_⟩
  intro sinf h0 h2 h1 h3
  refine ⟨⟨?_, ?_⟩, ⟨?_, ?_⟩, ?_⟩
  · rw [breath_s_eq_osc, a0, ← osc_values.2.2.2.1]; exact osc_mono (sinf_close_zero h0).1
  · rw [breath_s_eq_osc, a3, ← osc_values.2.2.2.2.2.2.2.1]
    exact osc_mono (sinf_close_three_half_pi h3)
  · rw [breath_s_eq_osc, a2, ← osc_values.2.2.2.2.2.1]; exact osc_mono (sinf_close_pi h2).2
  · rw [breath_s_eq_osc, a1, ← osc_values.2.2.2.2.2.2.1]
    exact osc_mono (sinf_close_half_pi h1)
  · intro hz
    rw [breath_s_eq_osc, a0, hz]; exact osc_values.1

/-- C14 (amended): with the period 2200, and `t` the time since the breathing
reference, the oscillation `s = 0.5f + 0.5f * sinf(...)` is near its middle at
`t = 0` and at half a period, near its greatest value 1 at a quarter of a period
and near its least value 0 at three quarters.  For every `sinf` within 1/16 of
the sine at the argument concerned: `s` is in `[15/32, 17/32]` at `t = 0`
(exactly 1/2 when `sinf 0 = 0`), in `[15/32, 9/16]` at `t = 1100`, at least
61/64 at `t = 550` and at most 3/64 at `t = 1650`; and at every reading where
`sinf` returns a value in `[-1, 1]`, `s` is in `[0, 1]`. -/
theorem breath_s_quarters (sinf : ℚ → ℚ) (S : EyesState) (hP : S.breathePeriod = 2200) :
    (sinf_close sinf 0 →
      15 / 32 ≤ breath_s sinf S (add32 S.breatheStart 0) ∧
      breath_s sinf S (add32 S.breatheStart 0) ≤ 17 / 32) ∧
    (sinf 0 = 0 → breath_s sinf S (add32 S.breatheStart 0) = 1 / 2) ∧
    (sinf_close sinf (6588397 / 2097152) →
      15 / 32 ≤ breath_s sinf S (add32 S.breatheStart 1100) ∧
      breath_s sinf S (add32 S.breatheStart 1100) ≤ 9 / 16) ∧
    (sinf_close sinf (6588397 / 4194304) →
      61 / 64 ≤ breath_s sinf S (add32 S.breatheStart 550)) ∧
    (sinf_close sinf (2470649 / 524288) →
      breath_s sinf S (add32 S.breatheStart 1650) ≤ 3 / 64) ∧
    (∀ now : Nat, -1 ≤ sinf (breath_arg S now) → sinf (breath_arg S now) ≤ 1 →
      0 ≤ breath_s sinf S now ∧ breath_s sinf S now ≤ 1) := by
  obtain ⟨a0, a1, a2, a3⟩ := breath_arg_values S hP
  refine ⟨?_, ?_, ?_, ?_, ?_, ?_⟩
  · intro h
    rw [breath_s_eq_osc, a0]
    constructor
    · rw [← osc_values.2.2.2.1]; exact osc_mono (sinf_close_zero h).1
    · rw [← osc_values.2.2.2.2.1]; exact osc_mono (sinf_close_zero h).2
  · intro hz
    rw [breath_s_eq_osc, a0, hz]; exact osc_values.1
  · intro h
    rw [breath_s_eq_osc, a2]
    constructor
    · rw [← osc_values.2.2.2.1]; exact osc_mono (sinf_close_pi h).1
    · rw [← osc_values.2.2.2.2.2.1]; exact osc_mono (sinf_close_pi h).2
  · intro h
    rw [breath_s_eq_osc, a1, ← osc_values.2.2.2.2.2.2.1]
    exact osc_mono (sinf_close_half_pi h)
  · intro h
    rw [breath_s_eq_osc, a3, ← osc_values.2.2.2.2.2.2.2.1]
    exact osc_mono (sinf_close_three_half_pi h)
  · intro now hlo hhi
    rw [breath_s_eq_osc]
    constructor
    · rw [← osc_values.2.2.1]; exact osc_mono hlo
    · rw [← osc_values.2.1]; exact osc_mono hhi

/-- Check of `breath_s_quarters` on the created state with the sample sine. -/
theorem breath_s_quarters_witness :
    S_created.breathePeriod = 2200 ∧
    breath_s sinf_sample S_created (add32 S_created.breatheStart 0) = 1 / 2 ∧
    61 / 64 ≤ breath_s sinf_sample S_created (add32 S_created.breatheStart 550) ∧
    breath_s sinf_sample S_created (add32 S_created.breatheStart 1650) ≤ 3 / 64 :=
  ⟨rfl, (breath_s_quarters sinf_sample S_created rfl).2.1 (by decide!),
    (breath_s_quarters sinf_sample S_created rfl).2.2.2.1 sinf_sample_close.2.2.1,
    (breath_s_quarters sinf_sample S_created rfl).2.2.2.2.1 sinf_sample_close.2.2.2.1⟩

/-! ## The blink percent -/

namespace F32

/-- Rounding to binary32 moves a rational by at most `(|q| + 1) / 2^24`. -/
theorem rnd_err (q : ℚ) : |rnd q - q| ≤ (|q| + 1) / 2 ^ 24 := by
  by_cases hq : q = 0
  · subst hq
    rw [rnd_zero]
    norm_num
  · have hu := ulp_pos q
    have h2 : (2 : ℚ) ≠ 0 := by norm_num
    have hR := roundHE_sub_le (q / ulp q)
    have e1 : rnd q - q = ((roundHE (q / ulp q) : ℚ) - q / ulp q) * ulp q := by
      rw [rnd, if_neg hq]
      field_simp
    have h1 : |rnd q - q| ≤ 1 / 2 * ulp q := by
      rw [e1, abs_mul, abs_of_pos hu]
      exact mul_le_mul_of_nonneg_right hR (le_of_lt hu)
    have hule : ulp q * (2 : ℚ) ^ (23 : ℤ) ≤ |q| + 1 := by
      unfold ulp
      rcases le_total (-126) (ilog2 q) with hn | hn
      · rw [max_eq_left hn]
        have : (2 : ℚ) ^ (ilog2 q - 23) * (2 : ℚ) ^ (23 : ℤ) = (2 : ℚ) ^ ilog2 q := by
          rw [← zpow_add₀ h2]
          congr 1
          ring
        rw [this]
        have := (ilog2_spec q hq).1
        linarith
      · rw [max_eq_right hn]
        have : (2 : ℚ) ^ ((-126 : ℤ) - 23) * (2 : ℚ) ^ (23 : ℤ) = (2 : ℚ) ^ (-126 : ℤ) := by
          rw [← zpow_add₀ h2]
          congr 1
        rw [this]
        have h3 : (2 : ℚ) ^ (-126 : ℤ) ≤ (2 : ℚ) ^ (0 : ℤ) :=
          zpow_le_zpow_right₀ (by norm_num) (by norm_num)
        have h4 : (0 : ℚ) ≤ |q| := abs_nonneg q
        rw [zpow_zero] at h3
        linarith
    norm_num at hule ⊢
    linarith

theorem rnd_one : rnd 1 = 1 := by decide!

theorem rnd_half : rnd (1 / 2) = 1 / 2 := by decide!

theorem rnd_88 : rnd 88 = 88 := by decide!

end F32

/-- The product `p / 0.5f * 88.f` of `update_blink` is monotone in `p`. -/
theorem blink_prod_mono {p q : ℚ} (h : p ≤ q) :
    F32.mul (F32.div p f0_5) f88 ≤ F32.mul (F32.div q f0_5) f88 := by
  unfold F32.mul F32.div
  rw [f0_5_eq, f88_eq]
  apply F32.rnd_mono_all
  have : F32.rnd (p / (1 / 2)) ≤ F32.rnd (q / (1 / 2)) := F32.rnd_mono_all (by linarith)
  linarith

theorem blink_prod_zero : F32.mul (F32.div 0 f0_5) f88 = 0 := by decide!

theorem blink_prod_half : F32.mul (F32.div (1 / 2) f0_5) f88 = 88 := by decide!

/-- The product `p / 0.5f * 88.f` is within `265 / 2^24` of `176 * p` for `p`
in `[0, 1/2]`. -/
theorem blink_prod_err {p : ℚ} (h0 : 0 ≤ p) (h1 : p ≤ 1 / 2) :
    |F32.mul (F32.div p f0_5) f88 - 176 * p| ≤ 265 / 2 ^ 24 := by
  unfold F32.mul F32.div
  rw [f0_5_eq, f88_eq]
  have ha0 : 0 ≤ F32.rnd (p / (1 / 2)) := F32.rnd_nonneg (by linarith)
  have ha1 : F32.rnd (p / (1 / 2)) ≤ 1 :=
    le_trans (F32.rnd_mono_all (by linarith : p / (1 / 2) ≤ 1)) (le_of_eq F32.rnd_one)
  have ea := F32.rnd_err (p / (1 / 2))
  have eb := F32.rnd_err (F32.rnd (p / (1 / 2)) * 88)
  rw [abs_of_nonneg (by linarith : 0 ≤ p / (1 / 2))] at ea
  rw [abs_of_nonneg (by linarith : 0 ≤ F32.rnd (p / (1 / 2)) * 88)] at eb
  rw [abs_le] at ea eb ⊢
  norm_num at ea eb ⊢
  constructor <;> linarith

theorem phase_at_eq (D e : Nat) (hD : D < 65536) (he : e < 2 * D) :
    phase_at D e = F32.rnd ((e : ℚ) / (2 * (D : ℚ))) := by
  unfold phase_at F32.div F32.ofInt
  have h1 : F32.rnd (((e : ℤ) : ℚ)) = (e : ℚ) := by
    rw [Int.cast_natCast]; exact F32.rnd_natCast e (by norm_num; omega)
  have h2 : F32.rnd ((((D : ℤ) * 2 : ℤ)) : ℚ) = 2 * (D : ℚ) := by
    have : ((((D : ℤ) * 2 : ℤ)) : ℚ) = ((D * 2 : ℕ) : ℚ) := by push_cast; ring
    rw [this, F32.rnd_natCast (D * 2) (by norm_num; omega)]
    push_cast; ring
  rw [h1, h2]

theorem phase_at_nonneg (D e : Nat) (hD : D < 65536) (he : e < 2 * D) : 0 ≤ phase_at D e := by
  rw [phase_at_eq D e hD he]
  exact F32.rnd_nonneg (by positivity)

theorem phase_at_mono (D e e2 : Nat) (hD : D < 65536) (he : e2 < 2 * D) (h : e ≤ e2) :
    phase_at D e ≤ phase_at D e2 := by
  rw [phase_at_eq D e hD (by omega), phase_at_eq D e2 hD he]
  apply F32.rnd_mono_all
  have : (e : ℚ) ≤ (e2 : ℚ) := by exact_mod_cast h
  exact div_le_div_of_nonneg_right this (by positivity)

theorem phase_at_lt_half (D e : Nat) (hD : D < 65536) (he : e < D) :
    phase_at D e ≤ 65535 / 131072 := by
  rw [phase_at_eq D e hD (by omega)]
  have hDq : (0 : ℚ) < 2 * (D : ℚ) := by
    have : (0 : ℚ) < (D : ℚ) := by exact_mod_cast (by omega : 0 < D)
    linarith
  have h1 : (e : ℚ) / (2 * (D : ℚ)) ≤ 65535 / 131072 := by
    rw [div_le_iff₀ hDq]
    have : ((e * 131072 : ℕ) : ℚ) ≤ ((65535 * (2 * D) : ℕ) : ℚ) := by
      exact_mod_cast (by omega : e * 131072 ≤ 65535 * (2 * D))
    push_cast at this
    linarith
  have h2 : F32.rnd (65535 / 131072) = 65535 / 131072 := by decide!
  exact le_trans (F32.rnd_mono_all h1) (le_of_eq h2)

theorem phase_at_lt_one (D e : Nat) (hD : D < 65536) (he : e < 2 * D) :
    phase_at D e ≤ 131071 / 131072 := by
  rw [phase_at_eq D e hD he]
  have hDq : (0 : ℚ) < 2 * (D : ℚ) := by
    have : (0 : ℚ) < (D : ℚ) := by exact_mod_cast (by omega : 0 < D)
    linarith
  have h1 : (e : ℚ) / (2 * (D : ℚ)) ≤ 131071 / 131072 := by
    rw [div_le_iff₀ hDq]
    have : ((e * 131072 : ℕ) : ℚ) ≤ ((131071 * (2 * D) : ℕ) : ℚ) := by
      exact_mod_cast (by omega : e * 131072 ≤ 131071 * (2 * D))
    push_cast at this
    linarith
  have h2 : F32.rnd (131071 / 131072) = 131071 / 131072 := by decide!
  exact le_trans (F32.rnd_mono_all h1) (le_of_eq h2)

theorem phase_at_ge_half (D e : Nat) (hD0 : 0 < D) (hD : D < 65536) (he : e < 2 * D)
    (h : D ≤ e) : 1 / 2 ≤ phase_at D e := by
  rw [phase_at_eq D e hD he]
  have hDq : (0 : ℚ) < 2 * (D : ℚ) := by
    have : (0 : ℚ) < (D : ℚ) := by exact_mod_cast hD0
    linarith
  have h1 : 1 / 2 ≤ (e : ℚ) / (2 * (D : ℚ)) := by
    rw [le_div_iff₀ hDq]
    have : (D : ℚ) ≤ (e : ℚ) := by exact_mod_cast h
    linarith
  exact le_trans (le_of_eq F32.rnd_half.symm) (F32.rnd_mono_all h1)

theorem phase_at_err (D e : Nat) (hD : D < 65536) (he : e < 2 * D) :
    |phase_at D e - (e : ℚ) / (2 * (D : ℚ))| ≤ 2 / 2 ^ 24 := by
  rw [phase_at_eq D e hD he]
  have hDq : (0 : ℚ) < 2 * (D : ℚ) := by
    have : (0 : ℚ) < (D : ℚ) := by exact_mod_cast (by omega : 0 < D)
    linarith
  have h0 : 0 ≤ (e : ℚ) / (2 * (D : ℚ)) := by positivity
  have h1 : (e : ℚ) / (2 * (D : ℚ)) ≤ 1 := by
    rw [div_le_iff₀ hDq]
    have : (e : ℚ) ≤ ((2 * D : ℕ) : ℚ) := by exact_mod_cast (by omega : e ≤ 2 * D)
    push_cast at this
    linarith
  have := F32.rnd_err ((e : ℚ) / (2 * (D : ℚ)))
  rw [abs_of_nonneg h0] at this
  refine le_trans this ?_
  apply div_le_div_of_nonneg_right _ (by positivity)
  linarith

theorem blink_height_closing {ph : ℚ} (h : ph < 1 / 2) :
    blink_height ph = 100 - F32.toInt (F32.mul (F32.div ph f0_5) f88) := by
  unfold blink_height
  rw [if_pos (by rw [f0_5_eq]; exact h)]

theorem blink_height_opening {ph : ℚ} (h : 1 / 2 ≤ ph) :
    blink_height ph = 12 + F32.toInt (F32.mul (F32.div (F32.sub ph f0_5) f0_5) f88) := by
  unfold blink_height
  rw [if_neg (by rw [f0_5_eq]; exact not_lt.mpr h)]

theorem blink_sub_range {ph : ℚ} (h0 : 1 / 2 ≤ ph) (h1 : ph ≤ 1) :
    0 ≤ F32.sub ph f0_5 ∧ F32.sub ph f0_5 ≤ 1 / 2 := by
  unfold F32.sub
  rw [f0_5_eq]
  exact ⟨F32.rnd_nonneg (by linarith),
    le_trans (F32.rnd_mono_all (by linarith : ph - 1 / 2 ≤ 1 / 2)) (le_of_eq F32.rnd_half)⟩

theorem blink_sub_mono {p q : ℚ} (h : p ≤ q) : F32.sub p f0_5 ≤ F32.sub q f0_5 := by
  unfold F32.sub
  exact F32.rnd_mono_all (by linarith)

theorem blink_prod_range {p : ℚ} (h0 : 0 ≤ p) (h1 : p ≤ 1 / 2) :
    0 ≤ F32.mul (F32.div p f0_5) f88 ∧
    0 ≤ F32.toInt (F32.mul (F32.div p f0_5) f88) ∧
    F32.toInt (F32.mul (F32.div p f0_5) f88) ≤ 88 := by
  have hlo : 0 ≤ F32.mul (F32.div p f0_5) f88 :=
    le_trans (le_of_eq blink_prod_zero.symm) (blink_prod_mono h0)
  have hhi : F32.mul (F32.div p f0_5) f88 ≤ 88 :=
    le_trans (blink_prod_mono h1) (le_of_eq blink_prod_half)
  refine ⟨hlo, ?_, ?_⟩
  · have := F32.toInt_mono (le_refl (0 : ℚ)) hlo
    have z : F32.toInt (0 : ℚ) = 0 := by decide
    omega
  · have := F32.toInt_mono hlo hhi
    have z : F32.toInt (88 : ℚ) = 88 := by decide
    omega

/-- The blink percent lies in `[12, 100]` for every phase in `[0, 1]`. -/
theorem blink_height_range {ph : ℚ} (h0 : 0 ≤ ph) (h1 : ph ≤ 1) :
    12 ≤ blink_height ph ∧ blink_height ph ≤ 100 := by
  rcases lt_or_le ph (1 / 2) with h | h
  · rw [blink_height_closing h]
    have := blink_prod_range h0 (le_of_lt h)
    omega
  · rw [blink_height_opening h]
    have hs := blink_sub_range h h1
    have := blink_prod_range hs.1 hs.2
    omega

/-- The blink percent does not rise while the phase grows below `0.5f`. -/
theorem blink_height_closing_anti {p q : ℚ} (h0 : 0 ≤ p) (h : p ≤ q) (hq : q < 1 / 2) :
    blink_height q ≤ blink_height p := by
  rw [blink_height_closing hq, blink_height_closing (lt_of_le_of_lt h hq)]
  have := F32.toInt_mono (blink_prod_range h0 (by linarith)).1 (blink_prod_mono h)
  omega

/-- The blink percent does not fall while the phase grows from `0.5f`. -/
theorem blink_height_opening_mono {p q : ℚ} (hp : 1 / 2 ≤ p) (h : p ≤ q) (hq : q ≤ 1) :
    blink_height p ≤ blink_height q := by
  rw [blink_height_opening hp, blink_height_opening (le_trans hp h)]
  have hs := blink_sub_range hp (le_trans h hq)
  have := F32.toInt_mono (blink_prod_range hs.1 hs.2).1 (blink_prod_mono (blink_sub_mono h))
  omega

/-- Truncating a non-negative value that is within 1 of `n / D` gives the
integer quotient of `n` by `D` up to 1. -/
theorem toInt_near_div (c : ℚ) (n D : ℕ) (hD : 0 < D) (hc : 0 ≤ c)
    (h : |c - (n : ℚ) / (D : ℚ)| < 1) :
    ((n / D : ℕ) : ℤ) - 1 ≤ F32.toInt c ∧ F32.toInt c ≤ ((n / D : ℕ) : ℤ) + 1 := by
  rw [F32.toInt_of_nonneg hc]
  have hDq : (0 : ℚ) < (D : ℚ) := by exact_mod_cast hD
  have h1 : ((n / D : ℕ) : ℚ) ≤ (n : ℚ) / (D : ℚ) := by
    rw [le_div_iff₀ hDq]
    exact_mod_cast Nat.div_mul_le_self n D
  have h2 : (n : ℚ) / (D : ℚ) < ((n / D : ℕ) : ℚ) + 1 := by
    rw [div_lt_iff₀ hDq]
    have := Nat.lt_mul_div_succ n hD
    have h3 : (n : ℚ) < ((D * (n / D + 1) : ℕ) : ℚ) := by exact_mod_cast this
    push_cast at h3
    linarith
  have f1 : ((⌊c⌋ : ℤ) : ℚ) ≤ c := Int.floor_le c
  have f2 : c < ((⌊c⌋ : ℤ) : ℚ) + 1 := Int.lt_floor_add_one c
  obtain ⟨ha, hb⟩ := abs_lt.mp h
  generalize n / D = k at h1 h2 ⊢
  constructor
  · have h3 : (((k : ℕ) : ℤ) : ℚ) - 2 < ((⌊c⌋ : ℤ) : ℚ) := by
      rw [Int.cast_natCast]; linarith
    have h4 : ((k : ℕ) : ℤ) - 2 < ⌊c⌋ := by exact_mod_cast h3
    omega
  · have h3 : ((⌊c⌋ : ℤ) : ℚ) < (((k : ℕ) : ℤ) : ℚ) + 2 := by
      rw [Int.cast_natCast]; linarith
    have h4 : ⌊c⌋ < ((k : ℕ) : ℤ) + 2 := by exact_mod_cast h3
    omega

/-- The blink percent differs by at most 1 from the closed form with integer
division. -/
theorem blink_height_near_formula (D e : Nat) (hD0 : 0 < D) (hD : D < 65536)
    (he : e < 2 * D) :
    blink_formula D e - 1 ≤ blink_height (phase_at D e) ∧
    blink_height (phase_at D e) ≤ blink_formula D e + 1 := by
  have hDq : (0 : ℚ) < (D : ℚ) := by exact_mod_cast hD0
  have hph0 := phase_at_nonneg D e hD he
  have hperr := abs_le.mp (phase_at_err D e hD he)
  unfold blink_formula
  rcases Nat.lt_or_ge e D with h | h
  · rw [if_pos h]
    have hlt : phase_at D e < 1 / 2 :=
      lt_of_le_of_lt (phase_at_lt_half D e hD h) (by norm_num)
    rw [blink_height_closing hlt]
    have hr := blink_prod_range hph0 (le_of_lt hlt)
    have herr := abs_le.mp (blink_prod_err hph0 (le_of_lt hlt))
    have hx : ((88 * e : ℕ) : ℚ) / (D : ℚ) = 176 * ((e : ℚ) / (2 * (D : ℚ))) := by
      push_cast; field_simp; ring
    have hn := toInt_near_div (F32.mul (F32.div (phase_at D e) f0_5) f88) (88 * e) D hD0 hr.1
      (by rw [hx, abs_lt]; norm_num at herr hperr ⊢; constructor <;> linarith)
    omega
  · rw [if_neg (by omega)]
    have hge := phase_at_ge_half D e hD0 hD he h
    have hle : phase_at D e ≤ 1 :=
      le_trans (phase_at_lt_one D e hD he) (by norm_num)
    rw [blink_height_opening hge]
    have hs := blink_sub_range hge hle
    have hr := blink_prod_range hs.1 hs.2
    have herr := abs_le.mp (blink_prod_err hs.1 hs.2)
    have hserr : |F32.sub (phase_at D e) f0_5 - (phase_at D e - 1 / 2)| ≤ 2 / 2 ^ 24 := by
      unfold F32.sub
      rw [f0_5_eq]
      have := F32.rnd_err (phase_at D e - 1 / 2)
      rw [abs_of_nonneg (by linarith : 0 ≤ phase_at D e - 1 / 2)] at this
      refine le_trans this ?_
      apply div_le_div_of_nonneg_right _ (by positivity)
      linarith
    rw [abs_le] at hserr
    have hx : ((88 * (e - D) : ℕ) : ℚ) / (D : ℚ) = 176 * ((e : ℚ) / (2 * (D : ℚ)) - 1 / 2) := by
      rw [Nat.cast_mul, Nat.cast_sub h]
      push_cast; field_simp; ring
    have hn := toInt_near_div (F32.mul (F32.div (F32.sub (phase_at D e) f0_5) f0_5) f88)
      (88 * (e - D)) D hD0 hr.1
      (by rw [hx, abs_lt]; norm_num at herr hperr hserr ⊢; constructor <;> linarith)
    omega

/-! ### The percent applied during a blink -/

theorem update_blink_blinking (S : EyesState) (now r : Nat) (aL aR : lv_area_t)
    (hb : S.blinking = true) :
    update_blink S now r aL aR =
      if blink_phase S now ≥ f1 then
        (schedule_next_blink { S with blinking := false } now r, squash_both S aL aR 100)
      else
        (S, squash_both S aL aR (blink_height (blink_phase S now))) := by
  simp only [update_blink, hb, squash_both, blink_phase, blink_height]
  split_ifs <;> simp_all

theorem blink_phase_eq_phase_at (S : EyesState) (e : Nat) (he : e < 4294967296) :
    blink_phase S (add32 S.blinkStart e) = phase_at S.blinkDur e := by
  unfold blink_phase phase_at
  rw [sub32_add32 _ _ he]

theorem blink_formula_120 :
    ∀ e : Fin 240, blink_height (phase_at 120 e.val) = blink_formula 120 e.val := by
  decide!

/-- C18 (as found): the percent is not always the closed form.  With
`blinkDur = 11` and 13 ms elapsed (opening half) the binary32 phase `13/22` is
rounded down, the product `(ph - 0.5f) / 0.5f * 88.f` falls just below 16, and
the percent applied is `12 + 15 = 27`, where `12 + trunc(88 * 2 / 11)` is 28. -/
theorem blink_percent_not_closed_form :
    S_blink11.blinking = true ∧ S_blink11.blinkDur = 11 ∧
    sub32 (add32 S_blink11.blinkStart 13) S_blink11.blinkStart = 13 ∧
    blink_formula 11 13 = 28 ∧
    blink_height (blink_phase S_blink11 (add32 S_blink11.blinkStart 13)) = 27 ∧
    update_blink S_blink11 (add32 S_blink11.blinkStart 13) 0 box64 box64R =
      (S_blink11, squash_both S_blink11 box64 box64R 27) := by
  have hp : blink_phase S_blink11 (add32 S_blink11.blinkStart 13) = phase_at 11 13 :=
    blink_phase_eq_phase_at S_blink11 13 (by decide)
  have hv : blink_height (phase_at 11 13) = 27 := by decide!
  have hlt : ¬ (phase_at 11 13 ≥ f1) := by decide!
  refine ⟨rfl, rfl, by decide, by decide, by rw [hp, hv], ?_⟩
  rw [update_blink_blinking S_blink11 _ 0 box64 box64R rfl, hp, if_neg hlt, hv]

/-- C18 (amended): on a blinking state with `0 < blinkDur < 65536` (a non-zero
`uint16_t`) and an elapsed time `e < 2 * blinkDur`, `update_blink` at reading
`blinkStart + e` leaves the state unchanged and squashes both eyes to the
percent `h` computed in binary32 from the phase.  This `h` lies in `[12, 100]`,
so the clamp of `set_eye_squash` leaves it as it is; it differs by at most 1
from the closed form `100 - 88*e/blinkDur` (closing half, `e < blinkDur`) or
`12 + 88*(e - blinkDur)/blinkDur` (opening half) with integer division, and
equals it for `blinkDur = 120`; it does not rise with `e` over the closing half
and does not fall with `e` over the opening half. -/
theorem blink_percent (S : EyesState) (r : Nat) (aL aR : lv_area_t) (e : Nat)
    (hb : S.blinking = true) (hD0 : 0 < S.blinkDur) (hD : S.blinkDur < 65536)
    (he : e < 2 * S.blinkDur) :
    update_blink S (add32 S.blinkStart e) r aL aR =
      (S, squash_both S aL aR (blink_height (phase_at S.blinkDur e))) ∧
    12 ≤ blink_height (phase_at S.blinkDur e) ∧
    blink_height (phase_at S.blinkDur e) ≤ 100 ∧
    constrain (blink_height (phase_at S.blinkDur e)) 8 100 =
      blink_height (phase_at S.blinkDur e) ∧
    blink_formula S.blinkDur e - 1 ≤ blink_height (phase_at S.blinkDur e) ∧
    blink_height (phase_at S.blinkDur e) ≤ blink_formula S.blinkDur e + 1 ∧
    (S.blinkDur = 120 → blink_height (phase_at S.blinkDur e) = blink_formula S.blinkDur e) ∧
    (∀ e2 : Nat, e ≤ e2 → e2 < S.blinkDur →
      blink_height (phase_at S.blinkDur e2) ≤ blink_height (phase_at S.blinkDur e)) ∧
    (∀ e2 : Nat, S.blinkDur ≤ e → e ≤ e2 → e2 < 2 * S.blinkDur →
      blink_height (phase_at S.blinkDur e) ≤ blink_height (phase_at S.blinkDur e2)) := by
  have hp := blink_phase_eq_phase_at S e (by omega)
  have h0 := phase_at_nonneg S.blinkDur e hD he
  have h1 := phase_at_lt_one S.blinkDur e hD he
  have hlt : ¬ (phase_at S.blinkDur e ≥ f1) := by
    rw [f1_eq, ge_iff_le, not_le]
    exact lt_of_le_of_lt h1 (by norm_num)
  have hr := blink_height_range h0 (le_trans h1 (by norm_num))
  have hn := blink_height_near_formula S.blinkDur e hD0 hD he
  refine ⟨?_, hr.1, hr.2, ?_, hn.1, hn.2, ?_, ?_, ?_⟩
  · rw [update_blink_blinking S _ r aL aR hb, hp, if_neg hlt]
  · unfold constrain
    rw [if_neg (by omega), if_neg (by omega)]
  · intro h120
    rw [h120] at he ⊢
    exact blink_formula_120 ⟨e, by omega⟩
  · intro e2 h12 h2
    exact blink_height_closing_anti h0 (phase_at_mono S.blinkDur e e2 hD (by omega) h12)
      (lt_of_le_of_lt (phase_at_lt_half S.blinkDur e2 hD h2) (by norm_num))
  · intro e2 hDe h12 h2
    exact blink_height_opening_mono (phase_at_ge_half S.blinkDur e hD0 hD he hDe)
      (phase_at_mono S.blinkDur e e2 hD h2 h12)
      (le_trans (phase_at_lt_one S.blinkDur e2 hD h2) (by norm_num))

/-- Check of `blink_percent` on a blink forced at reading 1000, 90 ms later. -/
theorem blink_percent_witness :
    S_blinking.blinking = true ∧ 0 < S_blinking.blinkDur ∧ S_blinking.blinkDur < 65536 ∧
    90 < 2 * S_blinking.blinkDur ∧
    update_blink S_blinking (add32 S_blinking.blinkStart 90) 7 box64 box64R =
      (S_blinking, squash_both S_blinking box64 box64R
        (blink_height (phase_at S_blinking.blinkDur 90))) ∧
    blink_height (phase_at S_blinking.blinkDur 90) = blink_formula S_blinking.blinkDur 90 ∧
    blink_formula S_blinking.blinkDur 90 = 34 :=
  ⟨rfl, by decide, by decide, by decide,
    (blink_percent S_blinking 7 box64 box64R 90 rfl (by decide) (by decide) (by decide)).1,
    (blink_percent S_blinking 7 box64 box64R 90 rfl (by decide) (by decide)
      (by decide)).2.2.2.2.2.2.1 rfl,
    by decide⟩

/-! ### Start of the next blink -/

/-- An idle tick before the scheduled reading leaves the state as it is. -/
theorem idle_update_before_due (sinf : ℚ → ℚ) (S : EyesState) (now r : Nat)
    (aL aR : lv_area_t) (hr : S.ready = true) (hb : S.blinking = false)
    (h : now < S.nextBlinkMs) : (Eyes_Update sinf S now r aL aR).1 = S := by
  rw [Eyes_Update_ready sinf S now r aL aR hr]
  simp only [update_blink, hb]
  simp [not_le.mpr h]

/-- C19: a blink scheduled across the wrap of the clock starts at once.  A
blink forced at reading 4294966000 is completed by the `Eyes_Update` at reading
`T = 4294966296` (296 ms later, `2^32 - 1000`); with the random value 0 the
next blink is scheduled 1500 ms later, and `nextBlinkMs = T + 1500` wraps to
500.  The `Eyes_Update` at reading `T + 20 = 4294966316` finds
`now >= nextBlinkMs` and sets `blinking` back to true, 20 ms after `T`. -/
theorem blink_starts_early_before_wrap :
    S_late.ready = true ∧ S_late.blinking = true ∧ S_late.blinkStart = 4294966000 ∧
    sub32 4294966296 S_late.blinkStart = 296 ∧
    (Eyes_Update sinf_sample S_late 4294966296 0 box64 box64R).1.blinking = false ∧
    (Eyes_Update sinf_sample S_late 4294966296 0 box64 box64R).1.nextBlinkMs = 500 ∧
    add32 4294966296 1500 = 500 ∧
    sub32 4294966316 4294966296 = 20 ∧
    (Eyes_Update sinf_sample (Eyes_Update sinf_sample S_late 4294966296 0 box64 box64R).1
      4294966316 0 box64 box64R).1.blinking = true ∧
    (run_from sinf_sample S_late [Op.update 4294966296 0 box64 box64R,
      Op.update 4294966316 0 box64 box64R]).blinking = true := by
  have h1 : (Eyes_Update sinf_sample S_late 4294966296 0 box64 box64R).1 =
      (update_blink S_late 4294966296 0 box64 box64R).1 := by
    rw [Eyes_Update_ready sinf_sample S_late 4294966296 0 box64 box64R rfl]
  have hr1 : (update_blink S_late 4294966296 0 box64 box64R).1.ready = true := by decide!
  have hb1 : (update_blink S_late 4294966296 0 box64 box64R).1.blinking = false := by decide!
  have hn1 : (update_blink S_late 4294966296 0 box64 box64R).1.nextBlinkMs = 500 := by decide!
  have h2 : (Eyes_Update sinf_sample (update_blink S_late 4294966296 0 box64 box64R).1
      4294966316 0 box64 box64R).1 =
      (update_blink (update_blink S_late 4294966296 0 box64 box64R).1
        4294966316 0 box64 box64R).1 := by
    rw [Eyes_Update_ready sinf_sample _ 4294966316 0 box64 box64R hr1]
  have hb2 : (update_blink (update_blink S_late 4294966296 0 box64 box64R).1
      4294966316 0 box64 box64R).1.blinking = true := by decide!
  refine ⟨rfl, rfl, rfl, by decide, ?_, ?_, by decide, by decide, ?_, ?_⟩
  · rw [h1, hb1]
  · rw [h1, hn1]
  · rw [h1, h2, hb2]
  · show (Eyes_Update sinf_sample (Eyes_Update sinf_sample S_late 4294966296 0 box64 box64R).1
      4294966316 0 box64 box64R).1.blinking = true
    rw [h1, h2, hb2]

end Eyes
